import Mathlib

/-!
The corosync qdevice-net client: protocol engine.

A shallow embedding of `qdevices/corosync-qdevice-net.c`, namely the connection
record, the reply handlers of the handshake state machine and the message
dispatcher, the echo channel, the socket reader and writer, one iteration of the
event loop and the reading of the configuration, followed by the properties
proved about them.

Conventions of the embedding.
* A C function taking `struct qdevice_net_instance *` becomes a function from
  the record to the pair (returned `int`, record after the call).
* `uint32_t` counters are natural numbers; `++` is addition modulo `2 ^ 32`.
* `int` flags stay integers: tested against `0`, assigned `0` or `1`.
* A pointer that may be `NULL` is an `Option`; an array with its element count
  is a `List`.
* Logging has no effect on the record and is left out.
* A function of the socket layer or of the event loop yields how control left it
  (a returned value, or `errx` ending the process), the record afterwards and the
  calls it made; the functions of the libraries it calls are parameters.
* A C string is the list of its bytes.
-/

namespace QdeviceNet

/-! ## Data model -/

/-- The `enum tlv_tls_supported` of `tlv.h`: the three TLS modes. -/
inductive tlv_tls_supported where
  | TLV_TLS_UNSUPPORTED
  | TLV_TLS_SUPPORTED
  | TLV_TLS_REQUIRED
  deriving DecidableEq, Repr

/-- The `enum qdevice_net_state` of the source (lines 94-99). -/
inductive qdevice_net_state where
  | QDEVICE_NET_STATE_WAITING_PREINIT_REPLY
  | QDEVICE_NET_STATE_WAITING_STARTTLS_BEING_SENT
  | QDEVICE_NET_STATE_WAITING_INIT_REPLY
  | QDEVICE_NET_STATE_WAITING_SET_OPTION_REPLY
  deriving DecidableEq, Repr

/-- The `enum msg_type` of `msg.h`: the ten message types of the spec (section 4.3);
`other v` stands for any other value `v` of the type field. -/
inductive msg_type where
  | MSG_TYPE_PREINIT
  | MSG_TYPE_PREINIT_REPLY
  | MSG_TYPE_STARTTLS
  | MSG_TYPE_INIT
  | MSG_TYPE_INIT_REPLY
  | MSG_TYPE_SERVER_ERROR
  | MSG_TYPE_SET_OPTION
  | MSG_TYPE_SET_OPTION_REPLY
  | MSG_TYPE_ECHO_REQUEST
  | MSG_TYPE_ECHO_REPLY
  | other (v : Nat)
  deriving DecidableEq, Repr

/-- The fields of `struct msg_decoded` (`msg.h`) that the client reads.
`supported_messages`, `supported_options` and `supported_decision_algorithms`
are pointers in C (`none` is `NULL`); the list holds the
`no_supported_...` entries the pointer refers to. -/
structure msg_decoded where
  type : msg_type
  seq_number_set : Bool
  seq_number : Nat
  tls_supported_set : Bool
  tls_supported : tlv_tls_supported
  tls_client_cert_required_set : Bool
  tls_client_cert_required : Bool
  server_maximum_request_size_set : Bool
  server_maximum_request_size : Nat
  server_maximum_reply_size_set : Bool
  server_maximum_reply_size : Nat
  supported_messages : Option (List Nat)
  supported_options : Option (List Nat)
  supported_decision_algorithms : Option (List Nat)
  decision_algorithm_set : Bool
  decision_algorithm : Nat
  heartbeat_interval_set : Bool
  heartbeat_interval : Nat
  reply_error_code_set : Bool
  reply_error_code : Nat
  deriving DecidableEq, Repr

/-- Modelled from the spec: `struct dynar` (`dynar.h` is not among the sources).
Section 4.1: a byte buffer with a current content and a hard maximum. -/
structure dynar where
  data : List Nat
  maximum_size : Nat
  deriving DecidableEq, Repr

/-- Modelled from the spec: `dynar_init` (`dynar.c` is not among the sources):
an empty buffer whose hard maximum is the size given. -/
def dynar_init (maximum_size : Nat) : dynar :=
  { data := [], maximum_size := maximum_size }

/-- Modelled from the spec: `dynar_set_max_size` (`dynar.c` is not among the
sources), the "set new maximum" operation of section 4.1. -/
def dynar_set_max_size (array : dynar) (maximum_size : Nat) : dynar :=
  { array with maximum_size := maximum_size }

/-- Modelled from the spec: `dynar_clean` (`dynar.c` is not among the sources),
the "clear" operation of section 4.1. -/
def dynar_clean (array : dynar) : dynar :=
  { array with data := [] }

/-- The callbacks this program hands to the timer list. -/
inductive timer_list_cb_fn where
  | qdevice_net_timer_send_heartbeat
  deriving DecidableEq, Repr

/-- Modelled from the spec: `struct timer_list_entry` (`timer-list.h` is not
among the sources). Section 4.2: an entry holds the interval it was added with
and its callback; `id` plays the part of the entry's address, which is what the
handle returned by `timer_list_add` is. The user data of every entry of this
program is the one connection instance and is not recorded. -/
structure timer_list_entry where
  id : Nat
  interval : Nat
  func : timer_list_cb_fn
  deriving DecidableEq, Repr

/-- Modelled from the spec: `struct timer_list` (`timer-list.h` is not among the
sources): the entries in the order they were added, and the next fresh entry
identity. Deadlines are real time and are not part of the model. -/
structure timer_list where
  entries : List timer_list_entry
  next_id : Nat
  deriving DecidableEq, Repr

/-- Modelled from the spec: `timer_list_init`. -/
def timer_list_init : timer_list :=
  { entries := [], next_id := 0 }

/-- Modelled from the spec: `timer_list_add` (`timer-list.c` is not among the
sources), `add(interval, cb, data) → handle` of section 4.2. `alloc_ok` says
whether the entry could be allocated; when it could not, the list is unchanged
and the handle is `NULL`. -/
def timer_list_add (tlist : timer_list) (alloc_ok : Bool) (interval : Nat)
    (func : timer_list_cb_fn) : timer_list × Option timer_list_entry :=
  if alloc_ok then
    let entry : timer_list_entry := { id := tlist.next_id, interval := interval, func := func }
    ({ entries := tlist.entries ++ [entry], next_id := tlist.next_id + 1 }, some entry)
  else
    (tlist, none)

/-- The `struct qdevice_net_instance` of the source (lines 101-135). The socket
and the poll descriptor are handles; the cmap and votequorum handles take no
part in the protocol engine and are left out. -/
structure qdevice_net_instance where
  socket : Nat
  initial_send_size : Nat
  initial_receive_size : Nat
  max_receive_size : Nat
  min_send_size : Nat
  receive_buffer : dynar
  send_buffer : dynar
  echo_request_send_buffer : dynar
  sending_msg : Int
  skipping_msg : Int
  sending_echo_request_msg : Int
  msg_already_received_bytes : Nat
  msg_already_sent_bytes : Nat
  echo_request_msg_already_sent_bytes : Nat
  state : qdevice_net_state
  expected_msg_seq_num : Nat
  echo_request_expected_msg_seq_num : Nat
  echo_reply_received_msg_seq_num : Nat
  tls_supported : tlv_tls_supported
  using_tls : Int
  node_id : Nat
  heartbeat_interval : Nat
  sync_heartbeat_interval : Nat
  host_addr : String
  host_port : Nat
  cluster_name : String
  decision_algorithm : Nat
  main_timer_list : timer_list
  echo_request_timer : Option timer_list_entry
  schedule_disconnect : Int
  deriving DecidableEq, Repr

/-- The message encoder of `msg.h` and the two capability tables, which are not
among the sources, taken as parameters. Each `msg_create_...` is given the target
buffer and the arguments of the C call and yields the bytes the buffer holds
afterwards together with the returned `size_t`. The hard maximum of the target
buffer is not the encoder's to change. -/
structure msg_codec where
  tlv_get_supported_options : List Nat
  msg_get_supported_messages : List Nat
  msg_create_preinit : dynar → String → Bool → Nat → List Nat × Nat
  msg_create_starttls : dynar → Bool → Nat → List Nat × Nat
  msg_create_init : dynar → Bool → Nat → List Nat → List Nat → Nat → List Nat × Nat
  msg_create_set_option : dynar → Bool → Nat → Bool → Nat → Bool → Nat → List Nat × Nat
  msg_create_echo_request : dynar → Bool → Nat → List Nat × Nat

/-- What a handler is given besides the instance and the message: the encoder,
and whether the timer list can allocate an entry during the call. -/
structure handler_env where
  codec : msg_codec
  timer_alloc_ok : Bool

/-- Writes the bytes an encoder produced into a buffer, keeping its hard maximum. -/
def dynar_store (array : dynar) (bytes : List Nat) : dynar :=
  { array with data := bytes }

/-- The increment of a `uint32_t`. -/
def uint32_inc (v : Nat) : Nat :=
  (v + 1) % 2 ^ 32

/-! ## Operations -/

/-- The source, lines 170-184. -/
def qdevice_net_schedule_send (inst : qdevice_net_instance) : Int × qdevice_net_instance :=
  if inst.sending_msg ≠ 0 then
    (-1, inst)
  else
    (0, { inst with msg_already_sent_bytes := 0, sending_msg := 1 })

/-- The source, lines 238-275: `-1` incompatible, `0` no TLS, `1` use TLS. -/
def qdevice_net_check_tls_compatibility (server_tls client_tls : tlv_tls_supported) : Int :=
  match server_tls with
  | .TLV_TLS_UNSUPPORTED =>
    match client_tls with
    | .TLV_TLS_UNSUPPORTED => 0
    | .TLV_TLS_SUPPORTED => 0
    | .TLV_TLS_REQUIRED => -1
  | .TLV_TLS_SUPPORTED =>
    match client_tls with
    | .TLV_TLS_UNSUPPORTED => 0
    | .TLV_TLS_SUPPORTED => 1
    | .TLV_TLS_REQUIRED => 1
  | .TLV_TLS_REQUIRED =>
    match client_tls with
    | .TLV_TLS_UNSUPPORTED => -1
    | .TLV_TLS_SUPPORTED => 1
    | .TLV_TLS_REQUIRED => 1

/-- The source, lines 277-284. -/
def qdevice_net_msg_received_preinit (inst : qdevice_net_instance) (_msg : msg_decoded) :
    Int × qdevice_net_instance :=
  (-1, inst)

/-- The source, lines 286-297. -/
def qdevice_net_msg_check_seq_number (inst : qdevice_net_instance) (msg : msg_decoded) : Int :=
  if !msg.seq_number_set || msg.seq_number != inst.expected_msg_seq_num then -1 else 0

/-- The source, lines 299-316. -/
def qdevice_net_msg_check_echo_reply_seq_number (inst : qdevice_net_instance)
    (msg : msg_decoded) : Int :=
  if !msg.seq_number_set then -1
  else if msg.seq_number != inst.echo_request_expected_msg_seq_num then -1
  else 0

/-- The source, lines 318-347. -/
def qdevice_net_send_init (codec : msg_codec) (inst : qdevice_net_instance) :
    Int × qdevice_net_instance :=
  let supported_opts := codec.tlv_get_supported_options
  let supported_msgs := codec.msg_get_supported_messages
  let inst := { inst with expected_msg_seq_num := uint32_inc inst.expected_msg_seq_num }
  let r := codec.msg_create_init inst.send_buffer true inst.expected_msg_seq_num
    supported_msgs supported_opts inst.node_id
  let inst := { inst with send_buffer := dynar_store inst.send_buffer r.1 }
  if r.2 = 0 then
    (-1, inst)
  else
    let s := qdevice_net_schedule_send inst
    if s.1 ≠ 0 then
      (-1, s.2)
    else
      (0, { s.2 with state := .QDEVICE_NET_STATE_WAITING_INIT_REPLY })

/-- The source, lines 350-405. -/
def qdevice_net_msg_received_preinit_reply (env : handler_env) (inst : qdevice_net_instance)
    (msg : msg_decoded) : Int × qdevice_net_instance :=
  if inst.state ≠ .QDEVICE_NET_STATE_WAITING_PREINIT_REPLY then
    (-1, inst)
  else if qdevice_net_msg_check_seq_number inst msg ≠ 0 then
    (-1, inst)
  else if !msg.tls_supported_set || !msg.tls_client_cert_required_set then
    (-1, inst)
  else
    let res := qdevice_net_check_tls_compatibility msg.tls_supported inst.tls_supported
    if res = -1 then
      (-1, inst)
    else if res = 1 then
      let inst := { inst with expected_msg_seq_num := uint32_inc inst.expected_msg_seq_num }
      let r := env.codec.msg_create_starttls inst.send_buffer true inst.expected_msg_seq_num
      let inst := { inst with send_buffer := dynar_store inst.send_buffer r.1 }
      if r.2 = 0 then
        (-1, inst)
      else
        let s := qdevice_net_schedule_send inst
        if s.1 ≠ 0 then
          (-1, s.2)
        else
          (0, { s.2 with state := .QDEVICE_NET_STATE_WAITING_STARTTLS_BEING_SENT })
    else if res = 0 then
      let s := qdevice_net_send_init env.codec inst
      if s.1 ≠ 0 then (-1, s.2) else (0, s.2)
    else
      (0, inst)

/-- The loop of the source, lines 468-474, over the entries not yet visited:
it stops at the first entry equal to the algorithm wanted. -/
def decision_algorithm_loop (algorithms : List Nat) (decision_algorithm : Nat) (res : Int) : Int :=
  match algorithms with
  | [] => res
  | a :: rest =>
    if res ≠ 0 then res
    else decision_algorithm_loop rest decision_algorithm (if a = decision_algorithm then 1 else res)

/-- The source, lines 407-503. -/
def qdevice_net_msg_received_init_reply (env : handler_env) (inst : qdevice_net_instance)
    (msg : msg_decoded) : Int × qdevice_net_instance :=
  if inst.state ≠ .QDEVICE_NET_STATE_WAITING_INIT_REPLY then
    (-1, inst)
  else if qdevice_net_msg_check_seq_number inst msg ≠ 0 then
    (-1, inst)
  else if !msg.server_maximum_request_size_set || !msg.server_maximum_reply_size_set then
    (-1, inst)
  else if msg.supported_messages.isNone || msg.supported_options.isNone then
    (-1, inst)
  else
    match msg.supported_decision_algorithms with
    | none => (-1, inst)
    | some algorithms =>
      if msg.server_maximum_request_size < inst.min_send_size then
        (-1, inst)
      else if msg.server_maximum_reply_size > inst.max_receive_size then
        (-1, inst)
      else
        let inst := { inst with
          receive_buffer := dynar_set_max_size inst.receive_buffer msg.server_maximum_reply_size }
        let inst := { inst with
          send_buffer := dynar_set_max_size inst.send_buffer msg.server_maximum_request_size }
        let inst := { inst with
          echo_request_send_buffer :=
            dynar_set_max_size inst.echo_request_send_buffer msg.server_maximum_request_size }
        let res := decision_algorithm_loop algorithms inst.decision_algorithm 0
        if res = 0 then
          (-1, inst)
        else
          let inst := { inst with expected_msg_seq_num := uint32_inc inst.expected_msg_seq_num }
          let r := env.codec.msg_create_set_option inst.send_buffer true inst.expected_msg_seq_num
            true inst.decision_algorithm true inst.heartbeat_interval
          let inst := { inst with send_buffer := dynar_store inst.send_buffer r.1 }
          if r.2 = 0 then
            (-1, inst)
          else
            let s := qdevice_net_schedule_send inst
            if s.1 ≠ 0 then
              (-1, s.2)
            else
              (0, { s.2 with state := .QDEVICE_NET_STATE_WAITING_SET_OPTION_REPLY })

/-- The source, lines 505-512. -/
def qdevice_net_msg_received_stattls (inst : qdevice_net_instance) (_msg : msg_decoded) :
    Int × qdevice_net_instance :=
  (-1, inst)

/-- The source, lines 514-526: both branches only log. -/
def qdevice_net_msg_received_server_error (inst : qdevice_net_instance) (_msg : msg_decoded) :
    Int × qdevice_net_instance :=
  (-1, inst)

/-- The source, lines 528-535. -/
def qdevice_net_msg_received_set_option (inst : qdevice_net_instance) (_msg : msg_decoded) :
    Int × qdevice_net_instance :=
  (-1, inst)

/-- The source, lines 555-590. The branch on missing options (lines 563-566)
only logs and falls through to the comparison that follows it. -/
def qdevice_net_msg_received_set_option_reply (env : handler_env) (inst : qdevice_net_instance)
    (msg : msg_decoded) : Int × qdevice_net_instance :=
  if qdevice_net_msg_check_seq_number inst msg ≠ 0 then
    (-1, inst)
  else if msg.decision_algorithm != inst.decision_algorithm ||
      msg.heartbeat_interval != inst.heartbeat_interval then
    (-1, inst)
  else if inst.heartbeat_interval > 0 then
    let t := timer_list_add inst.main_timer_list env.timer_alloc_ok inst.heartbeat_interval
      .qdevice_net_timer_send_heartbeat
    let inst := { inst with main_timer_list := t.1, echo_request_timer := t.2 }
    if inst.echo_request_timer.isNone then
      (-1, inst)
    else
      (0, inst)
  else
    (0, inst)

/-- The source, lines 592-599. -/
def qdevice_net_msg_received_echo_request (inst : qdevice_net_instance) (_msg : msg_decoded) :
    Int × qdevice_net_instance :=
  (-1, inst)

/-- The source, lines 601-612. -/
def qdevice_net_msg_received_echo_reply (inst : qdevice_net_instance) (msg : msg_decoded) :
    Int × qdevice_net_instance :=
  if qdevice_net_msg_check_echo_reply_seq_number inst msg ≠ 0 then
    (-1, inst)
  else
    (0, { inst with echo_reply_received_msg_seq_num := msg.seq_number })

/-- The source, lines 615-674. `decoded` is what `msg_decode` (not among the
sources) made of the receive buffer: its return value and the decoded message. -/
def qdevice_net_msg_received (env : handler_env) (decoded : Int × msg_decoded)
    (inst : qdevice_net_instance) : Int × qdevice_net_instance :=
  if decoded.1 ≠ 0 then
    (-1, inst)
  else
    match decoded.2.type with
    | .MSG_TYPE_PREINIT => qdevice_net_msg_received_preinit inst decoded.2
    | .MSG_TYPE_PREINIT_REPLY => qdevice_net_msg_received_preinit_reply env inst decoded.2
    | .MSG_TYPE_STARTTLS => qdevice_net_msg_received_stattls inst decoded.2
    | .MSG_TYPE_SERVER_ERROR => qdevice_net_msg_received_server_error inst decoded.2
    | .MSG_TYPE_INIT_REPLY => qdevice_net_msg_received_init_reply env inst decoded.2
    | .MSG_TYPE_SET_OPTION => qdevice_net_msg_received_set_option inst decoded.2
    | .MSG_TYPE_SET_OPTION_REPLY => qdevice_net_msg_received_set_option_reply env inst decoded.2
    | .MSG_TYPE_ECHO_REQUEST => qdevice_net_msg_received_echo_request inst decoded.2
    | .MSG_TYPE_ECHO_REPLY => qdevice_net_msg_received_echo_reply inst decoded.2
    | _ => (-1, inst)

/-- The source, lines 921-948: every field zeroed, then the arguments stored and
the three buffers and the timer list initialised. The state zeroed is the first
enumerator; the TLS mode is assigned last. -/
def qdevice_net_instance_init (initial_receive_size initial_send_size min_send_size
    max_receive_size : Nat) (tls_supported : tlv_tls_supported) (node_id decision_algorithm
    heartbeat_interval : Nat) (host_addr : String) (host_port : Nat) (cluster_name : String) :
    qdevice_net_instance :=
  { socket := 0
    initial_send_size := initial_send_size
    initial_receive_size := initial_receive_size
    max_receive_size := max_receive_size
    min_send_size := min_send_size
    receive_buffer := dynar_init initial_receive_size
    send_buffer := dynar_init initial_send_size
    echo_request_send_buffer := dynar_init initial_send_size
    sending_msg := 0
    skipping_msg := 0
    sending_echo_request_msg := 0
    msg_already_received_bytes := 0
    msg_already_sent_bytes := 0
    echo_request_msg_already_sent_bytes := 0
    state := .QDEVICE_NET_STATE_WAITING_PREINIT_REPLY
    expected_msg_seq_num := 0
    echo_request_expected_msg_seq_num := 0
    echo_reply_received_msg_seq_num := 0
    tls_supported := tls_supported
    using_tls := 0
    node_id := node_id
    heartbeat_interval := heartbeat_interval
    sync_heartbeat_interval := 0
    host_addr := host_addr
    host_port := host_port
    cluster_name := cluster_name
    decision_algorithm := decision_algorithm
    main_timer_list := timer_list_init
    echo_request_timer := none
    schedule_disconnect := 0 }

/-! ## The echo channel, the socket and the event loop -/

/-- The value the `int` constant `-1` takes when it is compared with a `size_t`
(a `size_t` of 64 bits). -/
def SIZE_MAX : Nat := 2 ^ 64 - 1

/-- The source, lines 186-213. The result of `msg_create_echo_request`, a
`size_t`, is compared with `-1` (line 203). -/
def qdevice_net_schedule_echo_request_send (codec : msg_codec) (inst : qdevice_net_instance) :
    Int × qdevice_net_instance :=
  if inst.sending_echo_request_msg ≠ 0 then
    (-1, inst)
  else if inst.echo_reply_received_msg_seq_num != inst.echo_request_expected_msg_seq_num then
    (-1, inst)
  else
    let inst := { inst with
      echo_request_expected_msg_seq_num := uint32_inc inst.echo_request_expected_msg_seq_num }
    let r := codec.msg_create_echo_request inst.echo_request_send_buffer true
      inst.echo_request_expected_msg_seq_num
    let inst := { inst with
      echo_request_send_buffer := dynar_store inst.echo_request_send_buffer r.1 }
    if r.2 = SIZE_MAX then
      (-1, inst)
    else
      (0, { inst with echo_request_msg_already_sent_bytes := 0, sending_echo_request_msg := 1 })

/-- The source, lines 537-553: `data1` is the instance. The value `-1` asks the
timer list to schedule the callback again, `0` not to. -/
def qdevice_net_timer_send_heartbeat (codec : msg_codec) (inst : qdevice_net_instance) :
    Int × qdevice_net_instance :=
  let s := qdevice_net_schedule_echo_request_send codec inst
  if s.1 = -1 then
    (0, { s.2 with schedule_disconnect := 1 })
  else
    (-1, s.2)

/-- The flags of a poll descriptor that the event loop uses: readable, writable,
and any of error, invalid, hang-up or exceptional. -/
structure poll_flags where
  read : Bool
  write : Bool
  error : Bool
  deriving DecidableEq, Repr

/-- The calls a function of the socket layer or of the event loop makes, in the
order it makes them. A call of `qdevice_net_socket_write` is recorded with
the instance as it is when the call is made, a call of `PR_Poll` with the flags
requested for the server socket. -/
inductive io_call where
  | msgio_read
  | qdevice_net_msg_received
  | msgio_write_send_buffer
  | msgio_write_echo_request_send_buffer
  | qdevice_net_socket_write_finished
  | nss_sock_start_ssl_as_client
  | PR_Poll (socket_in_flags : poll_flags)
  | qdevice_net_socket_read
  | qdevice_net_socket_write (inst : qdevice_net_instance)
  | votequorum_dispatch
  | timer_list_expire
  | qdevice_net_timer_send_heartbeat
  deriving DecidableEq, Repr

/-- How control leaves a piece of code: it reaches its end, it returns a value,
or `errx` ends the process. -/
inductive control where
  | fallthrough
  | returned (ret : Int)
  | exited
  deriving DecidableEq, Repr

/-- What running a piece of code gives: how control left it, the instance
afterwards and the calls made. -/
structure outcome where
  control : control
  inst : qdevice_net_instance
  calls : List io_call
  deriving DecidableEq, Repr

/-- Runs `f` after `o` when control reached the end of `o`. -/
def outcome.andThen (o : outcome) (f : qdevice_net_instance → outcome) : outcome :=
  match o.control with
  | .fallthrough =>
    let r := f o.inst
    { r with calls := o.calls ++ r.calls }
  | _ => o

/-- What the event loop is given from outside the program: the handlers'
environment, and the results of the functions that are not among the sources.
`msg_decode` yields its return value and the decoded message; `msgio_read` its
return value, the bytes of the receive buffer, the received-bytes progress and
the skipping flag after the call; `msgio_write` its return value and the progress
after the call; `nss_sock_start_ssl_as_client` the new descriptor or `NULL`;
`PR_Poll`, given the flags requested for the server socket and for the
votequorum descriptor, its return value and the flags reported for the two;
`votequorum_dispatch_ok` says whether the dispatch returns `CS_OK`;
`timer_is_due` which entries of the timer list have reached their deadline. -/
structure io_env where
  handlers : handler_env
  msg_decode : dynar → Int × msg_decoded
  msgio_read : Nat → dynar → Nat → Int → Int × List Nat × Nat × Int
  msgio_write : Nat → dynar → Nat → Int × Nat
  nss_sock_start_ssl_as_client : Nat → Option Nat
  PR_Poll : poll_flags → poll_flags → Int × poll_flags × poll_flags
  votequorum_dispatch_ok : Bool
  timer_is_due : timer_list_entry → Bool

/-- The source, lines 754-783. -/
def qdevice_net_socket_write_finished (env : io_env) (inst : qdevice_net_instance) : outcome :=
  if inst.state = .QDEVICE_NET_STATE_WAITING_STARTTLS_BEING_SENT then
    match env.nss_sock_start_ssl_as_client inst.socket with
    | none =>
      { control := .returned (-1), inst := inst, calls := [.nss_sock_start_ssl_as_client] }
    | some new_pr_fd =>
      let s := qdevice_net_send_init env.handlers.codec inst
      if s.1 ≠ 0 then
        { control := .returned (-1), inst := s.2, calls := [.nss_sock_start_ssl_as_client] }
      else
        { control := .returned 0, inst := { s.2 with socket := new_pr_fd },
          calls := [.nss_sock_start_ssl_as_client] }
  else
    { control := .returned 0, inst := inst, calls := [] }

/-- The choice of line 796: `true` when the echo-request buffer is the one to write. -/
def send_echo_request (inst : qdevice_net_instance) : Bool :=
  !(inst.sending_msg != 0 && inst.echo_request_msg_already_sent_bytes == 0)

/-- The source, lines 785-830. -/
def qdevice_net_socket_write (env : io_env) (inst : qdevice_net_instance) : outcome :=
  if !send_echo_request inst then
    let w := env.msgio_write inst.socket inst.send_buffer inst.msg_already_sent_bytes
    let inst := { inst with msg_already_sent_bytes := w.2 }
    if w.1 = 1 then
      let inst := { inst with sending_msg := 0 }
      let f := qdevice_net_socket_write_finished env inst
      if f.control = .returned (-1) then
        { control := .returned (-1), inst := f.inst,
          calls := [.msgio_write_send_buffer, .qdevice_net_socket_write_finished] ++ f.calls }
      else
        { control := .returned 0, inst := f.inst,
          calls := [.msgio_write_send_buffer, .qdevice_net_socket_write_finished] ++ f.calls }
    else if w.1 = -1 then
      { control := .returned (-1), inst := inst, calls := [.msgio_write_send_buffer] }
    else if w.1 = -2 then
      { control := .returned (-1), inst := inst, calls := [.msgio_write_send_buffer] }
    else
      { control := .returned 0, inst := inst, calls := [.msgio_write_send_buffer] }
  else
    let w := env.msgio_write inst.socket inst.echo_request_send_buffer
      inst.echo_request_msg_already_sent_bytes
    let inst := { inst with echo_request_msg_already_sent_bytes := w.2 }
    if w.1 = 1 then
      { control := .returned 0, inst := { inst with sending_echo_request_msg := 0 },
        calls := [.msgio_write_echo_request_send_buffer] }
    else if w.1 = -1 then
      { control := .returned (-1), inst := inst, calls := [.msgio_write_echo_request_send_buffer] }
    else if w.1 = -2 then
      { control := .returned (-1), inst := inst, calls := [.msgio_write_echo_request_send_buffer] }
    else
      { control := .returned 0, inst := inst, calls := [.msgio_write_echo_request_send_buffer] }

/-- The source, lines 676-752. The two `errx` calls end the process. -/
def qdevice_net_socket_read (env : io_env) (inst : qdevice_net_instance) : outcome :=
  let r := env.msgio_read inst.socket inst.receive_buffer inst.msg_already_received_bytes
    inst.skipping_msg
  let inst := { inst with
    receive_buffer := dynar_store inst.receive_buffer r.2.1
    msg_already_received_bytes := r.2.2.1
    skipping_msg := r.2.2.2 }
  let res := r.1
  if res = 0 then
    { control := .returned 0, inst := inst, calls := [.msgio_read] }
  else if res = -1 ∨ res = -2 ∨ res = -3 ∨ res = -4 ∨ res = -5 ∨ res = -6 then
    { control := .returned (-1), inst := inst, calls := [.msgio_read] }
  else if res = 1 then
    if inst.skipping_msg = 0 then
      let m := qdevice_net_msg_received env.handlers (env.msg_decode inst.receive_buffer) inst
      let ret_val : Int := if m.1 = -1 then -1 else 0
      { control := .returned ret_val,
        inst := { m.2 with
          skipping_msg := 0
          msg_already_received_bytes := 0
          receive_buffer := dynar_clean m.2.receive_buffer },
        calls := [.msgio_read, .qdevice_net_msg_received] }
    else
      { control := .exited, inst := inst, calls := [.msgio_read] }
  else
    { control := .exited, inst := inst, calls := [.msgio_read] }

/-- Runs the callback of a timer entry on the instance. -/
def timer_list_entry_call (codec : msg_codec) (entry : timer_list_entry)
    (inst : qdevice_net_instance) : Int × qdevice_net_instance :=
  match entry.func with
  | .qdevice_net_timer_send_heartbeat => qdevice_net_timer_send_heartbeat codec inst

/-- Modelled from the spec: the loop of `timer_list_expire` (`timer-list.c` is not
among the sources) over the entries that are due. Section 4.2: the callback of
each is invoked; an entry whose callback returns the reschedule value (`-1` in
this program) stays in the list, any other return removes it. -/
def timer_list_expire_entries (codec : msg_codec) (due : List timer_list_entry)
    (inst : qdevice_net_instance) : qdevice_net_instance × List io_call :=
  match due with
  | [] => (inst, [])
  | entry :: rest =>
    let r := timer_list_entry_call codec entry inst
    let inst :=
      if r.1 = -1 then r.2
      else { r.2 with
        main_timer_list :=
          { r.2.main_timer_list with entries := r.2.main_timer_list.entries.erase entry } }
    let t := timer_list_expire_entries codec rest inst
    (t.1, .qdevice_net_timer_send_heartbeat :: t.2)

/-- Modelled from the spec: `timer_list_expire` (`timer-list.c` is not among the
sources), `expire_due()` of section 4.2, on the timer list of the instance. -/
def timer_list_expire (env : io_env) (inst : qdevice_net_instance) :
    qdevice_net_instance × List io_call :=
  timer_list_expire_entries env.handlers.codec
    (inst.main_timer_list.entries.filter env.timer_is_due) inst

/-- The flags requested for the server socket (lines 844-848). -/
def poll_socket_in_flags (inst : qdevice_net_instance) : poll_flags :=
  { read := true
    write := inst.sending_msg != 0 || inst.sending_echo_request_msg != 0
    error := false }

/-- The flags requested for the votequorum descriptor (lines 849-850). -/
def poll_votequorum_in_flags : poll_flags :=
  { read := true, write := false, error := false }

/-- The read branch of the loop body for the server socket (lines 857-864): a
failed read marks the disconnect. -/
def poll_socket_read (env : io_env) (out_flags : poll_flags) (inst : qdevice_net_instance) :
    outcome :=
  if out_flags.read then
    let r := qdevice_net_socket_read env inst
    match r.control with
    | .returned v =>
      { control := .fallthrough,
        inst := if v = -1 then { r.inst with schedule_disconnect := 1 } else r.inst,
        calls := .qdevice_net_socket_read :: r.calls }
    | .fallthrough =>
      { control := .fallthrough, inst := r.inst, calls := .qdevice_net_socket_read :: r.calls }
    | .exited =>
      { control := .exited, inst := r.inst, calls := .qdevice_net_socket_read :: r.calls }
  else
    { control := .fallthrough, inst := inst, calls := [] }

/-- The write branch of the loop body for the server socket (lines 876-883): a
failed write marks the disconnect. -/
def poll_socket_write (env : io_env) (out_flags : poll_flags) (inst : qdevice_net_instance) :
    outcome :=
  if inst.schedule_disconnect = 0 ∧ out_flags.write = true then
    let r := qdevice_net_socket_write env inst
    { control := .fallthrough,
      inst := if r.control = .returned (-1) then { r.inst with schedule_disconnect := 1 }
        else r.inst,
      calls := .qdevice_net_socket_write inst :: r.calls }
  else
    { control := .fallthrough, inst := inst, calls := [] }

/-- The error branch of the loop body for the server socket (lines 890-898). -/
def poll_socket_error (out_flags : poll_flags) (inst : qdevice_net_instance) : outcome :=
  if inst.schedule_disconnect = 0 ∧ out_flags.error = true then
    { control := .returned (-1), inst := inst, calls := [] }
  else
    { control := .fallthrough, inst := inst, calls := [] }

/-- The body of the loop of lines 856-904 for the server socket. -/
def qdevice_net_poll_socket (env : io_env) (out_flags : poll_flags)
    (inst : qdevice_net_instance) : outcome :=
  (poll_socket_read env out_flags inst).andThen fun inst =>
    (poll_socket_write env out_flags inst).andThen (poll_socket_error out_flags)

/-- The read branch of the loop body for the votequorum descriptor (lines
865-869): a failed dispatch ends in `errx`. -/
def poll_votequorum_read (env : io_env) (out_flags : poll_flags)
    (inst : qdevice_net_instance) : outcome :=
  if out_flags.read then
    if env.votequorum_dispatch_ok then
      { control := .fallthrough, inst := inst, calls := [.votequorum_dispatch] }
    else
      { control := .exited, inst := inst, calls := [.votequorum_dispatch] }
  else
    { control := .fallthrough, inst := inst, calls := [] }

/-- The write and error branches of the loop body for the votequorum descriptor
(lines 884-886 and 899-901): each ends in `errx`. -/
def poll_votequorum_unhandled (flag : Bool) (inst : qdevice_net_instance) : outcome :=
  if inst.schedule_disconnect = 0 ∧ flag = true then
    { control := .exited, inst := inst, calls := [] }
  else
    { control := .fallthrough, inst := inst, calls := [] }

/-- The body of the loop of lines 856-904 for the votequorum descriptor. -/
def qdevice_net_poll_votequorum (env : io_env) (out_flags : poll_flags)
    (inst : qdevice_net_instance) : outcome :=
  (poll_votequorum_read env out_flags inst).andThen fun inst =>
    (poll_votequorum_unhandled out_flags.write inst).andThen
      (poll_votequorum_unhandled out_flags.error)

/-- The end of an iteration (lines 907-918): the due timers are expired unless a
disconnect is marked, and the iteration returns `-1` when one is marked. -/
def poll_expire_and_return (env : io_env) (inst : qdevice_net_instance) : outcome :=
  let expired : outcome :=
    if inst.schedule_disconnect = 0 then
      let t := timer_list_expire env inst
      { control := .fallthrough, inst := t.1, calls := .timer_list_expire :: t.2 }
    else
      { control := .fallthrough, inst := inst, calls := [] }
  expired.andThen fun inst =>
    if inst.schedule_disconnect ≠ 0 then
      { control := .returned (-1), inst := inst, calls := [] }
    else
      { control := .returned 0, inst := inst, calls := [] }

/-- The loop of lines 856-904 over the two descriptors, entered when `PR_Poll`
returned a positive value. -/
def poll_descriptors (env : io_env) (poll_res : Int) (socket_out votequorum_out : poll_flags)
    (inst : qdevice_net_instance) : outcome :=
  if poll_res > 0 then
    (qdevice_net_poll_socket env socket_out inst).andThen
      (qdevice_net_poll_votequorum env votequorum_out)
  else
    { control := .fallthrough, inst := inst, calls := [] }

/-- The source, lines 837-919: one iteration of the event loop. -/
def qdevice_net_poll (env : io_env) (inst : qdevice_net_instance) : outcome :=
  let socket_in_flags := poll_socket_in_flags inst
  let inst := { inst with schedule_disconnect := 0 }
  let p := env.PR_Poll socket_in_flags poll_votequorum_in_flags
  let polled : outcome :=
    { control := .fallthrough, inst := inst, calls := [.PR_Poll socket_in_flags] }
  polled.andThen fun inst =>
    (poll_descriptors env p.1 p.2.1 p.2.2 inst).andThen (poll_expire_and_return env)

/-- The part of `main` that schedules PREINIT (lines 1202-1213): `none` when one
of its two `errx` calls ends the process. -/
def main_schedule_preinit (codec : msg_codec) (inst : qdevice_net_instance) :
    Option qdevice_net_instance :=
  let inst := { inst with expected_msg_seq_num := 1 }
  let r := codec.msg_create_preinit inst.send_buffer inst.cluster_name true
    inst.expected_msg_seq_num
  let inst := { inst with send_buffer := dynar_store inst.send_buffer r.1 }
  if r.2 = 0 then
    none
  else
    let s := qdevice_net_schedule_send inst
    if s.1 ≠ 0 then
      none
    else
      some { s.2 with state := .QDEVICE_NET_STATE_WAITING_PREINIT_REPLY }

/-! ## Configuration -/

/-- The bytes of a C string given as text, each character by its code. A character
outside ASCII has a code above 127, as has each of its bytes in UTF-8; the C
library functions below tell apart ASCII letters, digits, signs and white space
only. -/
def c_str (s : String) : List Nat :=
  s.toList.map Char.toNat

/-- The C library's `tolower` in the "C" locale (the program never calls
`setlocale`): the upper-case ASCII letters are mapped to lower case. -/
def tolower (c : Nat) : Nat :=
  if 65 ≤ c ∧ c ≤ 90 then c + 32 else c

/-- The C library's `strcasecmp` on two C strings, up to the sign of its result
(the program only tests it against `0`): the strings are compared byte by byte
after `tolower`. -/
def strcasecmp : List Nat → List Nat → Int
  | [], [] => 0
  | [], _ :: _ => -1
  | _ :: _, [] => 1
  | a :: s1, b :: s2 =>
    if tolower a = tolower b then strcasecmp s1 s2
    else if tolower a < tolower b then -1 else 1

/-- The source, lines 992-1003. -/
def qdevice_net_parse_bool_str (str : List Nat) : Int :=
  if strcasecmp str (c_str "yes") = 0 ∨ strcasecmp str (c_str "on") = 0 ∨
      strcasecmp str (c_str "1") = 0 then
    1
  else if strcasecmp str (c_str "no") = 0 ∨ strcasecmp str (c_str "off") = 0 ∨
      strcasecmp str (c_str "0") = 0 then
    0
  else
    -1

/-- The C library's `isspace` in the "C" locale: space, and the five control
characters from `\t` to `\r`. -/
def isspace (c : Nat) : Bool :=
  c = 32 ∨ (9 ≤ c ∧ c ≤ 13)

/-- The C library's `isdigit`. -/
def isdigit (c : Nat) : Bool :=
  48 ≤ c ∧ c ≤ 57

/-- The largest `long` where it has 64 bits. -/
def LONG_MAX : Int := 2 ^ 63 - 1

/-- The smallest `long` where it has 64 bits. -/
def LONG_MIN : Int := -(2 ^ 63)

/-- The digits at the start of a string read as a number in base 10, `acc` being
the value read so far, and the bytes behind them. -/
def strtol_digits : List Nat → Nat → Nat × List Nat
  | [], acc => (acc, [])
  | c :: rest, acc =>
    if isdigit c then strtol_digits rest (acc * 10 + (c - 48)) else (acc, c :: rest)

/-- The C library's `strtol(str, &ep, 10)` where `long` has 64 bits: white space is
skipped, an optional sign is read, then the digits; the value is clamped to the
range of `long`. The result is the value and the bytes `ep` points to; when no
digit can be read the value is `0` and `ep` is `str`. -/
def strtol (str : List Nat) : Int × List Nat :=
  let s1 := str.dropWhile isspace
  let negative := s1.head? = some 45
  let s2 := if s1.head? = some 45 ∨ s1.head? = some 43 then s1.tail else s1
  match s2 with
  | [] => (0, str)
  | c :: _ =>
    if isdigit c then
      let d := strtol_digits s2 0
      let v : Int := if negative then -(d.1 : Int) else (d.1 : Int)
      (max LONG_MIN (min LONG_MAX v), d.2)
    else
      (0, str)

/-- The conversion of a `long` to `int` (32 bits) as GCC and Clang define it:
reduction modulo `2 ^ 32` into the range of `int`. -/
def int_of_long (v : Int) : Int :=
  (v + 2 ^ 31) % 2 ^ 32 - 2 ^ 31

/-- The conversion of an `int` to `uint16_t`: reduction modulo `2 ^ 16`. -/
def uint16_of_int (v : Int) : Nat :=
  (v % 2 ^ 16).toNat

/-- The keys of the configuration store that `qdevice_net_instance_init_from_cmap`
reads; `none` when reading the key does not give `CS_OK`. -/
structure cmap where
  quorum_device_model : Option String
  runtime_votequorum_this_node_id : Option Nat
  quorum_device_net_tls : Option String
  quorum_device_net_host : Option String
  quorum_device_net_port : Option String
  totem_cluster_name : Option String
  quorum_device_timeout : Option Nat
  quorum_device_sync_timeout : Option Nat

/-- What `qdevice_net_instance_init_from_cmap` takes from outside the source file:
the constants of the headers that are not among the sources, the scaling of a
timeout (the multiplication `* 0.8` in `double` and the conversion of the product
to `uint32_t`, lines 1093 and 1098), the value the local variable
`tls_supported` holds while it is not assigned, and what the memory of a string
holds once it is freed: `read_freed bytes offset` is the byte read at `offset` in
the block that held the string `bytes` before `free`. -/
structure cmap_defaults where
  QNETD_DEFAULT_HOST_PORT : Int
  VOTEQUORUM_QDEVICE_DEFAULT_TIMEOUT : Nat
  VOTEQUORUM_QDEVICE_DEFAULT_SYNC_TIMEOUT : Nat
  TLV_DECISION_ALGORITHM_TYPE_TEST : Nat
  scale_timeout : Nat → Nat
  tls_supported_unassigned : tlv_tls_supported
  read_freed : List Nat → Nat → Nat

/-- The TLS mode read from the configuration (lines 1040-1053): `none` when `errx`
ends the process. When the key is absent the variable is not assigned. -/
def init_from_cmap_tls (unassigned : tlv_tls_supported) (tls : Option String) :
    Option tlv_tls_supported :=
  match tls with
  | some str =>
    let i := qdevice_net_parse_bool_str (c_str str)
    if i = -1 then none
    else if i = 1 then some .TLV_TLS_SUPPORTED
    else some .TLV_TLS_UNSUPPORTED
  | none => some unassigned

/-- The port read from the configuration (lines 1067-1077), the `int host_port` of
line 1016: `none` when `errx` ends the process. The string is freed (line 1070)
before the check of line 1072 reads `*ep`, so that check reads the freed block at
the offset of `ep`, which is the number of bytes `strtol` consumed. -/
def init_from_cmap_host_port (default_host_port : Int) (read_freed : List Nat → Nat → Nat)
    (port : Option String) : Option Int :=
  match port with
  | some str =>
    let r := strtol (c_str str)
    let host_port := int_of_long r.1
    let ep := (c_str str).length - r.2.length
    if host_port ≤ 0 ∨ host_port > 65535 ∨ read_freed (c_str str) ep ≠ 0 then none
    else some host_port
  | none => some default_host_port

/-- The source, lines 1005-1119: `none` when one of the `errx` calls ends the
process. The `cmap` handle stored last takes no part in the protocol engine. -/
def qdevice_net_instance_init_from_cmap (defaults : cmap_defaults) (cm : cmap) :
    Option qdevice_net_instance :=
  match cm.quorum_device_model with
  | none => none
  | some model =>
    if model ≠ "net" then none
    else
      match cm.runtime_votequorum_this_node_id with
      | none => none
      | some node_id =>
        match init_from_cmap_tls defaults.tls_supported_unassigned cm.quorum_device_net_tls with
        | none => none
        | some tls_supported =>
          match cm.quorum_device_net_host with
          | none => none
          | some host_addr =>
            match init_from_cmap_host_port defaults.QNETD_DEFAULT_HOST_PORT defaults.read_freed
                cm.quorum_device_net_port with
            | none => none
            | some host_port =>
              match cm.totem_cluster_name with
              | none => none
              | some cluster_name =>
                let heartbeat_interval := defaults.scale_timeout
                  (cm.quorum_device_timeout.getD defaults.VOTEQUORUM_QDEVICE_DEFAULT_TIMEOUT)
                some (qdevice_net_instance_init (2 ^ 15) (2 ^ 15) (2 ^ 15) (2 ^ 24) tls_supported
                  node_id defaults.TLV_DECISION_ALGORITHM_TYPE_TEST heartbeat_interval host_addr
                  (uint16_of_int host_port) cluster_name)

/-! ## Runs of the connection -/

/-- The instance `main` starts the connection with: initialised with the sizes of
lines 74-77 and the values read from the configuration (lines 1109-1114), and
holding the client socket (line 1191). -/
def main_instance (tls_supported : tlv_tls_supported) (node_id decision_algorithm
    heartbeat_interval : Nat) (host_addr : String) (host_port : Nat) (cluster_name : String)
    (socket : Nat) : qdevice_net_instance :=
  { qdevice_net_instance_init (2 ^ 15) (2 ^ 15) (2 ^ 15) (2 ^ 24) tls_supported node_id
      decision_algorithm heartbeat_interval host_addr host_port cluster_name with
    socket := socket }

/-- What the event loop does to the connection between two waits: it hands a
received message to the dispatcher, it fires the heartbeat timer, or it writes. -/
inductive event where
  | received (env : handler_env) (decoded : Int × msg_decoded)
  | heartbeat (codec : msg_codec)
  | write (env : io_env)

/-- One event on the instance. The result is `none` when the event ends the
connection (the dispatcher or the writer returns `-1`, the heartbeat callback
marks the disconnect and returns `0`) and when it cannot happen (a heartbeat while
the timer list is empty). -/
def step (inst : qdevice_net_instance) : event → Option qdevice_net_instance
  | .received env decoded =>
    let r := qdevice_net_msg_received env decoded inst
    if r.1 = -1 then none else some r.2
  | .heartbeat codec =>
    if inst.main_timer_list.entries.isEmpty then
      none
    else
      let r := qdevice_net_timer_send_heartbeat codec inst
      if r.1 = -1 then some r.2 else none
  | .write env =>
    let r := qdevice_net_socket_write env inst
    if r.control = .returned (-1) then none else some r.inst

/-- A sequence of events on the instance: the instance at its end, `none` when the
connection ended before. -/
def run (inst : qdevice_net_instance) : List event → Option qdevice_net_instance
  | [] => some inst
  | e :: rest =>
    match step inst e with
    | none => none
    | some s => run s rest

/-- The sequence numbers of the echo requests scheduled along a sequence of
events, in order: each heartbeat that schedules an echo request contributes the
number the request is encoded with (line 203). -/
def echo_requests_scheduled (inst : qdevice_net_instance) : List event → List Nat
  | [] => []
  | e :: rest =>
    match step inst e with
    | none => []
    | some s =>
      match e with
      | .heartbeat _ => s.echo_request_expected_msg_seq_num :: echo_requests_scheduled s rest
      | _ => echo_requests_scheduled s rest

/-- Whether the event hands a SET_OPTION_REPLY to the dispatcher. -/
def event.is_set_option_reply : event → Bool
  | .received _ decoded => decoded.2.type == .MSG_TYPE_SET_OPTION_REPLY
  | _ => false

/-- Whether an echo request is scheduled and not yet acknowledged after the event,
given whether one was before it: a heartbeat that lets the connection go on has
scheduled one, an ECHO_REPLY that the dispatcher accepts acknowledges it. -/
def event.echo_unacknowledged (before : Bool) : event → Bool
  | .heartbeat _ => true
  | .received _ decoded =>
    if decoded.1 = 0 ∧ decoded.2.type = .MSG_TYPE_ECHO_REPLY then false else before
  | .write _ => before

/-- Whether an echo request is scheduled and not yet acknowledged at the end of a
sequence of events, given whether one was at its start. -/
def echo_unacknowledged (inst : qdevice_net_instance) (before : Bool) : List event → Bool
  | [] => before
  | e :: rest =>
    match step inst e with
    | none => before
    | some s => echo_unacknowledged s (e.echo_unacknowledged before) rest

/-! ## Predicates used to state the properties -/

/-- One of the checks of the INIT_REPLY handler that come before the buffer sizes
are changed (lines 413-455) rejects the message: wrong state, bad sequence number,
a missing option, or a size out of bounds. -/
def init_reply_early_reject (inst : qdevice_net_instance) (msg : msg_decoded) : Prop :=
  inst.state ≠ .QDEVICE_NET_STATE_WAITING_INIT_REPLY ∨
  msg.seq_number_set = false ∨
  msg.seq_number ≠ inst.expected_msg_seq_num ∨
  msg.server_maximum_request_size_set = false ∨
  msg.server_maximum_reply_size_set = false ∨
  msg.supported_messages = none ∨
  msg.supported_options = none ∨
  msg.supported_decision_algorithms = none ∨
  msg.server_maximum_request_size < inst.min_send_size ∨
  msg.server_maximum_reply_size > inst.max_receive_size

instance (inst : qdevice_net_instance) (msg : msg_decoded) :
    Decidable (init_reply_early_reject inst msg) := by
  unfold init_reply_early_reject
  infer_instance

/-- The instance with the hard maxima of its three buffers set as the INIT_REPLY
handler sets them (lines 460-462). -/
def init_reply_resized (inst : qdevice_net_instance) (msg : msg_decoded) : qdevice_net_instance :=
  { inst with
    receive_buffer := dynar_set_max_size inst.receive_buffer msg.server_maximum_reply_size
    send_buffer := dynar_set_max_size inst.send_buffer msg.server_maximum_request_size
    echo_request_send_buffer :=
      dynar_set_max_size inst.echo_request_send_buffer msg.server_maximum_request_size }

/-- What no message handler changes between the instance `a` it is given and
the instance `b` it leaves: the socket, the echo sending flag, progress, sequence
counter of the requests and buffer bytes, and the disconnect flag; and a main
sending flag that is set stays set. -/
@[reducible]
def handler_frame (a b : qdevice_net_instance) : Prop :=
  b.socket = a.socket ∧
  b.sending_echo_request_msg = a.sending_echo_request_msg ∧
  b.echo_request_msg_already_sent_bytes = a.echo_request_msg_already_sent_bytes ∧
  b.echo_request_expected_msg_seq_num = a.echo_request_expected_msg_seq_num ∧
  b.echo_request_send_buffer.data = a.echo_request_send_buffer.data ∧
  b.schedule_disconnect = a.schedule_disconnect ∧
  (a.sending_msg ≠ 0 → b.sending_msg ≠ 0)

/-- What the handlers of PREINIT_REPLY and INIT_REPLY and the writer leave as it
was between the instance `a` they are given and the instance `b` they leave: the
timer list and the heartbeat timer handle, the counter of the echo replies, the
request counter of the echo channel, and the configured TLS mode, node id,
decision algorithm and heartbeat interval. -/
@[reducible]
def main_frame (a b : qdevice_net_instance) : Prop :=
  b.main_timer_list = a.main_timer_list ∧
  b.echo_request_timer = a.echo_request_timer ∧
  b.echo_reply_received_msg_seq_num = a.echo_reply_received_msg_seq_num ∧
  b.echo_request_expected_msg_seq_num = a.echo_request_expected_msg_seq_num ∧
  b.tls_supported = a.tls_supported ∧
  b.node_id = a.node_id ∧
  b.decision_algorithm = a.decision_algorithm ∧
  b.heartbeat_interval = a.heartbeat_interval

/-- No echo request was ever scheduled and no heartbeat timer was ever added: the
two echo counters are `0` as initialised and the timer list is empty. -/
def no_echo_yet (inst : qdevice_net_instance) : Prop :=
  inst.echo_request_expected_msg_seq_num = 0 ∧
  inst.echo_reply_received_msg_seq_num = 0 ∧
  inst.main_timer_list.entries = []

/-- The echo channel is idle at the counter value `n`: no message of either channel
is in flight, both echo counters are `n` and the heartbeat timer is in the list. -/
def echo_idle (n : Nat) (inst : qdevice_net_instance) : Prop :=
  inst.sending_msg = 0 ∧
  inst.sending_echo_request_msg = 0 ∧
  inst.echo_request_expected_msg_seq_num = n ∧
  inst.echo_reply_received_msg_seq_num = n ∧
  inst.main_timer_list.entries.isEmpty = false

instance (n : Nat) (inst : qdevice_net_instance) : Decidable (echo_idle n inst) := by
  unfold echo_idle
  infer_instance

/-- Every event of the sequence is a write, made with the encoder `codec`. -/
def writes_with (codec : msg_codec) (events : List event) : Prop :=
  ∀ e ∈ events, ∃ w : io_env, e = .write w ∧ w.handlers.codec = codec

/-- The instance right after the call of `msgio_read` in `qdevice_net_socket_read`
(line 688): the reader has changed the receive buffer, the received-bytes progress
and the skipping flag, and nothing else. -/
def after_msgio_read (env : io_env) (inst : qdevice_net_instance) : qdevice_net_instance :=
  { inst with
    receive_buffer := dynar_store inst.receive_buffer
      (env.msgio_read inst.socket inst.receive_buffer inst.msg_already_received_bytes
        inst.skipping_msg).2.1
    msg_already_received_bytes :=
      (env.msgio_read inst.socket inst.receive_buffer inst.msg_already_received_bytes
        inst.skipping_msg).2.2.1
    skipping_msg :=
      (env.msgio_read inst.socket inst.receive_buffer inst.msg_already_received_bytes
        inst.skipping_msg).2.2.2 }

/-- The value `msgio_read` returns in `qdevice_net_socket_read` (line 688). -/
def msgio_read_res (env : io_env) (inst : qdevice_net_instance) : Int :=
  (env.msgio_read inst.socket inst.receive_buffer inst.msg_already_received_bytes
    inst.skipping_msg).1

/-- What the dispatcher makes of the frame `msgio_read` completed in
`qdevice_net_socket_read` (line 734). -/
def socket_read_dispatch (env : io_env) (inst : qdevice_net_instance) :
    Int × qdevice_net_instance :=
  qdevice_net_msg_received env.handlers (env.msg_decode (after_msgio_read env inst).receive_buffer)
    (after_msgio_read env inst)

/-- The relation of the two echo counters when an echo request is unacknowledged
(`pending`) and when none is: the reply counter is a 32-bit value, and the request
counter is its 32-bit successor, respectively equal to it. -/
def echo_counters (pending : Bool) (inst : qdevice_net_instance) : Prop :=
  inst.echo_reply_received_msg_seq_num < 2 ^ 32 ∧
  inst.echo_request_expected_msg_seq_num =
    if pending then (inst.echo_reply_received_msg_seq_num + 1) % 2 ^ 32
    else inst.echo_reply_received_msg_seq_num

/-- The instance `PR_Poll` is called on in `qdevice_net_poll`: the disconnect
flag has been cleared (line 852). -/
def poll_cleared (inst : qdevice_net_instance) : qdevice_net_instance :=
  { inst with schedule_disconnect := 0 }

/-- What `PR_Poll` gives in `qdevice_net_poll` (line 854): its return value and
the flags reported for the server socket and for the votequorum descriptor. -/
def poll_reported (env : io_env) (inst : qdevice_net_instance) :
    Int × poll_flags × poll_flags :=
  env.PR_Poll (poll_socket_in_flags inst) poll_votequorum_in_flags

/-- The handling of the two descriptors in one iteration of `qdevice_net_poll`
(lines 854-905). -/
def poll_handled (env : io_env) (inst : qdevice_net_instance) : outcome :=
  poll_descriptors env (poll_reported env inst).1 (poll_reported env inst).2.1
    (poll_reported env inst).2.2 (poll_cleared inst)

/-- The read handler of the server socket fails in the iteration: readable was
reported and `qdevice_net_socket_read` returned `-1`. -/
def poll_read_failed (env : io_env) (inst : qdevice_net_instance) : Prop :=
  (poll_reported env inst).1 > 0 ∧ (poll_reported env inst).2.1.read = true ∧
  (qdevice_net_socket_read env (poll_cleared inst)).control = .returned (-1)

/-- The writer fails in the iteration: writable was reported, the read branch
neither ended the process nor marked the disconnect, and
`qdevice_net_socket_write` returned `-1`. -/
def poll_write_failed (env : io_env) (inst : qdevice_net_instance) : Prop :=
  (poll_reported env inst).1 > 0 ∧ (poll_reported env inst).2.1.write = true ∧
  (poll_socket_read env (poll_reported env inst).2.1 (poll_cleared inst)).control = .fallthrough ∧
  (poll_socket_read env (poll_reported env inst).2.1
    (poll_cleared inst)).inst.schedule_disconnect = 0 ∧
  (qdevice_net_socket_write env
    (poll_socket_read env (poll_reported env inst).2.1 (poll_cleared inst)).inst).control =
    .returned (-1)

/-- An error, invalid, hang-up or exceptional event is reported for the server
socket. -/
def poll_socket_error_event (env : io_env) (inst : qdevice_net_instance) : Prop :=
  (poll_reported env inst).1 > 0 ∧ (poll_reported env inst).2.1.error = true

/-- A timer callback marks the disconnect when the timers are expired after the
handling of the descriptors. -/
def poll_timer_marked (env : io_env) (inst : qdevice_net_instance) : Prop :=
  (timer_list_expire env (poll_handled env inst).inst).1.schedule_disconnect ≠ 0

/-- In the iteration `errx` ends the process: events were reported and either the
read handler of the server socket ends the process (a completed frame while
skipping, or a reader result it does not know), or the handling of the server
socket reached its end and then the votequorum dispatch fails or, no disconnect
being marked, a write or an error event is reported for the votequorum
descriptor. -/
def poll_process_ended (env : io_env) (inst : qdevice_net_instance) : Prop :=
  (poll_reported env inst).1 > 0 ∧
  (((poll_reported env inst).2.1.read = true ∧
      (qdevice_net_socket_read env (poll_cleared inst)).control = .exited) ∨
    ((qdevice_net_poll_socket env (poll_reported env inst).2.1 (poll_cleared inst)).control =
        .fallthrough ∧
      (((poll_reported env inst).2.2.read = true ∧ env.votequorum_dispatch_ok = false) ∨
        ((qdevice_net_poll_socket env (poll_reported env inst).2.1
            (poll_cleared inst)).inst.schedule_disconnect = 0 ∧
          ((poll_reported env inst).2.2.write = true ∨
            (poll_reported env inst).2.2.error = true)))))

instance (env : io_env) (inst : qdevice_net_instance) : Decidable (poll_read_failed env inst) := by
  unfold poll_read_failed
  infer_instance

instance (env : io_env) (inst : qdevice_net_instance) : Decidable (poll_write_failed env inst) := by
  unfold poll_write_failed
  infer_instance

instance (env : io_env) (inst : qdevice_net_instance) :
    Decidable (poll_socket_error_event env inst) := by
  unfold poll_socket_error_event
  infer_instance

instance (env : io_env) (inst : qdevice_net_instance) : Decidable (poll_timer_marked env inst) := by
  unfold poll_timer_marked
  infer_instance

instance (env : io_env) (inst : qdevice_net_instance) :
    Decidable (poll_process_ended env inst) := by
  unfold poll_process_ended
  infer_instance

/-- The texts for which `qdevice_net_parse_bool_str` returns `1`: "yes", "on" in
every mix of upper and lower case, and "1". -/
def bool_str_true : List String :=
  ["yes", "yeS", "yEs", "yES", "Yes", "YeS", "YEs", "YES", "on", "oN", "On", "ON", "1"]

/-- The texts for which `qdevice_net_parse_bool_str` returns `0`: "no", "off" in
every mix of upper and lower case, and "0". -/
def bool_str_false : List String :=
  ["no", "nO", "No", "NO", "off", "ofF", "oFf", "oFF", "Off", "OfF", "OFf", "OFF", "0"]

/-- The strings that differ from the given one in the case of letters only, the
given one having no upper-case letter. -/
def case_variants : List Nat → List (List Nat)
  | [] => [[]]
  | l :: t =>
    (case_variants t).map (l :: ·) ++
      (if 97 ≤ l ∧ l ≤ 122 then (case_variants t).map ((l - 32) :: ·) else [])

/-- The number a string of decimal digits denotes. -/
def decimal_value (digits : List Nat) : Nat :=
  digits.foldl (fun acc c => acc * 10 + (c - 48)) 0

/-- The event happens in order on the instance: a SET_OPTION_REPLY is received in
the state WAITING_SET_OPTION_REPLY only, and the writer runs only while a message
of one of the two channels is in flight. -/
def event.in_order (inst : qdevice_net_instance) : event → Prop
  | .received _ decoded =>
    decoded.1 = 0 ∧ decoded.2.type = .MSG_TYPE_SET_OPTION_REPLY →
      inst.state = .QDEVICE_NET_STATE_WAITING_SET_OPTION_REPLY
  | .heartbeat _ => True
  | .write _ => inst.sending_msg ≠ 0 ∨ inst.sending_echo_request_msg ≠ 0

/-- Every event of the sequence happens in order on the instance it meets. -/
def events_in_order (inst : qdevice_net_instance) : List event → Prop
  | [] => True
  | e :: rest =>
    e.in_order inst ∧
    match step inst e with
    | none => True
    | some s => events_in_order s rest

instance (inst : qdevice_net_instance) (e : event) : Decidable (e.in_order inst) := by
  cases e <;> unfold event.in_order <;> infer_instance

instance (inst : qdevice_net_instance) (events : List event) :
    Decidable (events_in_order inst events) := by
  induction events generalizing inst with
  | nil => exact isTrue trivial
  | cons e rest ih =>
    unfold events_in_order
    cases step inst e with
    | none => infer_instance
    | some s => exact @instDecidableAnd _ _ _ (ih s)

/-- The relation of the echo progress to the rest of the instance in an orderly
run: before the heartbeat timer is added no echo request is in flight and the echo
progress is `0`; once it is added the state is WAITING_SET_OPTION_REPLY; and while
a main message is in flight the echo progress is `0`. -/
def echo_progress_fresh (inst : qdevice_net_instance) : Prop :=
  (inst.main_timer_list.entries = [] →
    inst.sending_echo_request_msg = 0 ∧ inst.echo_request_msg_already_sent_bytes = 0) ∧
  (inst.main_timer_list.entries ≠ [] →
    inst.state = .QDEVICE_NET_STATE_WAITING_SET_OPTION_REPLY) ∧
  (inst.sending_msg ≠ 0 → inst.echo_request_msg_already_sent_bytes = 0)

/-! ## Concrete inputs used by the witnesses -/

/-- A small concrete encoder: a message is its type tag followed by the sequence
number and its payload; it never fails. -/
def sample_codec : msg_codec :=
  { tlv_get_supported_options := [0, 1, 2]
    msg_get_supported_messages := [0, 1, 2, 3]
    msg_create_preinit := fun _ name _ seq => ([0, seq, name.length], 3)
    msg_create_starttls := fun _ _ seq => ([2, seq], 2)
    msg_create_init := fun _ _ seq _ _ node_id => ([3, seq, node_id], 3)
    msg_create_set_option := fun _ _ seq _ alg _ hb => ([6, seq, alg, hb], 4)
    msg_create_echo_request := fun _ _ seq => ([8, seq], 2) }

/-- The sample encoder with a timer list that can allocate. -/
def sample_env : handler_env :=
  { codec := sample_codec, timer_alloc_ok := true }

/-- The instance as `main` leaves it before the main loop (lines 1202-1213) for a
client without TLS, node id 7, the TEST algorithm (tag 0) and an 8000 ms heartbeat:
PREINIT with sequence number 1 scheduled and fully written since. -/
def sample_instance : qdevice_net_instance :=
  { qdevice_net_instance_init (2 ^ 15) (2 ^ 15) (2 ^ 15) (2 ^ 24) .TLV_TLS_UNSUPPORTED 7 0 8000
      "qnetd.example" 5403 "cluster" with
    expected_msg_seq_num := 1
    send_buffer := dynar_store (dynar_init (2 ^ 15)) [0, 1, 7] }

/-- A decoded message of the type given with no option present and every value
field zero. -/
def blank_msg (type : msg_type) : msg_decoded :=
  { type := type
    seq_number_set := false
    seq_number := 0
    tls_supported_set := false
    tls_supported := .TLV_TLS_UNSUPPORTED
    tls_client_cert_required_set := false
    tls_client_cert_required := false
    server_maximum_request_size_set := false
    server_maximum_request_size := 0
    server_maximum_reply_size_set := false
    server_maximum_reply_size := 0
    supported_messages := none
    supported_options := none
    supported_decision_algorithms := none
    decision_algorithm_set := false
    decision_algorithm := 0
    heartbeat_interval_set := false
    heartbeat_interval := 0
    reply_error_code_set := false
    reply_error_code := 0 }

/-- The sample client after the plain (no TLS) PREINIT exchange: INIT with
sequence number 2 was sent and written, and the INIT_REPLY is awaited. -/
def sample_instance_waiting_init_reply : qdevice_net_instance :=
  { sample_instance with
    state := .QDEVICE_NET_STATE_WAITING_INIT_REPLY
    expected_msg_seq_num := 2
    send_buffer := dynar_store (dynar_init (2 ^ 15)) [3, 2, 7] }

/-- The sample client after the INIT exchange with a server advertising 65536
bytes both ways: SET_OPTION with sequence number 3 was sent and written, and the
SET_OPTION_REPLY is awaited. -/
def sample_instance_waiting_set_option_reply : qdevice_net_instance :=
  { sample_instance with
    state := .QDEVICE_NET_STATE_WAITING_SET_OPTION_REPLY
    expected_msg_seq_num := 3
    receive_buffer := dynar_init 65536
    send_buffer := dynar_store (dynar_init 65536) [6, 3, 0, 8000]
    echo_request_send_buffer := dynar_init 65536 }

/-- A SET_OPTION_REPLY with the sequence number given that carries both options:
the TEST algorithm (tag 0) and a heartbeat interval of 8000 ms. -/
def sample_set_option_reply (seq_number : Nat) : msg_decoded :=
  { blank_msg .MSG_TYPE_SET_OPTION_REPLY with
    seq_number_set := true
    seq_number := seq_number
    decision_algorithm_set := true
    decision_algorithm := 0
    heartbeat_interval_set := true
    heartbeat_interval := 8000 }

/-- A SET_OPTION_REPLY with sequence number 3 that carries the heartbeat interval
(8000 ms) but no decision algorithm option. -/
def set_option_reply_without_algorithm : msg_decoded :=
  { blank_msg .MSG_TYPE_SET_OPTION_REPLY with
    seq_number_set := true
    seq_number := 3
    heartbeat_interval_set := true
    heartbeat_interval := 8000 }

/-- A PREINIT_REPLY with the sequence number and server TLS mode given, carrying
both TLS options. -/
def sample_preinit_reply (seq_number : Nat) (server_tls : tlv_tls_supported) : msg_decoded :=
  { blank_msg .MSG_TYPE_PREINIT_REPLY with
    seq_number_set := true
    seq_number := seq_number
    tls_supported_set := true
    tls_supported := server_tls
    tls_client_cert_required_set := true
    tls_client_cert_required := false }

/-- The sample client configured with TLS supported, at the same point as
`sample_instance`. -/
def sample_instance_tls : qdevice_net_instance :=
  { sample_instance with tls_supported := .TLV_TLS_SUPPORTED }

/-- An INIT_REPLY with the sequence number given from a server that accepts and
sends up to 65536 bytes and supports the decision algorithms listed. -/
def sample_init_reply (seq_number : Nat) (algorithms : List Nat) : msg_decoded :=
  { blank_msg .MSG_TYPE_INIT_REPLY with
    seq_number_set := true
    seq_number := seq_number
    server_maximum_request_size_set := true
    server_maximum_request_size := 65536
    server_maximum_reply_size_set := true
    server_maximum_reply_size := 65536
    supported_messages := some [0, 1, 2, 3]
    supported_options := some [0, 1, 2]
    supported_decision_algorithms := some algorithms }

/-- The sample client after its SET_OPTION_REPLY was accepted: the heartbeat timer
is in the timer list and no echo request was scheduled yet. -/
def sample_instance_steady : qdevice_net_instance :=
  (qdevice_net_msg_received_set_option_reply sample_env
    sample_instance_waiting_set_option_reply (sample_set_option_reply 3)).2

/-- A SERVER_ERROR with error code 3. -/
def sample_server_error : msg_decoded :=
  { blank_msg .MSG_TYPE_SERVER_ERROR with
    reply_error_code_set := true
    reply_error_code := 3 }

/-- An ECHO_REPLY with the sequence number given. -/
def sample_echo_reply (seq_number : Nat) : msg_decoded :=
  { blank_msg .MSG_TYPE_ECHO_REPLY with seq_number_set := true, seq_number := seq_number }

/-- An environment of the event loop around the sample encoder: every write
completes the message (progress 2), starting TLS yields descriptor 9, nothing is
read, polled or due. -/
def sample_io_env : io_env :=
  { handlers := sample_env
    msg_decode := fun _ => (0, blank_msg .MSG_TYPE_ECHO_REPLY)
    msgio_read := fun _ buffer received skipping => (0, buffer.data, received, skipping)
    msgio_write := fun _ _ _ => (1, 2)
    nss_sock_start_ssl_as_client := fun _ => some 9
    PR_Poll := fun _ _ =>
      (0, { read := false, write := false, error := false },
        { read := false, write := false, error := false })
    votequorum_dispatch_ok := true
    timer_is_due := fun _ => false }

/-- The sample client with TLS after its PREINIT_REPLY was accepted: STARTTLS with
sequence number 2 is in the send buffer and being sent. -/
def sample_instance_starttls : qdevice_net_instance :=
  (qdevice_net_msg_received_preinit_reply sample_env sample_instance_tls
    (sample_preinit_reply 1 .TLV_TLS_SUPPORTED)).2

/-- The sample client after its first echo request was scheduled. -/
def sample_instance_echo_scheduled : qdevice_net_instance :=
  (qdevice_net_schedule_echo_request_send sample_codec sample_instance_steady).2

/-- The sample client as `main` starts it: without TLS, node id 7, the TEST
algorithm (tag 0), an 8000 ms heartbeat, socket descriptor 4. -/
def sample_main_instance : qdevice_net_instance :=
  main_instance .TLV_TLS_UNSUPPORTED 7 0 8000 "qnetd.example" 5403 "cluster" 4

/-- The sample client right after `main` scheduled PREINIT with sequence number 1. -/
def sample_main_scheduled : qdevice_net_instance :=
  (main_schedule_preinit sample_codec sample_main_instance).getD sample_main_instance

/-- The plain handshake of the sample client as a sequence of events: each message
is written at once and answered by the reply the server of the spec's scenario (a)
sends. -/
def sample_handshake : List event :=
  [.write sample_io_env,
   .received sample_env (0, sample_preinit_reply 1 .TLV_TLS_UNSUPPORTED),
   .write sample_io_env,
   .received sample_env (0, sample_init_reply 2 [0]),
   .write sample_io_env,
   .received sample_env (0, sample_set_option_reply 3)]

/-- One round of the echo channel when the request counter is `n`: the heartbeat
fires, the echo request is written at once, and the server answers it. -/
def echo_cycle (n : Nat) : List event :=
  [.heartbeat sample_codec,
   .write sample_io_env,
   .received sample_env (0, sample_echo_reply ((n + 1) % 2 ^ 32))]

/-- The next `k` rounds of the echo channel when the request counter is `n`. -/
def echo_cycles : Nat → Nat → List event
  | _, 0 => []
  | n, k + 1 => echo_cycle n ++ echo_cycles ((n + 1) % 2 ^ 32) k

/-- The sample client in the state reached by the first two events of the sample
handshake: PREINIT written, PREINIT_REPLY accepted, INIT scheduled. -/
def sample_after_preinit_reply : qdevice_net_instance :=
  (run sample_main_scheduled (sample_handshake.take 2)).getD sample_main_scheduled

/-- The sample client after the first `k` events of the plain handshake. -/
def sample_handshake_state (k : Nat) : qdevice_net_instance :=
  (run sample_main_scheduled (sample_handshake.take k)).getD sample_main_scheduled

/-- The sample client with TLS supported as `main` starts it. -/
def sample_main_instance_tls : qdevice_net_instance :=
  main_instance .TLV_TLS_SUPPORTED 7 0 8000 "qnetd.example" 5403 "cluster" 4

/-- The sample client with TLS right after `main` scheduled PREINIT with sequence
number 1. -/
def sample_main_scheduled_tls : qdevice_net_instance :=
  (main_schedule_preinit sample_codec sample_main_instance_tls).getD sample_main_instance_tls

/-- The handshake with TLS of the sample client as a sequence of events: the
server supports TLS, so STARTTLS is sent after the PREINIT_REPLY and INIT is
scheduled by the write that finishes it. -/
def sample_handshake_tls : List event :=
  [.write sample_io_env,
   .received sample_env (0, sample_preinit_reply 1 .TLV_TLS_SUPPORTED),
   .write sample_io_env,
   .write sample_io_env,
   .received sample_env (0, sample_init_reply 3 [0]),
   .write sample_io_env,
   .received sample_env (0, sample_set_option_reply 4)]

/-- The sample client with TLS after the first `k` events of its handshake. -/
def sample_handshake_tls_state (k : Nat) : qdevice_net_instance :=
  (run sample_main_scheduled_tls (sample_handshake_tls.take k)).getD sample_main_scheduled_tls

/-- The sample encoder with an ECHO_REQUEST encoder that reports `0`, the value the
call sites of the other four encoders test for (lines 330, 385, 487, 1206). -/
def sample_codec_echo_zero : msg_codec :=
  { sample_codec with msg_create_echo_request := fun _ _ _ => ([], 0) }

/-- The sample environment with a frame reader that returns `res` with the three
bytes of a frame in the receive buffer and the skipping flag clear, and a decoder
that yields `decoded`. -/
def sample_io_env_reading (res : Int) (decoded : Int × msg_decoded) : io_env :=
  { sample_io_env with
    msgio_read := fun _ _ _ _ => (res, [9, 1, 0], 3, 0)
    msg_decode := fun _ => decoded }

/-- The sample handshake followed by the first heartbeat, which schedules the echo
request numbered 1. -/
def sample_first_heartbeat : List event :=
  sample_handshake ++ [.heartbeat sample_codec]

/-- The sample handshake followed by one whole round of the echo channel. -/
def sample_first_round : List event :=
  sample_handshake ++ echo_cycle 0

/-- A run of the sample client with a server that sends a SET_OPTION_REPLY before
its PREINIT_REPLY: PREINIT is written, the SET_OPTION_REPLY (sequence number 1, the
client's algorithm and heartbeat interval) arrives, the heartbeat fires, the echo
request is written, and the PREINIT_REPLY arrives. -/
def sample_early_set_option_reply : List event :=
  [.write sample_io_env,
   .received sample_env (0, sample_set_option_reply 1),
   .heartbeat sample_codec,
   .write sample_io_env,
   .received sample_env (0, sample_preinit_reply 1 .TLV_TLS_UNSUPPORTED)]

/-- The sample client at the end of `sample_early_set_option_reply`. -/
def sample_instance_stale_echo : qdevice_net_instance :=
  (run sample_main_scheduled sample_early_set_option_reply).getD sample_main_scheduled

/-- The sample handshake followed by a second copy of its SET_OPTION_REPLY. -/
def sample_duplicate_set_option_reply : List event :=
  sample_handshake ++ [.received sample_env (0, sample_set_option_reply 3)]

/-- The sample environment with a poller that returns `res` and reports
`socket_out` for the server socket and nothing for the votequorum descriptor, and
a frame reader that returns `read_res`. -/
def sample_io_env_polling (res : Int) (socket_out : poll_flags) (read_res : Int) : io_env :=
  { sample_io_env_reading read_res (0, sample_echo_reply 0) with
    PR_Poll := fun _ _ => (res, socket_out, { read := false, write := false, error := false }) }

/-- The sample environment with a poller that returns `1` and reports `socket_out`
for the server socket and `votequorum_out` for the votequorum descriptor, a frame
reader that returns `read_res`, and a votequorum dispatch that succeeds or not. -/
def sample_io_env_events (socket_out votequorum_out : poll_flags) (read_res : Int)
    (dispatch_ok : Bool) : io_env :=
  { sample_io_env_reading read_res (0, sample_echo_reply 0) with
    PR_Poll := fun _ _ => (1, socket_out, votequorum_out)
    votequorum_dispatch_ok := dispatch_ok }

/-- A freed block that the allocator has written its bookkeeping into: every byte
read from it is non-zero. -/
def read_freed_overwritten : List Nat → Nat → Nat :=
  fun _ _ => 5

/-- A freed block that still holds the string and its terminator. -/
def read_freed_intact : List Nat → Nat → Nat :=
  fun bytes offset => bytes.getD offset 0

/-- The constants of the sample configuration: port 5403, timeouts of 10 and 30
seconds scaled to four fifths, the TEST algorithm with tag 0, and freed blocks
overwritten by the allocator. -/
def sample_cmap_defaults : cmap_defaults :=
  { QNETD_DEFAULT_HOST_PORT := 5403
    VOTEQUORUM_QDEVICE_DEFAULT_TIMEOUT := 10000
    VOTEQUORUM_QDEVICE_DEFAULT_SYNC_TIMEOUT := 30000
    TLV_DECISION_ALGORITHM_TYPE_TEST := 0
    scale_timeout := fun v => v * 4 / 5
    tls_supported_unassigned := .TLV_TLS_UNSUPPORTED
    read_freed := read_freed_overwritten }

/-- The sample constants with freed blocks left intact. -/
def sample_cmap_defaults_intact : cmap_defaults :=
  { sample_cmap_defaults with read_freed := read_freed_intact }

/-- The configuration of the sample client of node 7 with the TLS and port values
given. -/
def sample_cmap (tls port : Option String) : cmap :=
  { quorum_device_model := some "net"
    runtime_votequorum_this_node_id := some 7
    quorum_device_net_tls := tls
    quorum_device_net_host := some "qnetd.example"
    quorum_device_net_port := port
    totem_cluster_name := some "cluster"
    quorum_device_timeout := none
    quorum_device_sync_timeout := none }

/-! ## Properties -/

/-- C1. `qdevice_net_check_tls_compatibility` agrees with the compatibility table
on all nine pairs, and its result is `-1` exactly for (server UNSUPPORTED, client
REQUIRED) and (server REQUIRED, client UNSUPPORTED). -/
theorem check_tls_compatibility_table :
    qdevice_net_check_tls_compatibility .TLV_TLS_UNSUPPORTED .TLV_TLS_UNSUPPORTED = 0 ∧
    qdevice_net_check_tls_compatibility .TLV_TLS_UNSUPPORTED .TLV_TLS_SUPPORTED = 0 ∧
    qdevice_net_check_tls_compatibility .TLV_TLS_UNSUPPORTED .TLV_TLS_REQUIRED = -1 ∧
    qdevice_net_check_tls_compatibility .TLV_TLS_SUPPORTED .TLV_TLS_UNSUPPORTED = 0 ∧
    qdevice_net_check_tls_compatibility .TLV_TLS_SUPPORTED .TLV_TLS_SUPPORTED = 1 ∧
    qdevice_net_check_tls_compatibility .TLV_TLS_SUPPORTED .TLV_TLS_REQUIRED = 1 ∧
    qdevice_net_check_tls_compatibility .TLV_TLS_REQUIRED .TLV_TLS_UNSUPPORTED = -1 ∧
    qdevice_net_check_tls_compatibility .TLV_TLS_REQUIRED .TLV_TLS_SUPPORTED = 1 ∧
    qdevice_net_check_tls_compatibility .TLV_TLS_REQUIRED .TLV_TLS_REQUIRED = 1 ∧
    ∀ server_tls client_tls : tlv_tls_supported,
      qdevice_net_check_tls_compatibility server_tls client_tls = -1 ↔
        (server_tls = .TLV_TLS_UNSUPPORTED ∧ client_tls = .TLV_TLS_REQUIRED) ∨
        (server_tls = .TLV_TLS_REQUIRED ∧ client_tls = .TLV_TLS_UNSUPPORTED) := by
  refine ⟨rfl, rfl, rfl, rfl, rfl, rfl, rfl, rfl, rfl, ?_⟩
  intro server_tls client_tls
  cases server_tls <;> cases client_tls <;> simp [qdevice_net_check_tls_compatibility]

/-- The sequence-number check passes exactly when the message carries a sequence
number and it is the expected one. -/
theorem check_seq_number_eq_zero_iff (inst : qdevice_net_instance) (msg : msg_decoded) :
    qdevice_net_msg_check_seq_number inst msg = 0 ↔
      msg.seq_number_set = true ∧ msg.seq_number = inst.expected_msg_seq_num := by
  unfold qdevice_net_msg_check_seq_number
  cases hs : msg.seq_number_set <;> by_cases he : msg.seq_number = inst.expected_msg_seq_num <;>
    simp [he]

/-- C2. A PREINIT_REPLY, INIT_REPLY or SET_OPTION_REPLY that carries no sequence
number, or one different from `expected_msg_seq_num` at its arrival, makes its
handler return `-1`, in every state of the instance. -/
theorem reply_bad_seq_number_fatal (env : handler_env) (inst : qdevice_net_instance)
    (msg : msg_decoded)
    (h : msg.seq_number_set = false ∨ msg.seq_number ≠ inst.expected_msg_seq_num) :
    (qdevice_net_msg_received_preinit_reply env inst msg).1 = -1 ∧
    (qdevice_net_msg_received_init_reply env inst msg).1 = -1 ∧
    (qdevice_net_msg_received_set_option_reply env inst msg).1 = -1 := by
  have hc : qdevice_net_msg_check_seq_number inst msg ≠ 0 := by
    intro h0
    have := (check_seq_number_eq_zero_iff inst msg).1 h0
    rcases h with h | h
    · simp [h] at this
    · exact h this.2
  refine ⟨?_, ?_, ?_⟩
  · unfold qdevice_net_msg_received_preinit_reply
    by_cases hs : inst.state = .QDEVICE_NET_STATE_WAITING_PREINIT_REPLY <;> simp [hs, hc]
  · unfold qdevice_net_msg_received_init_reply
    by_cases hs : inst.state = .QDEVICE_NET_STATE_WAITING_INIT_REPLY <;> simp [hs, hc]
  · unfold qdevice_net_msg_received_set_option_reply
    simp [hc]

/-- Witness of C2: a PREINIT_REPLY, INIT_REPLY or SET_OPTION_REPLY with sequence
number 5 reaches an instance that expects 1. -/
theorem reply_bad_seq_number_fatal_witness :
    ((5 : Nat) ≠ sample_instance.expected_msg_seq_num) ∧
    (qdevice_net_msg_received_preinit_reply sample_env sample_instance
      { blank_msg .MSG_TYPE_PREINIT_REPLY with seq_number_set := true, seq_number := 5 }).1 = -1 ∧
    (qdevice_net_msg_received_init_reply sample_env sample_instance
      { blank_msg .MSG_TYPE_PREINIT_REPLY with seq_number_set := true, seq_number := 5 }).1 = -1 ∧
    (qdevice_net_msg_received_set_option_reply sample_env sample_instance
      { blank_msg .MSG_TYPE_PREINIT_REPLY with seq_number_set := true, seq_number := 5 }).1 = -1 :=
  ⟨by decide, reply_bad_seq_number_fatal sample_env sample_instance
    { blank_msg .MSG_TYPE_PREINIT_REPLY with seq_number_set := true, seq_number := 5 }
    (Or.inr (by decide))⟩

/-- The PREINIT_REPLY handler rejects the message in every state but
WAITING_PREINIT_REPLY, whatever the message holds, and leaves the instance as it was. -/
theorem preinit_reply_wrong_state (env : handler_env) (inst : qdevice_net_instance)
    (msg : msg_decoded) (h : inst.state ≠ .QDEVICE_NET_STATE_WAITING_PREINIT_REPLY) :
    qdevice_net_msg_received_preinit_reply env inst msg = (-1, inst) := by
  unfold qdevice_net_msg_received_preinit_reply
  simp [h]

/-- The INIT_REPLY handler rejects the message in every state but WAITING_INIT_REPLY,
whatever the message holds, and leaves the instance as it was. -/
theorem init_reply_wrong_state (env : handler_env) (inst : qdevice_net_instance)
    (msg : msg_decoded) (h : inst.state ≠ .QDEVICE_NET_STATE_WAITING_INIT_REPLY) :
    qdevice_net_msg_received_init_reply env inst msg = (-1, inst) := by
  unfold qdevice_net_msg_received_init_reply
  simp [h]

/-- Witness of the wrong-state rejection of PREINIT_REPLY: a PREINIT_REPLY with the
expected sequence number 2 reaches the client that waits for the INIT_REPLY. -/
theorem preinit_reply_wrong_state_witness :
    qdevice_net_msg_received_preinit_reply sample_env sample_instance_waiting_init_reply
      (sample_preinit_reply 2 .TLV_TLS_UNSUPPORTED) = (-1, sample_instance_waiting_init_reply) :=
  preinit_reply_wrong_state sample_env sample_instance_waiting_init_reply
    (sample_preinit_reply 2 .TLV_TLS_UNSUPPORTED) (by decide)

/-- Witness of the wrong-state rejection of INIT_REPLY: an INIT_REPLY with the
expected sequence number 1 reaches the client that waits for the PREINIT_REPLY. -/
theorem init_reply_wrong_state_witness :
    qdevice_net_msg_received_init_reply sample_env sample_instance
      (sample_init_reply 1 [0]) = (-1, sample_instance) :=
  init_reply_wrong_state sample_env sample_instance (sample_init_reply 1 [0]) (by decide)

/-- C3, the failing input. The SET_OPTION_REPLY handler has no check of the state:
while the client waits for the INIT_REPLY (state WAITING_INIT_REPLY, expected
sequence number 2), a SET_OPTION_REPLY with sequence number 2 and both options
matching is accepted: the handler returns `0`, adds the heartbeat timer and leaves
the state as it was. -/
theorem set_option_reply_accepted_in_wrong_state :
    sample_instance_waiting_init_reply.state = .QDEVICE_NET_STATE_WAITING_INIT_REPLY ∧
    (qdevice_net_msg_received_set_option_reply sample_env sample_instance_waiting_init_reply
      (sample_set_option_reply 2)).1 = 0 ∧
    (qdevice_net_msg_received_set_option_reply sample_env sample_instance_waiting_init_reply
      (sample_set_option_reply 2)).2.main_timer_list.entries =
        [{ id := 0, interval := 8000, func := .qdevice_net_timer_send_heartbeat }] ∧
    (qdevice_net_msg_received_set_option_reply sample_env sample_instance_waiting_init_reply
      (sample_set_option_reply 2)).2.state = .QDEVICE_NET_STATE_WAITING_INIT_REPLY := by
  decide

/-- C4, the failing input. The branch of the SET_OPTION_REPLY handler that finds an
option missing does not return: a SET_OPTION_REPLY with the expected sequence
number 3 and the heartbeat interval sent, but without the decision algorithm
option, is accepted by a client whose algorithm has tag 0: the handler returns `0`
and adds the heartbeat timer. -/
theorem set_option_reply_accepted_without_option :
    set_option_reply_without_algorithm.decision_algorithm_set = false ∧
    (qdevice_net_msg_received_set_option_reply sample_env sample_instance_waiting_set_option_reply
      set_option_reply_without_algorithm).1 = 0 ∧
    (qdevice_net_msg_received_set_option_reply sample_env sample_instance_waiting_set_option_reply
      set_option_reply_without_algorithm).2.main_timer_list.entries =
        [{ id := 0, interval := 8000, func := .qdevice_net_timer_send_heartbeat }] ∧
    (qdevice_net_msg_received_set_option_reply sample_env sample_instance_waiting_set_option_reply
      set_option_reply_without_algorithm).2.echo_request_timer =
        some { id := 0, interval := 8000, func := .qdevice_net_timer_send_heartbeat } := by
  decide

/-- The SET_OPTION_REPLY handler never reads whether the two options are present:
two messages that differ only in the two presence flags are handled alike. -/
theorem set_option_reply_ignores_presence (env : handler_env) (inst : qdevice_net_instance)
    (msg : msg_decoded) (alg_set hb_set : Bool) :
    qdevice_net_msg_received_set_option_reply env inst
      { msg with decision_algorithm_set := alg_set, heartbeat_interval_set := hb_set } =
    qdevice_net_msg_received_set_option_reply env inst msg := by
  rfl

/-- The main-channel scheduling succeeds when no main message is in flight. -/
theorem schedule_send_idle (inst : qdevice_net_instance) (h : inst.sending_msg = 0) :
    qdevice_net_schedule_send inst =
      (0, { inst with msg_already_sent_bytes := 0, sending_msg := 1 }) := by
  unfold qdevice_net_schedule_send
  simp [h]

/-- C5. A PREINIT_REPLY received in WAITING_PREINIT_REPLY with the expected sequence
number and both TLS options present, while no main message is in flight. If the
compatibility outcome is TLS and STARTTLS is encoded, the handler returns `0`, the
32-bit `expected_msg_seq_num` is incremented by one, the main sending flag is `1`
with progress `0`, the state is WAITING_STARTTLS_BEING_SENT and the send buffer
holds the STARTTLS encoded with the new sequence number. If the outcome is no TLS
and INIT is encoded, the same holds with the state WAITING_INIT_REPLY and the send
buffer holding the INIT encoded with the new sequence number and the node id. -/
theorem preinit_reply_accepted (env : handler_env) (inst : qdevice_net_instance)
    (msg : msg_decoded)
    (hstate : inst.state = .QDEVICE_NET_STATE_WAITING_PREINIT_REPLY)
    (hset : msg.seq_number_set = true)
    (hseq : msg.seq_number = inst.expected_msg_seq_num)
    (htls : msg.tls_supported_set = true)
    (hcert : msg.tls_client_cert_required_set = true)
    (hidle : inst.sending_msg = 0) :
    (qdevice_net_check_tls_compatibility msg.tls_supported inst.tls_supported = 1 →
      (env.codec.msg_create_starttls inst.send_buffer true
        ((inst.expected_msg_seq_num + 1) % 2 ^ 32)).2 ≠ 0 →
      (qdevice_net_msg_received_preinit_reply env inst msg).1 = 0 ∧
      (qdevice_net_msg_received_preinit_reply env inst msg).2.expected_msg_seq_num =
        (inst.expected_msg_seq_num + 1) % 2 ^ 32 ∧
      (qdevice_net_msg_received_preinit_reply env inst msg).2.sending_msg = 1 ∧
      (qdevice_net_msg_received_preinit_reply env inst msg).2.msg_already_sent_bytes = 0 ∧
      (qdevice_net_msg_received_preinit_reply env inst msg).2.state =
        .QDEVICE_NET_STATE_WAITING_STARTTLS_BEING_SENT ∧
      (qdevice_net_msg_received_preinit_reply env inst msg).2.send_buffer.data =
        (env.codec.msg_create_starttls inst.send_buffer true
          ((inst.expected_msg_seq_num + 1) % 2 ^ 32)).1) ∧
    (qdevice_net_check_tls_compatibility msg.tls_supported inst.tls_supported = 0 →
      (env.codec.msg_create_init inst.send_buffer true
        ((inst.expected_msg_seq_num + 1) % 2 ^ 32) env.codec.msg_get_supported_messages
        env.codec.tlv_get_supported_options inst.node_id).2 ≠ 0 →
      (qdevice_net_msg_received_preinit_reply env inst msg).1 = 0 ∧
      (qdevice_net_msg_received_preinit_reply env inst msg).2.expected_msg_seq_num =
        (inst.expected_msg_seq_num + 1) % 2 ^ 32 ∧
      (qdevice_net_msg_received_preinit_reply env inst msg).2.sending_msg = 1 ∧
      (qdevice_net_msg_received_preinit_reply env inst msg).2.msg_already_sent_bytes = 0 ∧
      (qdevice_net_msg_received_preinit_reply env inst msg).2.state =
        .QDEVICE_NET_STATE_WAITING_INIT_REPLY ∧
      (qdevice_net_msg_received_preinit_reply env inst msg).2.send_buffer.data =
        (env.codec.msg_create_init inst.send_buffer true
          ((inst.expected_msg_seq_num + 1) % 2 ^ 32) env.codec.msg_get_supported_messages
          env.codec.tlv_get_supported_options inst.node_id).1) := by
  have hc : qdevice_net_msg_check_seq_number inst msg = 0 :=
    (check_seq_number_eq_zero_iff inst msg).2 ⟨hset, hseq⟩
  constructor
  · intro hres henc
    norm_num at henc
    simp [qdevice_net_msg_received_preinit_reply, hstate, hc, htls, hcert, hres,
      qdevice_net_schedule_send, hidle, uint32_inc, dynar_store, henc]
  · intro hres henc
    norm_num at henc
    simp [qdevice_net_msg_received_preinit_reply, hstate, hc, htls, hcert, hres,
      qdevice_net_send_init, qdevice_net_schedule_send, hidle, uint32_inc, dynar_store, henc]

/-- Witness of C5: the plain client receives the PREINIT_REPLY of a server without
TLS (INIT with sequence number 2 and node id 7 is scheduled), and the client with
TLS supported receives that of a server with TLS supported (STARTTLS with sequence
number 2 is scheduled). -/
theorem preinit_reply_accepted_witness :
    ((qdevice_net_msg_received_preinit_reply sample_env sample_instance
        (sample_preinit_reply 1 .TLV_TLS_UNSUPPORTED)).1 = 0 ∧
      (qdevice_net_msg_received_preinit_reply sample_env sample_instance
        (sample_preinit_reply 1 .TLV_TLS_UNSUPPORTED)).2.expected_msg_seq_num = 2 ∧
      (qdevice_net_msg_received_preinit_reply sample_env sample_instance
        (sample_preinit_reply 1 .TLV_TLS_UNSUPPORTED)).2.sending_msg = 1 ∧
      (qdevice_net_msg_received_preinit_reply sample_env sample_instance
        (sample_preinit_reply 1 .TLV_TLS_UNSUPPORTED)).2.msg_already_sent_bytes = 0 ∧
      (qdevice_net_msg_received_preinit_reply sample_env sample_instance
        (sample_preinit_reply 1 .TLV_TLS_UNSUPPORTED)).2.state =
          .QDEVICE_NET_STATE_WAITING_INIT_REPLY ∧
      (qdevice_net_msg_received_preinit_reply sample_env sample_instance
        (sample_preinit_reply 1 .TLV_TLS_UNSUPPORTED)).2.send_buffer.data = [3, 2, 7]) ∧
    ((qdevice_net_msg_received_preinit_reply sample_env sample_instance_tls
        (sample_preinit_reply 1 .TLV_TLS_SUPPORTED)).1 = 0 ∧
      (qdevice_net_msg_received_preinit_reply sample_env sample_instance_tls
        (sample_preinit_reply 1 .TLV_TLS_SUPPORTED)).2.expected_msg_seq_num = 2 ∧
      (qdevice_net_msg_received_preinit_reply sample_env sample_instance_tls
        (sample_preinit_reply 1 .TLV_TLS_SUPPORTED)).2.sending_msg = 1 ∧
      (qdevice_net_msg_received_preinit_reply sample_env sample_instance_tls
        (sample_preinit_reply 1 .TLV_TLS_SUPPORTED)).2.msg_already_sent_bytes = 0 ∧
      (qdevice_net_msg_received_preinit_reply sample_env sample_instance_tls
        (sample_preinit_reply 1 .TLV_TLS_SUPPORTED)).2.state =
          .QDEVICE_NET_STATE_WAITING_STARTTLS_BEING_SENT ∧
      (qdevice_net_msg_received_preinit_reply sample_env sample_instance_tls
        (sample_preinit_reply 1 .TLV_TLS_SUPPORTED)).2.send_buffer.data = [2, 2]) :=
  ⟨(preinit_reply_accepted sample_env sample_instance
      (sample_preinit_reply 1 .TLV_TLS_UNSUPPORTED) rfl rfl rfl rfl rfl rfl).2
      (by decide) (by decide),
   (preinit_reply_accepted sample_env sample_instance_tls
      (sample_preinit_reply 1 .TLV_TLS_SUPPORTED) rfl rfl rfl rfl rfl rfl).1
      (by decide) (by decide)⟩

/-- C6. A PREINIT_REPLY received in WAITING_PREINIT_REPLY with the expected sequence
number that lacks `tls_supported` or `tls_client_cert_required`, or whose TLS mode
is incompatible with the client's, makes the handler return `-1` with the instance
exactly as it was: the state, `expected_msg_seq_num`, the main sending flag and the
send buffer are unchanged, so neither INIT nor STARTTLS is scheduled. -/
theorem preinit_reply_rejected_unchanged (env : handler_env) (inst : qdevice_net_instance)
    (msg : msg_decoded)
    (hstate : inst.state = .QDEVICE_NET_STATE_WAITING_PREINIT_REPLY)
    (hset : msg.seq_number_set = true)
    (hseq : msg.seq_number = inst.expected_msg_seq_num)
    (h : msg.tls_supported_set = false ∨ msg.tls_client_cert_required_set = false ∨
      qdevice_net_check_tls_compatibility msg.tls_supported inst.tls_supported = -1) :
    qdevice_net_msg_received_preinit_reply env inst msg = (-1, inst) := by
  have hc : qdevice_net_msg_check_seq_number inst msg = 0 :=
    (check_seq_number_eq_zero_iff inst msg).2 ⟨hset, hseq⟩
  unfold qdevice_net_msg_received_preinit_reply
  rcases h with h | h | h
  · simp [hstate, hc, h]
  · simp [hstate, hc, h]
  · cases h1 : msg.tls_supported_set <;> cases h2 : msg.tls_client_cert_required_set <;>
      simp [hstate, hc, h]

/-- Witness of C6: the client without TLS receives the PREINIT_REPLY of a server
that requires TLS. -/
theorem preinit_reply_rejected_unchanged_witness :
    qdevice_net_check_tls_compatibility .TLV_TLS_REQUIRED sample_instance.tls_supported = -1 ∧
    qdevice_net_msg_received_preinit_reply sample_env sample_instance
      (sample_preinit_reply 1 .TLV_TLS_REQUIRED) = (-1, sample_instance) :=
  ⟨by decide, preinit_reply_rejected_unchanged sample_env sample_instance
    (sample_preinit_reply 1 .TLV_TLS_REQUIRED) rfl rfl rfl (Or.inr (Or.inr (by decide)))⟩

/-- A result already set ends the loop over the decision algorithms. -/
theorem decision_algorithm_loop_of_ne_zero (algorithms : List Nat) (decision_algorithm : Nat)
    (res : Int) (h : res ≠ 0) :
    decision_algorithm_loop algorithms decision_algorithm res = res := by
  cases algorithms with
  | nil => rfl
  | cons a rest => simp [decision_algorithm_loop, h]

/-- The loop over the decision algorithms, started with `0`, ends with `1` when the
algorithm wanted is among the entries and with `0` when it is not. -/
theorem decision_algorithm_loop_zero (algorithms : List Nat) (decision_algorithm : Nat) :
    decision_algorithm_loop algorithms decision_algorithm 0 =
      if decision_algorithm ∈ algorithms then 1 else 0 := by
  induction algorithms with
  | nil => simp [decision_algorithm_loop]
  | cons a rest ih =>
    by_cases ha : a = decision_algorithm
    · simp [decision_algorithm_loop, ha, decision_algorithm_loop_of_ne_zero]
    · have ha2 : ¬ decision_algorithm = a := fun h => ha h.symm
      simp [decision_algorithm_loop, ha, ha2, ih]

/-- An INIT_REPLY rejected by one of the early checks leaves the instance as it was. -/
theorem init_reply_early_reject_unchanged (env : handler_env) (inst : qdevice_net_instance)
    (msg : msg_decoded) (h : init_reply_early_reject inst msg) :
    qdevice_net_msg_received_init_reply env inst msg = (-1, inst) := by
  unfold qdevice_net_msg_received_init_reply
  by_cases hs : inst.state = .QDEVICE_NET_STATE_WAITING_INIT_REPLY
  swap
  · simp [hs]
  by_cases hc : qdevice_net_msg_check_seq_number inst msg = 0
  swap
  · simp [hs, hc]
  have hc2 := (check_seq_number_eq_zero_iff inst msg).1 hc
  unfold init_reply_early_reject at h
  rcases h with h | h | h | h | h | h | h | h | h | h
  · exact absurd hs h
  · simp [hc2.1] at h
  · exact absurd hc2.2 h
  · simp [hs, hc, h]
  · simp [hs, hc, h]
  · simp [hs, hc, h]
  · simp [hs, hc, h]
  · simp [hs, hc, h]
  · cases h5 : msg.supported_decision_algorithms <;> simp [hs, hc, h]
  · cases h5 : msg.supported_decision_algorithms <;> simp [hs, hc, h]

/-- An INIT_REPLY that passes the early checks but does not list the decision
algorithm of the client is rejected after the buffer sizes were changed. -/
theorem init_reply_algorithm_missing (env : handler_env) (inst : qdevice_net_instance)
    (msg : msg_decoded) (algorithms : List Nat)
    (h : ¬ init_reply_early_reject inst msg)
    (halgs : msg.supported_decision_algorithms = some algorithms)
    (hmem : inst.decision_algorithm ∉ algorithms) :
    qdevice_net_msg_received_init_reply env inst msg = (-1, init_reply_resized inst msg) := by
  unfold init_reply_early_reject at h
  push_neg at h
  obtain ⟨hs, h1, h2, h3, h4, h5, h6, _, h8, h9⟩ := h
  have hc : qdevice_net_msg_check_seq_number inst msg = 0 :=
    (check_seq_number_eq_zero_iff inst msg).2 ⟨by simpa using h1, h2⟩
  have h3t : msg.server_maximum_request_size_set = true := by simpa using h3
  have h4t : msg.server_maximum_reply_size_set = true := by simpa using h4
  have h5t : msg.supported_messages.isNone = false := by
    cases hm : msg.supported_messages <;> simp_all
  have h6t : msg.supported_options.isNone = false := by
    cases hm : msg.supported_options <;> simp_all
  have h8t : ¬ msg.server_maximum_request_size < inst.min_send_size := by omega
  have h9t : ¬ msg.server_maximum_reply_size > inst.max_receive_size := by omega
  unfold qdevice_net_msg_received_init_reply
  simp [hs, hc, h3t, h4t, h5t, h6t, halgs, h8t, h9t, decision_algorithm_loop_zero, hmem,
    init_reply_resized]

/-- An INIT_REPLY that passes the early checks and lists the decision algorithm of
the client, received while no main message is in flight: when SET_OPTION is encoded
the handler returns `0` and the instance is the resized one with the sequence
number incremented, the encoded SET_OPTION in the send buffer, the main sending
flag set with progress `0` and the state WAITING_SET_OPTION_REPLY. -/
theorem init_reply_algorithm_present (env : handler_env) (inst : qdevice_net_instance)
    (msg : msg_decoded) (algorithms : List Nat)
    (h : ¬ init_reply_early_reject inst msg)
    (halgs : msg.supported_decision_algorithms = some algorithms)
    (hmem : inst.decision_algorithm ∈ algorithms)
    (hidle : inst.sending_msg = 0)
    (henc : (env.codec.msg_create_set_option
      (dynar_set_max_size inst.send_buffer msg.server_maximum_request_size) true
      ((inst.expected_msg_seq_num + 1) % 2 ^ 32) true inst.decision_algorithm true
      inst.heartbeat_interval).2 ≠ 0) :
    qdevice_net_msg_received_init_reply env inst msg =
      (0, { init_reply_resized inst msg with
        expected_msg_seq_num := (inst.expected_msg_seq_num + 1) % 2 ^ 32
        send_buffer :=
          { data := (env.codec.msg_create_set_option
              (dynar_set_max_size inst.send_buffer msg.server_maximum_request_size) true
              ((inst.expected_msg_seq_num + 1) % 2 ^ 32) true inst.decision_algorithm true
              inst.heartbeat_interval).1
            maximum_size := msg.server_maximum_request_size }
        msg_already_sent_bytes := 0
        sending_msg := 1
        state := .QDEVICE_NET_STATE_WAITING_SET_OPTION_REPLY }) := by
  unfold init_reply_early_reject at h
  push_neg at h
  obtain ⟨hs, h1, h2, h3, h4, h5, h6, _, h8, h9⟩ := h
  have hc : qdevice_net_msg_check_seq_number inst msg = 0 :=
    (check_seq_number_eq_zero_iff inst msg).2 ⟨by simpa using h1, h2⟩
  have h3t : msg.server_maximum_request_size_set = true := by simpa using h3
  have h4t : msg.server_maximum_reply_size_set = true := by simpa using h4
  have h5t : msg.supported_messages.isNone = false := by
    cases hm : msg.supported_messages <;> simp_all
  have h6t : msg.supported_options.isNone = false := by
    cases hm : msg.supported_options <;> simp_all
  have h8t : ¬ msg.server_maximum_request_size < inst.min_send_size := by omega
  have h9t : ¬ msg.server_maximum_reply_size > inst.max_receive_size := by omega
  unfold dynar_set_max_size at henc
  norm_num at henc
  unfold qdevice_net_msg_received_init_reply
  simp [hs, hc, h3t, h4t, h5t, h6t, halgs, h8t, h9t, decision_algorithm_loop_zero, hmem,
    init_reply_resized, qdevice_net_schedule_send, hidle, uint32_inc, dynar_store,
    dynar_set_max_size, henc]

/-- An INIT_REPLY that passes the early checks leaves the three hard maxima at the
sizes the server advertised, however the rest of the handler ends. -/
theorem init_reply_resized_maxima (env : handler_env) (inst : qdevice_net_instance)
    (msg : msg_decoded) (h : ¬ init_reply_early_reject inst msg) :
    (qdevice_net_msg_received_init_reply env inst msg).2.receive_buffer.maximum_size =
      msg.server_maximum_reply_size ∧
    (qdevice_net_msg_received_init_reply env inst msg).2.send_buffer.maximum_size =
      msg.server_maximum_request_size ∧
    (qdevice_net_msg_received_init_reply env inst msg).2.echo_request_send_buffer.maximum_size =
      msg.server_maximum_request_size := by
  unfold init_reply_early_reject at h
  push_neg at h
  obtain ⟨hs, h1, h2, h3, h4, h5, h6, h7, h8, h9⟩ := h
  have hc : qdevice_net_msg_check_seq_number inst msg = 0 :=
    (check_seq_number_eq_zero_iff inst msg).2 ⟨by simpa using h1, h2⟩
  have h3t : msg.server_maximum_request_size_set = true := by simpa using h3
  have h4t : msg.server_maximum_reply_size_set = true := by simpa using h4
  have h5t : msg.supported_messages.isNone = false := by
    cases hm : msg.supported_messages <;> simp_all
  have h6t : msg.supported_options.isNone = false := by
    cases hm : msg.supported_options <;> simp_all
  have h8t : ¬ msg.server_maximum_request_size < inst.min_send_size := by omega
  have h9t : ¬ msg.server_maximum_reply_size > inst.max_receive_size := by omega
  obtain ⟨algorithms, halgs⟩ := Option.ne_none_iff_exists'.1 h7
  unfold qdevice_net_msg_received_init_reply
  simp only [hs, hc, h3t, h4t, h5t, h6t, halgs, h8t, h9t, ne_eq, not_true_eq_false,
    Bool.not_true, Bool.or_self, Bool.false_eq_true, if_false]
  unfold qdevice_net_schedule_send
  split_ifs <;> simp [dynar_set_max_size, dynar_store]

/-- C7. An INIT_REPLY received in WAITING_INIT_REPLY with the expected sequence
number, while no main message is in flight and SET_OPTION is encoded. The handler
returns `0` exactly when both sizes are set, the three lists are present, the
request size is at least `min_send_size`, the reply size is at most
`max_receive_size` and the decision algorithm of the client is among the entries
of the server's list. On `0` the 32-bit `expected_msg_seq_num` is incremented by
one, the main sending flag is `1` with progress `0`, the state is
WAITING_SET_OPTION_REPLY and the send buffer holds the encoded SET_OPTION. When the
algorithm is not in the list the handler returns `-1` with the state, the sequence
number, the sending flag, its progress and the bytes of the send buffer unchanged. -/
theorem init_reply_accepted_iff (env : handler_env) (inst : qdevice_net_instance)
    (msg : msg_decoded)
    (hstate : inst.state = .QDEVICE_NET_STATE_WAITING_INIT_REPLY)
    (hset : msg.seq_number_set = true)
    (hseq : msg.seq_number = inst.expected_msg_seq_num)
    (hidle : inst.sending_msg = 0)
    (henc : (env.codec.msg_create_set_option
      (dynar_set_max_size inst.send_buffer msg.server_maximum_request_size) true
      ((inst.expected_msg_seq_num + 1) % 2 ^ 32) true inst.decision_algorithm true
      inst.heartbeat_interval).2 ≠ 0) :
    ((qdevice_net_msg_received_init_reply env inst msg).1 = 0 ↔
      msg.server_maximum_request_size_set = true ∧
      msg.server_maximum_reply_size_set = true ∧
      msg.supported_messages ≠ none ∧
      msg.supported_options ≠ none ∧
      inst.min_send_size ≤ msg.server_maximum_request_size ∧
      msg.server_maximum_reply_size ≤ inst.max_receive_size ∧
      ∃ algorithms, msg.supported_decision_algorithms = some algorithms ∧
        inst.decision_algorithm ∈ algorithms) ∧
    ((qdevice_net_msg_received_init_reply env inst msg).1 = 0 →
      (qdevice_net_msg_received_init_reply env inst msg).2.expected_msg_seq_num =
        (inst.expected_msg_seq_num + 1) % 2 ^ 32 ∧
      (qdevice_net_msg_received_init_reply env inst msg).2.sending_msg = 1 ∧
      (qdevice_net_msg_received_init_reply env inst msg).2.msg_already_sent_bytes = 0 ∧
      (qdevice_net_msg_received_init_reply env inst msg).2.state =
        .QDEVICE_NET_STATE_WAITING_SET_OPTION_REPLY ∧
      (qdevice_net_msg_received_init_reply env inst msg).2.send_buffer.data =
        (env.codec.msg_create_set_option
          (dynar_set_max_size inst.send_buffer msg.server_maximum_request_size) true
          ((inst.expected_msg_seq_num + 1) % 2 ^ 32) true inst.decision_algorithm true
          inst.heartbeat_interval).1) ∧
    (∀ algorithms, msg.supported_decision_algorithms = some algorithms →
      inst.decision_algorithm ∉ algorithms →
      (qdevice_net_msg_received_init_reply env inst msg).1 = -1 ∧
      (qdevice_net_msg_received_init_reply env inst msg).2.state = inst.state ∧
      (qdevice_net_msg_received_init_reply env inst msg).2.expected_msg_seq_num =
        inst.expected_msg_seq_num ∧
      (qdevice_net_msg_received_init_reply env inst msg).2.sending_msg = inst.sending_msg ∧
      (qdevice_net_msg_received_init_reply env inst msg).2.msg_already_sent_bytes =
        inst.msg_already_sent_bytes ∧
      (qdevice_net_msg_received_init_reply env inst msg).2.send_buffer.data =
        inst.send_buffer.data) := by
  by_cases hrej : init_reply_early_reject inst msg
  · rw [init_reply_early_reject_unchanged env inst msg hrej]
    refine ⟨⟨fun h => by simp at h, ?_⟩, fun h => by simp at h, fun _ _ _ => by simp⟩
    rintro ⟨c1, c2, c3, c4, c5, c6, algorithms, c7, _⟩
    exfalso
    unfold init_reply_early_reject at hrej
    rcases hrej with h | h | h | h | h | h | h | h | h | h
    · exact h hstate
    · simp [hset] at h
    · exact h hseq
    · simp [c1] at h
    · simp [c2] at h
    · exact c3 h
    · exact c4 h
    · simp [c7] at h
    · omega
    · omega
  · have hpass := hrej
    unfold init_reply_early_reject at hpass
    push_neg at hpass
    obtain ⟨_, _, _, h3, h4, h5, h6, h7, h8, h9⟩ := hpass
    obtain ⟨algorithms, halgs⟩ := Option.ne_none_iff_exists'.1 h7
    by_cases hmem : inst.decision_algorithm ∈ algorithms
    · rw [init_reply_algorithm_present env inst msg algorithms hrej halgs hmem hidle henc]
      refine ⟨⟨fun _ => ⟨by simpa using h3, by simpa using h4, h5, h6, h8, by omega,
        algorithms, halgs, hmem⟩, fun _ => rfl⟩, fun _ => ⟨rfl, rfl, rfl, rfl, rfl⟩, ?_⟩
      intro algorithms2 halgs2 hmem2
      rw [halgs] at halgs2
      cases halgs2
      exact absurd hmem hmem2
    · rw [init_reply_algorithm_missing env inst msg algorithms hrej halgs hmem]
      refine ⟨⟨fun h => by simp at h, ?_⟩, fun h => by simp at h,
        fun _ _ _ => ⟨rfl, rfl, rfl, rfl, rfl, rfl⟩⟩
      rintro ⟨_, _, _, _, _, _, algorithms2, c7, c8⟩
      rw [halgs] at c7
      cases c7
      exact absurd c8 hmem

/-- Witness of C7: the sample client waiting for the INIT_REPLY receives one with
sequence number 2 from a server that supports its algorithm (tag 0). -/
theorem init_reply_accepted_iff_witness :
    (qdevice_net_msg_received_init_reply sample_env sample_instance_waiting_init_reply
      (sample_init_reply 2 [0])).1 = 0 ∧
    (qdevice_net_msg_received_init_reply sample_env sample_instance_waiting_init_reply
      (sample_init_reply 2 [0])).2.expected_msg_seq_num = 3 ∧
    (qdevice_net_msg_received_init_reply sample_env sample_instance_waiting_init_reply
      (sample_init_reply 2 [0])).2.sending_msg = 1 ∧
    (qdevice_net_msg_received_init_reply sample_env sample_instance_waiting_init_reply
      (sample_init_reply 2 [0])).2.msg_already_sent_bytes = 0 ∧
    (qdevice_net_msg_received_init_reply sample_env sample_instance_waiting_init_reply
      (sample_init_reply 2 [0])).2.state = .QDEVICE_NET_STATE_WAITING_SET_OPTION_REPLY ∧
    (qdevice_net_msg_received_init_reply sample_env sample_instance_waiting_init_reply
      (sample_init_reply 2 [0])).2.send_buffer.data = [6, 3, 0, 8000] :=
  have h := init_reply_accepted_iff sample_env sample_instance_waiting_init_reply
    (sample_init_reply 2 [0]) rfl rfl rfl rfl (by decide)
  have h0 := h.1.2 ⟨rfl, rfl, by decide, by decide, by decide, by decide, [0], rfl, by decide⟩
  ⟨h0, h.2.1 h0⟩

/-- C8. Whenever the INIT_REPLY handler returns `0`, the hard maximum of the receive
buffer is the `server_maximum_reply_size` of the message and the hard maxima of
the main send buffer and of the echo-request send buffer are its
`server_maximum_request_size`. -/
theorem init_reply_success_maxima (env : handler_env) (inst : qdevice_net_instance)
    (msg : msg_decoded) (h : (qdevice_net_msg_received_init_reply env inst msg).1 = 0) :
    (qdevice_net_msg_received_init_reply env inst msg).2.receive_buffer.maximum_size =
      msg.server_maximum_reply_size ∧
    (qdevice_net_msg_received_init_reply env inst msg).2.send_buffer.maximum_size =
      msg.server_maximum_request_size ∧
    (qdevice_net_msg_received_init_reply env inst msg).2.echo_request_send_buffer.maximum_size =
      msg.server_maximum_request_size := by
  by_cases hrej : init_reply_early_reject inst msg
  · rw [init_reply_early_reject_unchanged env inst msg hrej] at h
    simp at h
  · exact init_reply_resized_maxima env inst msg hrej

/-- Witness of C8: the accepted INIT_REPLY of the sample handshake raises the three
maxima from 32768 to the 65536 bytes the server advertised. -/
theorem init_reply_success_maxima_witness :
    sample_instance_waiting_init_reply.receive_buffer.maximum_size = 32768 ∧
    (qdevice_net_msg_received_init_reply sample_env sample_instance_waiting_init_reply
      (sample_init_reply 2 [0])).1 = 0 ∧
    (qdevice_net_msg_received_init_reply sample_env sample_instance_waiting_init_reply
      (sample_init_reply 2 [0])).2.receive_buffer.maximum_size = 65536 ∧
    (qdevice_net_msg_received_init_reply sample_env sample_instance_waiting_init_reply
      (sample_init_reply 2 [0])).2.send_buffer.maximum_size = 65536 ∧
    (qdevice_net_msg_received_init_reply sample_env sample_instance_waiting_init_reply
      (sample_init_reply 2 [0])).2.echo_request_send_buffer.maximum_size = 65536 :=
  ⟨by decide, by decide, init_reply_success_maxima sample_env sample_instance_waiting_init_reply
    (sample_init_reply 2 [0]) (by decide)⟩

/-- C9, the counterexample. An INIT_REPLY that passes the early checks but lists
only an algorithm the client does not use (tag 1) makes the handler return `-1`,
and the three hard maxima, 32768 before the call, are 65536 after it. -/
theorem init_reply_failure_changes_maxima :
    (qdevice_net_msg_received_init_reply sample_env sample_instance_waiting_init_reply
      (sample_init_reply 2 [1])).1 = -1 ∧
    sample_instance_waiting_init_reply.receive_buffer.maximum_size = 32768 ∧
    sample_instance_waiting_init_reply.send_buffer.maximum_size = 32768 ∧
    sample_instance_waiting_init_reply.echo_request_send_buffer.maximum_size = 32768 ∧
    (qdevice_net_msg_received_init_reply sample_env sample_instance_waiting_init_reply
      (sample_init_reply 2 [1])).2.receive_buffer.maximum_size = 65536 ∧
    (qdevice_net_msg_received_init_reply sample_env sample_instance_waiting_init_reply
      (sample_init_reply 2 [1])).2.send_buffer.maximum_size = 65536 ∧
    (qdevice_net_msg_received_init_reply sample_env sample_instance_waiting_init_reply
      (sample_init_reply 2 [1])).2.echo_request_send_buffer.maximum_size = 65536 := by
  decide

/-- C9, amended. When the INIT_REPLY handler returns `-1`, either the message was
rejected by one of the early checks (wrong state, bad sequence number, missing
option, size out of bounds) and the instance, the three hard maxima included, is
as it was before the call; or it passed them and was rejected later (the decision
algorithm is not in the server's list, SET_OPTION could not be encoded, or a main
message was still in flight), and the three hard maxima are the sizes the server
advertised. -/
theorem init_reply_failure_maxima (env : handler_env) (inst : qdevice_net_instance)
    (msg : msg_decoded) (hfail : (qdevice_net_msg_received_init_reply env inst msg).1 = -1) :
    (init_reply_early_reject inst msg ∧
      (qdevice_net_msg_received_init_reply env inst msg).2 = inst) ∨
    (¬ init_reply_early_reject inst msg ∧
      (∃ algorithms, msg.supported_decision_algorithms = some algorithms ∧
        (inst.decision_algorithm ∉ algorithms ∨
          (env.codec.msg_create_set_option
            (dynar_set_max_size inst.send_buffer msg.server_maximum_request_size) true
            ((inst.expected_msg_seq_num + 1) % 2 ^ 32) true inst.decision_algorithm true
            inst.heartbeat_interval).2 = 0 ∨
          inst.sending_msg ≠ 0)) ∧
      (qdevice_net_msg_received_init_reply env inst msg).2.receive_buffer.maximum_size =
        msg.server_maximum_reply_size ∧
      (qdevice_net_msg_received_init_reply env inst msg).2.send_buffer.maximum_size =
        msg.server_maximum_request_size ∧
      (qdevice_net_msg_received_init_reply env inst msg).2.echo_request_send_buffer.maximum_size =
        msg.server_maximum_request_size) := by
  by_cases hrej : init_reply_early_reject inst msg
  · left
    exact ⟨hrej, by rw [init_reply_early_reject_unchanged env inst msg hrej]⟩
  · right
    refine ⟨hrej, ?_, init_reply_resized_maxima env inst msg hrej⟩
    have h7 : msg.supported_decision_algorithms ≠ none := by
      intro hnone
      exact hrej (by unfold init_reply_early_reject; simp [hnone])
    obtain ⟨algorithms, halgs⟩ := Option.ne_none_iff_exists'.1 h7
    refine ⟨algorithms, halgs, ?_⟩
    by_contra hcon
    push_neg at hcon
    obtain ⟨hmem, henc, hidle⟩ := hcon
    rw [init_reply_algorithm_present env inst msg algorithms hrej halgs hmem hidle henc] at hfail
    simp at hfail

/-- Witness of C9 amended: the INIT_REPLY of the counterexample is rejected after
the early checks, with the maxima at the 65536 bytes the server advertised, while an
INIT_REPLY with the wrong sequence number (7 for 2) leaves the instance as it was. -/
theorem init_reply_failure_maxima_witness :
    ((qdevice_net_msg_received_init_reply sample_env sample_instance_waiting_init_reply
      (sample_init_reply 7 [0])).1 = -1 ∧
      init_reply_early_reject sample_instance_waiting_init_reply (sample_init_reply 7 [0]) ∧
      (qdevice_net_msg_received_init_reply sample_env sample_instance_waiting_init_reply
        (sample_init_reply 7 [0])).2 = sample_instance_waiting_init_reply) ∧
    ((qdevice_net_msg_received_init_reply sample_env sample_instance_waiting_init_reply
      (sample_init_reply 2 [1])).1 = -1 ∧
      ¬ init_reply_early_reject sample_instance_waiting_init_reply (sample_init_reply 2 [1]) ∧
      (qdevice_net_msg_received_init_reply sample_env sample_instance_waiting_init_reply
        (sample_init_reply 2 [1])).2.receive_buffer.maximum_size = 65536) :=
  ⟨⟨by decide,
    (init_reply_failure_maxima sample_env sample_instance_waiting_init_reply
      (sample_init_reply 7 [0]) (by decide)).elim (fun h => h)
      (fun h => absurd (by decide) h.1)⟩,
   ⟨by decide,
    (init_reply_failure_maxima sample_env sample_instance_waiting_init_reply
      (sample_init_reply 2 [1]) (by decide)).elim (fun h => absurd h.1 (by decide))
      (fun h => ⟨h.1, h.2.2.1⟩)⟩⟩

/-- C10. A SET_OPTION_REPLY with the expected sequence number and both options
present. If its decision algorithm or its heartbeat interval differs from the
client's, the handler returns `-1` and the instance, its timer list included, is
as it was. If both are equal and the client's heartbeat interval is positive, then
when the timer list can allocate the handler returns `0`, the timer list has
exactly one entry more, with the heartbeat interval and the heartbeat callback,
and `echo_request_timer` is the handle of that entry; when it cannot, the handler
returns `-1` and no entry is added. If both are equal and the heartbeat interval
is `0` the handler returns `0` and the instance is as it was. -/
theorem set_option_reply_outcome (env : handler_env) (inst : qdevice_net_instance)
    (msg : msg_decoded)
    (hset : msg.seq_number_set = true)
    (hseq : msg.seq_number = inst.expected_msg_seq_num)
    (_halg : msg.decision_algorithm_set = true)
    (_hhb : msg.heartbeat_interval_set = true) :
    ((msg.decision_algorithm ≠ inst.decision_algorithm ∨
        msg.heartbeat_interval ≠ inst.heartbeat_interval) →
      qdevice_net_msg_received_set_option_reply env inst msg = (-1, inst)) ∧
    (msg.decision_algorithm = inst.decision_algorithm →
      msg.heartbeat_interval = inst.heartbeat_interval →
      inst.heartbeat_interval > 0 →
      (env.timer_alloc_ok = true →
        (qdevice_net_msg_received_set_option_reply env inst msg).1 = 0 ∧
        ∃ entry : timer_list_entry,
          entry.interval = inst.heartbeat_interval ∧
          entry.func = .qdevice_net_timer_send_heartbeat ∧
          (qdevice_net_msg_received_set_option_reply env inst msg).2.main_timer_list.entries =
            inst.main_timer_list.entries ++ [entry] ∧
          (qdevice_net_msg_received_set_option_reply env inst msg).2.echo_request_timer =
            some entry) ∧
      (env.timer_alloc_ok = false →
        (qdevice_net_msg_received_set_option_reply env inst msg).1 = -1 ∧
        (qdevice_net_msg_received_set_option_reply env inst msg).2.main_timer_list =
          inst.main_timer_list)) ∧
    (msg.decision_algorithm = inst.decision_algorithm →
      msg.heartbeat_interval = inst.heartbeat_interval →
      inst.heartbeat_interval = 0 →
      qdevice_net_msg_received_set_option_reply env inst msg = (0, inst)) := by
  have hc : qdevice_net_msg_check_seq_number inst msg = 0 :=
    (check_seq_number_eq_zero_iff inst msg).2 ⟨hset, hseq⟩
  refine ⟨?_, ?_, ?_⟩
  · intro h
    unfold qdevice_net_msg_received_set_option_reply
    rcases h with h | h
    · simp [hc, h]
    · simp [hc, h]
  · intro ha hh hpos
    constructor
    · intro hok
      refine ⟨?_, ⟨inst.main_timer_list.next_id, inst.heartbeat_interval,
        .qdevice_net_timer_send_heartbeat⟩, rfl, rfl, ?_, ?_⟩ <;>
        simp [qdevice_net_msg_received_set_option_reply, hc, ha, hh, hpos, timer_list_add, hok]
    · intro hno
      constructor <;>
        simp [qdevice_net_msg_received_set_option_reply, hc, ha, hh, hpos, timer_list_add, hno]
  · intro ha hh hzero
    simp [qdevice_net_msg_received_set_option_reply, hc, ha, hh, hzero]

/-- Witness of C10: the SET_OPTION_REPLY of the sample handshake (sequence number 3,
algorithm tag 0, heartbeat 8000 ms) adds the one heartbeat timer. -/
theorem set_option_reply_outcome_witness :
    (qdevice_net_msg_received_set_option_reply sample_env
      sample_instance_waiting_set_option_reply (sample_set_option_reply 3)).1 = 0 ∧
    ∃ entry : timer_list_entry,
      entry.interval = 8000 ∧
      entry.func = .qdevice_net_timer_send_heartbeat ∧
      (qdevice_net_msg_received_set_option_reply sample_env
        sample_instance_waiting_set_option_reply
        (sample_set_option_reply 3)).2.main_timer_list.entries = [] ++ [entry] ∧
      (qdevice_net_msg_received_set_option_reply sample_env
        sample_instance_waiting_set_option_reply
        (sample_set_option_reply 3)).2.echo_request_timer = some entry :=
  ((set_option_reply_outcome sample_env sample_instance_waiting_set_option_reply
    (sample_set_option_reply 3) rfl rfl rfl rfl).2.1 rfl rfl (by decide)).1 rfl

/-- C11. A message that could not be decoded, and a decoded message of type PREINIT,
STARTTLS, INIT, SET_OPTION, ECHO_REQUEST, SERVER_ERROR (whatever its error code
fields) or of a type outside the known set, make `qdevice_net_msg_received` return
`-1` with every field of the instance as it was, in every state. -/
theorem msg_received_unexpected_fatal (env : handler_env) (decoded : Int × msg_decoded)
    (inst : qdevice_net_instance)
    (h : decoded.1 ≠ 0 ∨
      decoded.2.type = .MSG_TYPE_PREINIT ∨
      decoded.2.type = .MSG_TYPE_STARTTLS ∨
      decoded.2.type = .MSG_TYPE_INIT ∨
      decoded.2.type = .MSG_TYPE_SET_OPTION ∨
      decoded.2.type = .MSG_TYPE_ECHO_REQUEST ∨
      decoded.2.type = .MSG_TYPE_SERVER_ERROR ∨
      ∃ v, decoded.2.type = .other v) :
    qdevice_net_msg_received env decoded inst = (-1, inst) := by
  unfold qdevice_net_msg_received
  by_cases hd : decoded.1 = 0
  swap
  · simp [hd]
  rcases h with h | h | h | h | h | h | h | ⟨v, h⟩
  · exact absurd hd h
  all_goals
    simp [hd, h, qdevice_net_msg_received_preinit, qdevice_net_msg_received_stattls,
      qdevice_net_msg_received_set_option, qdevice_net_msg_received_echo_request,
      qdevice_net_msg_received_server_error]

/-- Witness of C11: a SERVER_ERROR with error code 3 and a message of the unknown
type 77 reach the client that waits for the INIT_REPLY, and a PREINIT_REPLY that
would be accepted fails to decode (result `-3`) at the client waiting for it. -/
theorem msg_received_unexpected_fatal_witness :
    qdevice_net_msg_received sample_env
      (0, sample_server_error)
      sample_instance_waiting_init_reply = (-1, sample_instance_waiting_init_reply) ∧
    qdevice_net_msg_received sample_env (0, blank_msg (.other 77))
      sample_instance_waiting_init_reply = (-1, sample_instance_waiting_init_reply) ∧
    qdevice_net_msg_received sample_env (-3, sample_preinit_reply 1 .TLV_TLS_UNSUPPORTED)
      sample_instance = (-1, sample_instance) :=
  ⟨msg_received_unexpected_fatal sample_env _ sample_instance_waiting_init_reply
      (Or.inr (Or.inr (Or.inr (Or.inr (Or.inr (Or.inr (Or.inl rfl))))))),
   msg_received_unexpected_fatal sample_env _ sample_instance_waiting_init_reply
      (Or.inr (Or.inr (Or.inr (Or.inr (Or.inr (Or.inr (Or.inr ⟨77, rfl⟩))))))),
   msg_received_unexpected_fatal sample_env _ sample_instance (Or.inl (by decide))⟩

/-- The echo scheduling when no echo request is in flight, the two counters are
equal and the encoder's result is not `(size_t) -1`. -/
theorem schedule_echo_request_send_success (codec : msg_codec) (inst : qdevice_net_instance)
    (h1 : inst.sending_echo_request_msg = 0)
    (h2 : inst.echo_reply_received_msg_seq_num = inst.echo_request_expected_msg_seq_num)
    (h3 : (codec.msg_create_echo_request inst.echo_request_send_buffer true
      ((inst.echo_request_expected_msg_seq_num + 1) % 2 ^ 32)).2 ≠ SIZE_MAX) :
    qdevice_net_schedule_echo_request_send codec inst =
      (0, { inst with
        echo_request_expected_msg_seq_num :=
          (inst.echo_request_expected_msg_seq_num + 1) % 2 ^ 32
        echo_request_send_buffer :=
          { data := (codec.msg_create_echo_request inst.echo_request_send_buffer true
              ((inst.echo_request_expected_msg_seq_num + 1) % 2 ^ 32)).1
            maximum_size := inst.echo_request_send_buffer.maximum_size }
        echo_request_msg_already_sent_bytes := 0
        sending_echo_request_msg := 1 }) := by
  norm_num at h3
  simp [qdevice_net_schedule_echo_request_send, h1, h2, uint32_inc, dynar_store, h3]

/-- C12. `qdevice_net_schedule_echo_request_send` on every instance. With an echo
request in flight it returns `-1` and the instance is as it was. Otherwise, with
`echo_reply_received_msg_seq_num` different from `echo_request_expected_msg_seq_num`
it returns `-1` and the instance is as it was. Otherwise, when the encoder's
result is not the `(size_t) -1` the function tests for (every encoded message: its
size is bounded by the buffer), it returns `0`, the 32-bit
`echo_request_expected_msg_seq_num` is incremented by one, the echo-request send
buffer holds the ECHO_REQUEST encoded with the new value, the echo progress is `0`
and the echo sending flag is `1`, and nothing else changes. Hence `0` is returned
only when no echo request was in flight and the two counters were equal. -/
theorem schedule_echo_request_send_outcome (codec : msg_codec) (inst : qdevice_net_instance) :
    (inst.sending_echo_request_msg ≠ 0 →
      qdevice_net_schedule_echo_request_send codec inst = (-1, inst)) ∧
    (inst.sending_echo_request_msg = 0 →
      inst.echo_reply_received_msg_seq_num ≠ inst.echo_request_expected_msg_seq_num →
      qdevice_net_schedule_echo_request_send codec inst = (-1, inst)) ∧
    (inst.sending_echo_request_msg = 0 →
      inst.echo_reply_received_msg_seq_num = inst.echo_request_expected_msg_seq_num →
      (codec.msg_create_echo_request inst.echo_request_send_buffer true
        ((inst.echo_request_expected_msg_seq_num + 1) % 2 ^ 32)).2 ≠ SIZE_MAX →
      qdevice_net_schedule_echo_request_send codec inst =
        (0, { inst with
          echo_request_expected_msg_seq_num :=
            (inst.echo_request_expected_msg_seq_num + 1) % 2 ^ 32
          echo_request_send_buffer :=
            { data := (codec.msg_create_echo_request inst.echo_request_send_buffer true
                ((inst.echo_request_expected_msg_seq_num + 1) % 2 ^ 32)).1
              maximum_size := inst.echo_request_send_buffer.maximum_size }
          echo_request_msg_already_sent_bytes := 0
          sending_echo_request_msg := 1 })) ∧
    ((qdevice_net_schedule_echo_request_send codec inst).1 = 0 →
      inst.sending_echo_request_msg = 0 ∧
      inst.echo_reply_received_msg_seq_num = inst.echo_request_expected_msg_seq_num) := by
  refine ⟨?_, ?_, ?_, ?_⟩
  · intro h
    simp [qdevice_net_schedule_echo_request_send, h]
  · intro h1 h2
    simp [qdevice_net_schedule_echo_request_send, h1, h2]
  · intro h1 h2 h3
    exact schedule_echo_request_send_success codec inst h1 h2 h3
  · intro h
    by_cases h1 : inst.sending_echo_request_msg = 0
    swap
    · simp [qdevice_net_schedule_echo_request_send, h1] at h
    by_cases h2 : inst.echo_reply_received_msg_seq_num = inst.echo_request_expected_msg_seq_num
    · exact ⟨h1, h2⟩
    · simp [qdevice_net_schedule_echo_request_send, h1, h2] at h

/-- Witness of C12: the first echo request of the sample client carries sequence
number 1. -/
theorem schedule_echo_request_send_outcome_witness :
    qdevice_net_schedule_echo_request_send sample_codec sample_instance_steady =
      (0, { sample_instance_steady with
        echo_request_expected_msg_seq_num := 1
        echo_request_send_buffer := { data := [8, 1], maximum_size := 65536 }
        echo_request_msg_already_sent_bytes := 0
        sending_echo_request_msg := 1 }) :=
  (schedule_echo_request_send_outcome sample_codec sample_instance_steady).2.2.1
    (by decide) (by decide) (by decide)

/-- C13. `qdevice_net_msg_received_echo_reply` returns `0` exactly when the message
has a sequence number equal to `echo_request_expected_msg_seq_num` (and `-1`
otherwise); on `0` the instance is as it was but for
`echo_reply_received_msg_seq_num`, which is that sequence number; on `-1`
the instance is as it was. -/
theorem echo_reply_outcome (inst : qdevice_net_instance) (msg : msg_decoded) :
    ((qdevice_net_msg_received_echo_reply inst msg).1 = 0 ↔
      msg.seq_number_set = true ∧
      msg.seq_number = inst.echo_request_expected_msg_seq_num) ∧
    ((qdevice_net_msg_received_echo_reply inst msg).1 = 0 →
      (qdevice_net_msg_received_echo_reply inst msg).2 =
        { inst with echo_reply_received_msg_seq_num := msg.seq_number }) ∧
    ((qdevice_net_msg_received_echo_reply inst msg).1 ≠ 0 →
      qdevice_net_msg_received_echo_reply inst msg = (-1, inst)) := by
  unfold qdevice_net_msg_received_echo_reply qdevice_net_msg_check_echo_reply_seq_number
  cases hs : msg.seq_number_set <;>
    by_cases he : msg.seq_number = inst.echo_request_expected_msg_seq_num <;>
    simp [he]

/-- Witness of C13: after the first echo request of the sample client, the
ECHO_REPLY with sequence number 1 is accepted and the one with 2 is not. -/
theorem echo_reply_outcome_witness :
    (qdevice_net_msg_received_echo_reply
      (qdevice_net_schedule_echo_request_send sample_codec sample_instance_steady).2
      (sample_echo_reply 1)).1 = 0 ∧
    (qdevice_net_msg_received_echo_reply
      (qdevice_net_schedule_echo_request_send sample_codec sample_instance_steady).2
      (sample_echo_reply 1)).2.echo_reply_received_msg_seq_num = 1 ∧
    qdevice_net_msg_received_echo_reply
      (qdevice_net_schedule_echo_request_send sample_codec sample_instance_steady).2
      (sample_echo_reply 2) =
      (-1, (qdevice_net_schedule_echo_request_send sample_codec sample_instance_steady).2) :=
  have h1 := echo_reply_outcome
    (qdevice_net_schedule_echo_request_send sample_codec sample_instance_steady).2
    (sample_echo_reply 1)
  have h2 := echo_reply_outcome
    (qdevice_net_schedule_echo_request_send sample_codec sample_instance_steady).2
    (sample_echo_reply 2)
  ⟨h1.1.2 (by decide), by rw [h1.2.1 (h1.1.2 (by decide))]; rfl, h2.2.2 (by decide)⟩

/-- The frame of an instance with itself. -/
theorem handler_frame_refl (a : qdevice_net_instance) : handler_frame a a :=
  ⟨rfl, rfl, rfl, rfl, rfl, rfl, fun h => h⟩

/-- Frames compose. -/
theorem handler_frame_trans {a b c : qdevice_net_instance} (hab : handler_frame a b)
    (hbc : handler_frame b c) : handler_frame a c := by
  obtain ⟨h1, h2, h3, h4, h5, h6, h7⟩ := hab
  obtain ⟨k1, k2, k3, k4, k5, k6, k7⟩ := hbc
  exact ⟨k1.trans h1, k2.trans h2, k3.trans h3, k4.trans h4, k5.trans h5, k6.trans h6,
    fun h => k7 (h7 h)⟩

/-- The main-channel scheduling leaves `socket` as it was. -/
theorem schedule_send_socket (inst : qdevice_net_instance) :
    (qdevice_net_schedule_send inst).2.socket = inst.socket := by
  unfold qdevice_net_schedule_send
  split_ifs <;> rfl

/-- The main-channel scheduling leaves `sending_echo_request_msg` as it was. -/
theorem schedule_send_sending_echo_request_msg (inst : qdevice_net_instance) :
    (qdevice_net_schedule_send inst).2.sending_echo_request_msg = inst.sending_echo_request_msg := by
  unfold qdevice_net_schedule_send
  split_ifs <;> rfl

/-- The main-channel scheduling leaves `echo_request_msg_already_sent_bytes` as it was. -/
theorem schedule_send_echo_request_msg_already_sent_bytes (inst : qdevice_net_instance) :
    (qdevice_net_schedule_send inst).2.echo_request_msg_already_sent_bytes = inst.echo_request_msg_already_sent_bytes := by
  unfold qdevice_net_schedule_send
  split_ifs <;> rfl

/-- The main-channel scheduling leaves `echo_request_expected_msg_seq_num` as it was. -/
theorem schedule_send_echo_request_expected_msg_seq_num (inst : qdevice_net_instance) :
    (qdevice_net_schedule_send inst).2.echo_request_expected_msg_seq_num = inst.echo_request_expected_msg_seq_num := by
  unfold qdevice_net_schedule_send
  split_ifs <;> rfl

/-- The main-channel scheduling leaves `echo_request_send_buffer` as it was. -/
theorem schedule_send_echo_request_send_buffer (inst : qdevice_net_instance) :
    (qdevice_net_schedule_send inst).2.echo_request_send_buffer = inst.echo_request_send_buffer := by
  unfold qdevice_net_schedule_send
  split_ifs <;> rfl

/-- The main-channel scheduling leaves `schedule_disconnect` as it was. -/
theorem schedule_send_schedule_disconnect (inst : qdevice_net_instance) :
    (qdevice_net_schedule_send inst).2.schedule_disconnect = inst.schedule_disconnect := by
  unfold qdevice_net_schedule_send
  split_ifs <;> rfl

/-- After the main-channel scheduling, successful or not, the main sending flag is set. -/
theorem schedule_send_sending_msg_ne_zero (inst : qdevice_net_instance) :
    (qdevice_net_schedule_send inst).2.sending_msg ≠ 0 := by
  unfold qdevice_net_schedule_send
  split_ifs with h
  · exact h
  · simp

/-- The frame of `qdevice_net_schedule_send`. -/
theorem schedule_send_frame (inst : qdevice_net_instance) :
    handler_frame inst (qdevice_net_schedule_send inst).2 :=
  ⟨schedule_send_socket inst, schedule_send_sending_echo_request_msg inst,
    schedule_send_echo_request_msg_already_sent_bytes inst,
    schedule_send_echo_request_expected_msg_seq_num inst,
    by rw [schedule_send_echo_request_send_buffer], schedule_send_schedule_disconnect inst,
    fun _ => schedule_send_sending_msg_ne_zero inst⟩

/-- The frame of `qdevice_net_send_init`. -/
theorem send_init_frame (codec : msg_codec) (inst : qdevice_net_instance) :
    handler_frame inst (qdevice_net_send_init codec inst).2 := by
  unfold qdevice_net_send_init
  simp only []
  split_ifs
  all_goals
    first
      | exact ⟨rfl, rfl, rfl, rfl, rfl, rfl, fun h => h⟩
      | exact ⟨schedule_send_socket _, schedule_send_sending_echo_request_msg _,
        schedule_send_echo_request_msg_already_sent_bytes _,
        schedule_send_echo_request_expected_msg_seq_num _,
        by rw [schedule_send_echo_request_send_buffer],
        schedule_send_schedule_disconnect _, fun _ => schedule_send_sending_msg_ne_zero _⟩

/-- The frame of the PREINIT_REPLY handler. -/
theorem preinit_reply_frame (env : handler_env) (inst : qdevice_net_instance)
    (msg : msg_decoded) :
    handler_frame inst (qdevice_net_msg_received_preinit_reply env inst msg).2 := by
  unfold qdevice_net_msg_received_preinit_reply
  simp only []
  split_ifs
  all_goals
    first
      | exact ⟨rfl, rfl, rfl, rfl, rfl, rfl, fun h => h⟩
      | exact send_init_frame env.codec inst
      | exact ⟨schedule_send_socket _, schedule_send_sending_echo_request_msg _,
        schedule_send_echo_request_msg_already_sent_bytes _,
        schedule_send_echo_request_expected_msg_seq_num _,
        by rw [schedule_send_echo_request_send_buffer],
        schedule_send_schedule_disconnect _, fun _ => schedule_send_sending_msg_ne_zero _⟩

/-- The frame of the INIT_REPLY handler. -/
theorem init_reply_frame (env : handler_env) (inst : qdevice_net_instance)
    (msg : msg_decoded) :
    handler_frame inst (qdevice_net_msg_received_init_reply env inst msg).2 := by
  by_cases hrej : init_reply_early_reject inst msg
  · rw [init_reply_early_reject_unchanged env inst msg hrej]
    exact handler_frame_refl inst
  have h := hrej
  unfold init_reply_early_reject at h
  push_neg at h
  obtain ⟨hs, h1, h2, h3, h4, h5, h6, h7, h8, h9⟩ := h
  have hc : qdevice_net_msg_check_seq_number inst msg = 0 :=
    (check_seq_number_eq_zero_iff inst msg).2 ⟨by simpa using h1, h2⟩
  have h3t : msg.server_maximum_request_size_set = true := by simpa using h3
  have h4t : msg.server_maximum_reply_size_set = true := by simpa using h4
  have h5t : msg.supported_messages.isNone = false := by
    cases hm : msg.supported_messages <;> simp_all
  have h6t : msg.supported_options.isNone = false := by
    cases hm : msg.supported_options <;> simp_all
  have h8t : ¬ msg.server_maximum_request_size < inst.min_send_size := by omega
  have h9t : ¬ msg.server_maximum_reply_size > inst.max_receive_size := by omega
  obtain ⟨algorithms, halgs⟩ := Option.ne_none_iff_exists'.1 h7
  unfold qdevice_net_msg_received_init_reply
  simp only [hs, hc, h3t, h4t, h5t, h6t, halgs, h8t, h9t, ne_eq, not_true_eq_false,
    Bool.not_true, Bool.or_self, Bool.false_eq_true, if_false]
  split_ifs
  all_goals
    first
      | exact ⟨rfl, rfl, rfl, rfl, rfl, rfl, fun h => h⟩
      | exact ⟨schedule_send_socket _, schedule_send_sending_echo_request_msg _,
        schedule_send_echo_request_msg_already_sent_bytes _,
        schedule_send_echo_request_expected_msg_seq_num _,
        by rw [schedule_send_echo_request_send_buffer]; rfl,
        schedule_send_schedule_disconnect _, fun _ => schedule_send_sending_msg_ne_zero _⟩

/-- The frame of the SET_OPTION_REPLY handler. -/
theorem set_option_reply_frame (env : handler_env) (inst : qdevice_net_instance)
    (msg : msg_decoded) :
    handler_frame inst (qdevice_net_msg_received_set_option_reply env inst msg).2 := by
  unfold qdevice_net_msg_received_set_option_reply
  simp only []
  split_ifs
  all_goals exact ⟨rfl, rfl, rfl, rfl, rfl, rfl, fun h => h⟩

/-- The frame of the ECHO_REPLY handler. -/
theorem echo_reply_frame (inst : qdevice_net_instance) (msg : msg_decoded) :
    handler_frame inst (qdevice_net_msg_received_echo_reply inst msg).2 := by
  unfold qdevice_net_msg_received_echo_reply
  split_ifs
  · exact handler_frame_refl inst
  · exact ⟨rfl, rfl, rfl, rfl, rfl, rfl, fun h => h⟩

/-- The frame of the dispatcher: whatever the message, `qdevice_net_msg_received`
leaves the fields of `handler_frame` as they were. -/
theorem msg_received_frame (env : handler_env) (decoded : Int × msg_decoded)
    (inst : qdevice_net_instance) :
    handler_frame inst (qdevice_net_msg_received env decoded inst).2 := by
  unfold qdevice_net_msg_received
  by_cases hd : decoded.1 = 0
  swap
  · simp only [hd, ne_eq, not_false_eq_true, if_true]
    exact handler_frame_refl inst
  simp only [hd, ne_eq, not_true_eq_false, if_false]
  cases ht : decoded.2.type
  case pos.MSG_TYPE_PREINIT_REPLY => exact preinit_reply_frame env inst decoded.2
  case pos.MSG_TYPE_INIT_REPLY => exact init_reply_frame env inst decoded.2
  case pos.MSG_TYPE_SET_OPTION_REPLY => exact set_option_reply_frame env inst decoded.2
  case pos.MSG_TYPE_ECHO_REPLY => exact echo_reply_frame inst decoded.2
  all_goals exact handler_frame_refl inst

/-- The echo scheduling leaves the socket as it was. -/
theorem schedule_echo_request_send_socket (codec : msg_codec) (inst : qdevice_net_instance) :
    (qdevice_net_schedule_echo_request_send codec inst).2.socket = inst.socket := by
  unfold qdevice_net_schedule_echo_request_send
  simp only []
  split_ifs <;> rfl

/-- The heartbeat callback leaves the socket as it was. -/
theorem timer_send_heartbeat_socket (codec : msg_codec) (inst : qdevice_net_instance) :
    (qdevice_net_timer_send_heartbeat codec inst).2.socket = inst.socket := by
  unfold qdevice_net_timer_send_heartbeat
  simp only []
  split_ifs
  · exact schedule_echo_request_send_socket codec inst
  · exact schedule_echo_request_send_socket codec inst

/-- The counters after a successful echo scheduling differ: the request counter
is the 32-bit successor of the reply counter. -/
theorem schedule_echo_request_send_counters (codec : msg_codec) (inst : qdevice_net_instance)
    (h : (qdevice_net_schedule_echo_request_send codec inst).1 = 0) :
    (qdevice_net_schedule_echo_request_send codec inst).2.echo_request_expected_msg_seq_num =
      (inst.echo_request_expected_msg_seq_num + 1) % 2 ^ 32 ∧
    (qdevice_net_schedule_echo_request_send codec inst).2.echo_reply_received_msg_seq_num =
      inst.echo_request_expected_msg_seq_num := by
  unfold qdevice_net_schedule_echo_request_send at h ⊢
  by_cases h1 : inst.sending_echo_request_msg = 0
  swap
  · simp [h1] at h
  by_cases h2 : inst.echo_reply_received_msg_seq_num = inst.echo_request_expected_msg_seq_num
  swap
  · simp [h1, h2] at h
  simp only [h1, h2, ne_eq, not_true_eq_false, if_false, bne_self_eq_false,
    Bool.false_eq_true] at h ⊢
  split_ifs at h ⊢
  · simp at h
  · simp [uint32_inc]

/-- C17. Missed heartbeat. After an echo request was scheduled, in every state that
still has the two echo counters of that moment (whatever happened to the sending
flag, the write progress or any other field: no ECHO_REPLY with its sequence
number was accepted), the heartbeat callback returns `0`, sets
`schedule_disconnect` to `1` and changes nothing else: the request counter is not
incremented and no echo request is encoded. When instead the reply counter equals
the request counter and no echo request is in flight, the callback returns `-1`
(schedule again), leaves `schedule_disconnect` as it was, and the instance is the
one the echo scheduling gives: counter incremented, echo request encoded, echo
sending flag `1` with progress `0`. -/
theorem heartbeat_missed_reply (codec : msg_codec) (inst : qdevice_net_instance) :
    ((qdevice_net_schedule_echo_request_send codec inst).1 = 0 →
      ∀ s : qdevice_net_instance,
        s.echo_request_expected_msg_seq_num =
          (qdevice_net_schedule_echo_request_send codec inst).2.echo_request_expected_msg_seq_num →
        s.echo_reply_received_msg_seq_num =
          (qdevice_net_schedule_echo_request_send codec inst).2.echo_reply_received_msg_seq_num →
        qdevice_net_timer_send_heartbeat codec s = (0, { s with schedule_disconnect := 1 })) ∧
    (inst.sending_echo_request_msg = 0 →
      inst.echo_reply_received_msg_seq_num = inst.echo_request_expected_msg_seq_num →
      (codec.msg_create_echo_request inst.echo_request_send_buffer true
        ((inst.echo_request_expected_msg_seq_num + 1) % 2 ^ 32)).2 ≠ SIZE_MAX →
      qdevice_net_timer_send_heartbeat codec inst =
        (-1, { inst with
          echo_request_expected_msg_seq_num :=
            (inst.echo_request_expected_msg_seq_num + 1) % 2 ^ 32
          echo_request_send_buffer :=
            { data := (codec.msg_create_echo_request inst.echo_request_send_buffer true
                ((inst.echo_request_expected_msg_seq_num + 1) % 2 ^ 32)).1
              maximum_size := inst.echo_request_send_buffer.maximum_size }
          echo_request_msg_already_sent_bytes := 0
          sending_echo_request_msg := 1 })) := by
  constructor
  · intro h0 s hs1 hs2
    obtain ⟨c1, c2⟩ := schedule_echo_request_send_counters codec inst h0
    rw [c1] at hs1
    rw [c2] at hs2
    have hne : s.echo_reply_received_msg_seq_num ≠ s.echo_request_expected_msg_seq_num := by
      rw [hs1, hs2]
      omega
    unfold qdevice_net_timer_send_heartbeat qdevice_net_schedule_echo_request_send
    by_cases hf : s.sending_echo_request_msg = 0
    · simp [hf, hne]
    · simp [hf]
  · intro h1 h2 h3
    unfold qdevice_net_timer_send_heartbeat
    rw [schedule_echo_request_send_success codec inst h1 h2 h3]
    simp

/-- Witness of C17: the heartbeat fires on the sample client after its first echo
request (sequence number 1) was scheduled and written but not answered, and it
fires on the sample client with no echo request outstanding. -/
theorem heartbeat_missed_reply_witness :
    qdevice_net_timer_send_heartbeat sample_codec
      { sample_instance_echo_scheduled with sending_echo_request_msg := 0 } =
      (0, { sample_instance_echo_scheduled with
        sending_echo_request_msg := 0, schedule_disconnect := 1 }) ∧
    qdevice_net_timer_send_heartbeat sample_codec sample_instance_steady =
      (-1, { sample_instance_steady with
        echo_request_expected_msg_seq_num := 1
        echo_request_send_buffer := { data := [8, 1], maximum_size := 65536 }
        echo_request_msg_already_sent_bytes := 0
        sending_echo_request_msg := 1 }) :=
  ⟨(heartbeat_missed_reply sample_codec sample_instance_steady).1 (by decide)
      { sample_instance_echo_scheduled with sending_echo_request_msg := 0 } rfl rfl,
   (heartbeat_missed_reply sample_codec sample_instance_steady).2
      (by decide) (by decide) (by decide)⟩

/-- The write-finished hook returns `-1` or `0`. -/
theorem socket_write_finished_control (env : io_env) (inst : qdevice_net_instance) :
    (qdevice_net_socket_write_finished env inst).control = .returned (-1) ∨
    (qdevice_net_socket_write_finished env inst).control = .returned 0 := by
  unfold qdevice_net_socket_write_finished
  split_ifs
  · cases env.nss_sock_start_ssl_as_client inst.socket with
    | none => simp
    | some fd =>
      simp only []
      split_ifs <;> simp
  · simp

/-- The write-finished hook leaves the echo sending flag and the echo progress as
they were. -/
theorem socket_write_finished_echo (env : io_env) (inst : qdevice_net_instance) :
    (qdevice_net_socket_write_finished env inst).inst.sending_echo_request_msg =
      inst.sending_echo_request_msg ∧
    (qdevice_net_socket_write_finished env inst).inst.echo_request_msg_already_sent_bytes =
      inst.echo_request_msg_already_sent_bytes := by
  have hf := send_init_frame env.handlers.codec inst
  unfold qdevice_net_socket_write_finished
  split_ifs
  · cases env.nss_sock_start_ssl_as_client inst.socket with
    | none => exact ⟨rfl, rfl⟩
    | some fd =>
      simp only []
      split_ifs
      · exact ⟨hf.2.1, hf.2.2.1⟩
      · exact ⟨hf.2.1, hf.2.2.1⟩
  · exact ⟨rfl, rfl⟩

/-- The calls of the write-finished hook: starting TLS in the state
WAITING_STARTTLS_BEING_SENT, none in every other state. -/
theorem socket_write_finished_calls (env : io_env) (inst : qdevice_net_instance) :
    (qdevice_net_socket_write_finished env inst).calls =
      if inst.state = .QDEVICE_NET_STATE_WAITING_STARTTLS_BEING_SENT then
        [.nss_sock_start_ssl_as_client] else [] := by
  unfold qdevice_net_socket_write_finished
  split_ifs
  · cases env.nss_sock_start_ssl_as_client inst.socket with
    | none => rfl
    | some fd =>
      simp only []
      split_ifs <;> rfl
  · rfl

/-- C18. Writer priority in `qdevice_net_socket_write`. The echo-request buffer is
the one written exactly when not (`sending_msg` and
`echo_request_msg_already_sent_bytes == 0`), and then it is the only buffer
written; otherwise the main send buffer is the one written and the echo-request
buffer is not. When the write of the echo-request buffer completes (`1`), the
function returns `0` and only the echo sending flag (cleared) and the echo
progress change. When the write of the main buffer completes, `sending_msg` is
cleared, the write-finished hook runs on that instance and decides the return
value, and the echo sending flag and the echo progress are as they were. A partial
write (`0`) returns `0` and changes only the progress of the channel written.
The write results `-1` and `-2` make the function return `-1`. -/
theorem socket_write_priority (env : io_env) (inst : qdevice_net_instance) :
    (send_echo_request inst = true ↔
      ¬ (inst.sending_msg ≠ 0 ∧ inst.echo_request_msg_already_sent_bytes = 0)) ∧
    (send_echo_request inst = true →
      (qdevice_net_socket_write env inst).calls = [.msgio_write_echo_request_send_buffer]) ∧
    (send_echo_request inst = false →
      (qdevice_net_socket_write env inst).calls.head? = some .msgio_write_send_buffer ∧
      io_call.msgio_write_echo_request_send_buffer ∉ (qdevice_net_socket_write env inst).calls) ∧
    (send_echo_request inst = true →
      (env.msgio_write inst.socket inst.echo_request_send_buffer
        inst.echo_request_msg_already_sent_bytes).1 = 1 →
      (qdevice_net_socket_write env inst).control = .returned 0 ∧
      (qdevice_net_socket_write env inst).inst =
        { inst with
          echo_request_msg_already_sent_bytes :=
            (env.msgio_write inst.socket inst.echo_request_send_buffer
              inst.echo_request_msg_already_sent_bytes).2
          sending_echo_request_msg := 0 }) ∧
    (send_echo_request inst = false →
      (env.msgio_write inst.socket inst.send_buffer inst.msg_already_sent_bytes).1 = 1 →
      (qdevice_net_socket_write env inst).control =
        (qdevice_net_socket_write_finished env
          { inst with
            msg_already_sent_bytes :=
              (env.msgio_write inst.socket inst.send_buffer inst.msg_already_sent_bytes).2
            sending_msg := 0 }).control ∧
      (qdevice_net_socket_write env inst).inst =
        (qdevice_net_socket_write_finished env
          { inst with
            msg_already_sent_bytes :=
              (env.msgio_write inst.socket inst.send_buffer inst.msg_already_sent_bytes).2
            sending_msg := 0 }).inst ∧
      (qdevice_net_socket_write env inst).inst.sending_echo_request_msg =
        inst.sending_echo_request_msg ∧
      (qdevice_net_socket_write env inst).inst.echo_request_msg_already_sent_bytes =
        inst.echo_request_msg_already_sent_bytes) ∧
    (send_echo_request inst = true →
      (env.msgio_write inst.socket inst.echo_request_send_buffer
        inst.echo_request_msg_already_sent_bytes).1 = 0 →
      (qdevice_net_socket_write env inst).control = .returned 0 ∧
      (qdevice_net_socket_write env inst).inst =
        { inst with
          echo_request_msg_already_sent_bytes :=
            (env.msgio_write inst.socket inst.echo_request_send_buffer
              inst.echo_request_msg_already_sent_bytes).2 }) ∧
    (send_echo_request inst = false →
      (env.msgio_write inst.socket inst.send_buffer inst.msg_already_sent_bytes).1 = 0 →
      (qdevice_net_socket_write env inst).control = .returned 0 ∧
      (qdevice_net_socket_write env inst).inst =
        { inst with
          msg_already_sent_bytes :=
            (env.msgio_write inst.socket inst.send_buffer inst.msg_already_sent_bytes).2 }) ∧
    (send_echo_request inst = true →
      (env.msgio_write inst.socket inst.echo_request_send_buffer
          inst.echo_request_msg_already_sent_bytes).1 = -1 ∨
        (env.msgio_write inst.socket inst.echo_request_send_buffer
          inst.echo_request_msg_already_sent_bytes).1 = -2 →
      (qdevice_net_socket_write env inst).control = .returned (-1)) ∧
    (send_echo_request inst = false →
      (env.msgio_write inst.socket inst.send_buffer inst.msg_already_sent_bytes).1 = -1 ∨
        (env.msgio_write inst.socket inst.send_buffer inst.msg_already_sent_bytes).1 = -2 →
      (qdevice_net_socket_write env inst).control = .returned (-1)) := by
  refine ⟨?_, ?_, ?_, ?_, ?_, ?_, ?_, ?_, ?_⟩
  · unfold send_echo_request
    by_cases h1 : inst.sending_msg = 0 <;>
      by_cases h2 : inst.echo_request_msg_already_sent_bytes = 0 <;> simp [h1, h2]
  · intro h
    unfold qdevice_net_socket_write
    simp only [h, Bool.not_true, Bool.false_eq_true, if_false]
    split_ifs <;> rfl
  · intro h
    unfold qdevice_net_socket_write
    simp only [h, Bool.not_false, if_true]
    split_ifs <;> simp [socket_write_finished_calls]
  · intro h hw
    unfold qdevice_net_socket_write
    simp [h, hw]
  · intro h hw
    have hc := socket_write_finished_control env
      { inst with
        msg_already_sent_bytes :=
          (env.msgio_write inst.socket inst.send_buffer inst.msg_already_sent_bytes).2
        sending_msg := 0 }
    have he := socket_write_finished_echo env
      { inst with
        msg_already_sent_bytes :=
          (env.msgio_write inst.socket inst.send_buffer inst.msg_already_sent_bytes).2
        sending_msg := 0 }
    unfold qdevice_net_socket_write
    simp only [h, Bool.not_false, if_true, hw]
    split_ifs with hf
    · exact ⟨hf.symm, rfl, he.1, he.2⟩
    · rcases hc with hc | hc
      · exact absurd hc hf
      · exact ⟨hc.symm, rfl, he.1, he.2⟩
  · intro h hw
    unfold qdevice_net_socket_write
    simp [h, hw]
  · intro h hw
    unfold qdevice_net_socket_write
    simp [h, hw]
  · intro h hw
    unfold qdevice_net_socket_write
    rcases hw with hw | hw <;> simp [h, hw]
  · intro h hw
    unfold qdevice_net_socket_write
    rcases hw with hw | hw <;> simp [h, hw]

/-- Witness of C18: on the sample client sending STARTTLS (main channel in flight,
echo progress `0`) the main buffer is written, and its completion clears
`sending_msg`, runs the write-finished hook and leaves the echo channel alone; on
the sample client with only its first echo request in flight the echo-request
buffer is written and its completion clears the echo sending flag. -/
theorem socket_write_priority_witness :
    (send_echo_request sample_instance_starttls = false ∧
      (qdevice_net_socket_write sample_io_env sample_instance_starttls).calls =
        [.msgio_write_send_buffer, .qdevice_net_socket_write_finished,
          .nss_sock_start_ssl_as_client] ∧
      (qdevice_net_socket_write sample_io_env
        sample_instance_starttls).inst.sending_echo_request_msg = 0) ∧
    (send_echo_request sample_instance_echo_scheduled = true ∧
      (qdevice_net_socket_write sample_io_env sample_instance_echo_scheduled).control =
        .returned 0 ∧
      (qdevice_net_socket_write sample_io_env sample_instance_echo_scheduled).inst =
        { sample_instance_echo_scheduled with
          echo_request_msg_already_sent_bytes := 2
          sending_echo_request_msg := 0 }) :=
  have h1 := socket_write_priority sample_io_env sample_instance_starttls
  have h2 := socket_write_priority sample_io_env sample_instance_echo_scheduled
  ⟨⟨by decide, by decide, (h1.2.2.2.2.1 (by decide) (by decide)).2.2.1⟩,
   ⟨by decide, h2.2.2.2.1 (by decide) (by decide)⟩⟩

/-- C20. The TLS upgrade happens at the completion of the STARTTLS write. The
write-finished hook starts TLS exactly when the state is
WAITING_STARTTLS_BEING_SENT. `qdevice_net_socket_write` calls the hook exactly
when it wrote the main buffer and that write completed. In that state, when TLS
starts and INIT is encoded (no main message being in flight, as after a completed
write), the hook returns `0`, the 32-bit `expected_msg_seq_num` is incremented by
one, the send buffer holds the INIT encoded with it, the main sending flag is `1`
with progress `0`, the state is WAITING_INIT_REPLY and the socket is the TLS one.
When TLS cannot be started the hook returns `-1` and the instance is as it was. In
every other state it returns `0`, makes no call and changes nothing. No message
handler and no heartbeat firing changes the socket, in any state. -/
theorem socket_write_finished_tls_upgrade (env : io_env) (inst : qdevice_net_instance) :
    (io_call.nss_sock_start_ssl_as_client ∈ (qdevice_net_socket_write_finished env inst).calls ↔
      inst.state = .QDEVICE_NET_STATE_WAITING_STARTTLS_BEING_SENT) ∧
    (io_call.qdevice_net_socket_write_finished ∈ (qdevice_net_socket_write env inst).calls ↔
      send_echo_request inst = false ∧
      (env.msgio_write inst.socket inst.send_buffer inst.msg_already_sent_bytes).1 = 1) ∧
    (inst.state = .QDEVICE_NET_STATE_WAITING_STARTTLS_BEING_SENT →
      ∀ new_pr_fd, env.nss_sock_start_ssl_as_client inst.socket = some new_pr_fd →
      inst.sending_msg = 0 →
      (env.handlers.codec.msg_create_init inst.send_buffer true
        ((inst.expected_msg_seq_num + 1) % 2 ^ 32) env.handlers.codec.msg_get_supported_messages
        env.handlers.codec.tlv_get_supported_options inst.node_id).2 ≠ 0 →
      qdevice_net_socket_write_finished env inst =
        { control := .returned 0
          inst := { inst with
            expected_msg_seq_num := (inst.expected_msg_seq_num + 1) % 2 ^ 32
            send_buffer :=
              { data := (env.handlers.codec.msg_create_init inst.send_buffer true
                  ((inst.expected_msg_seq_num + 1) % 2 ^ 32)
                  env.handlers.codec.msg_get_supported_messages
                  env.handlers.codec.tlv_get_supported_options inst.node_id).1
                maximum_size := inst.send_buffer.maximum_size }
            msg_already_sent_bytes := 0
            sending_msg := 1
            state := .QDEVICE_NET_STATE_WAITING_INIT_REPLY
            socket := new_pr_fd }
          calls := [.nss_sock_start_ssl_as_client] }) ∧
    (inst.state = .QDEVICE_NET_STATE_WAITING_STARTTLS_BEING_SENT →
      env.nss_sock_start_ssl_as_client inst.socket = none →
      qdevice_net_socket_write_finished env inst =
        { control := .returned (-1), inst := inst, calls := [.nss_sock_start_ssl_as_client] }) ∧
    (inst.state ≠ .QDEVICE_NET_STATE_WAITING_STARTTLS_BEING_SENT →
      qdevice_net_socket_write_finished env inst =
        { control := .returned 0, inst := inst, calls := [] }) ∧
    (∀ (henv : handler_env) (decoded : Int × msg_decoded),
      (qdevice_net_msg_received henv decoded inst).2.socket = inst.socket) ∧
    (∀ codec : msg_codec,
      (qdevice_net_timer_send_heartbeat codec inst).2.socket = inst.socket) := by
  refine ⟨?_, ?_, ?_, ?_, ?_, ?_, ?_⟩
  · rw [socket_write_finished_calls]
    split_ifs with h <;> simp [h]
  · unfold qdevice_net_socket_write
    cases hs : send_echo_request inst
    · simp only [Bool.not_false, if_true]
      split_ifs with hw <;> simp [hw]
    · simp only [Bool.not_true, Bool.false_eq_true, if_false]
      split_ifs <;> simp
  · intro hs fd hfd hidle henc
    norm_num at henc
    simp [qdevice_net_socket_write_finished, hs, hfd, qdevice_net_send_init,
      qdevice_net_schedule_send, hidle, uint32_inc, dynar_store, henc]
  · intro hs hfd
    simp [qdevice_net_socket_write_finished, hs, hfd]
  · intro hs
    simp [qdevice_net_socket_write_finished, hs]
  · intro henv decoded
    exact (msg_received_frame henv decoded inst).1
  · intro codec
    exact timer_send_heartbeat_socket codec inst

/-- Witness of C20: the STARTTLS write of the sample client completes; TLS is
started, INIT with sequence number 3 is scheduled, the state is WAITING_INIT_REPLY
and the socket is the TLS descriptor 9. -/
theorem socket_write_finished_tls_upgrade_witness :
    qdevice_net_socket_write_finished sample_io_env
      { sample_instance_starttls with msg_already_sent_bytes := 2, sending_msg := 0 } =
      { control := .returned 0
        inst := { sample_instance_starttls with
          expected_msg_seq_num := 3
          send_buffer := { data := [3, 3, 7], maximum_size := 32768 }
          msg_already_sent_bytes := 0
          sending_msg := 1
          state := .QDEVICE_NET_STATE_WAITING_INIT_REPLY
          socket := 9 }
        calls := [.nss_sock_start_ssl_as_client] } :=
  (socket_write_finished_tls_upgrade sample_io_env
    { sample_instance_starttls with msg_already_sent_bytes := 2, sending_msg := 0 }).2.2.1
    (by decide) 9 rfl (by decide) (by decide)

/-- A call made by a sequence is made by its first part or, when control reached
the end of that, by its second part. -/
theorem andThen_calls_mem (o : outcome) (f : qdevice_net_instance → outcome) (c : io_call)
    (h : c ∈ (o.andThen f).calls) :
    c ∈ o.calls ∨ (o.control = .fallthrough ∧ c ∈ (f o.inst).calls) := by
  unfold outcome.andThen at h
  cases hc : o.control with
  | fallthrough =>
    simp only [hc, List.mem_append] at h
    rcases h with h | h
    · exact Or.inl h
    · exact Or.inr ⟨rfl, h⟩
  | returned v =>
    simp only [hc] at h
    exact Or.inl h
  | exited =>
    simp only [hc] at h
    exact Or.inl h

/-- The calls of `qdevice_net_socket_read`: the frame reader, then possibly the
dispatcher. -/
theorem socket_read_calls (env : io_env) (inst : qdevice_net_instance) (c : io_call)
    (h : c ∈ (qdevice_net_socket_read env inst).calls) :
    c = .msgio_read ∨ c = .qdevice_net_msg_received := by
  unfold qdevice_net_socket_read at h
  simp only [] at h
  split_ifs at h <;> simp at h <;> tauto

/-- Reading leaves the echo sending flag as it was, and a main sending flag that
is set stays set. -/
theorem socket_read_sending_flags (env : io_env) (inst : qdevice_net_instance) :
    (inst.sending_msg ≠ 0 → (qdevice_net_socket_read env inst).inst.sending_msg ≠ 0) ∧
    (qdevice_net_socket_read env inst).inst.sending_echo_request_msg =
      inst.sending_echo_request_msg := by
  have hf := msg_received_frame env.handlers
    (env.msg_decode (dynar_store inst.receive_buffer
      (env.msgio_read inst.socket inst.receive_buffer inst.msg_already_received_bytes
        inst.skipping_msg).2.1))
    { inst with
      receive_buffer := dynar_store inst.receive_buffer
        (env.msgio_read inst.socket inst.receive_buffer inst.msg_already_received_bytes
          inst.skipping_msg).2.1
      msg_already_received_bytes :=
        (env.msgio_read inst.socket inst.receive_buffer inst.msg_already_received_bytes
          inst.skipping_msg).2.2.1
      skipping_msg :=
        (env.msgio_read inst.socket inst.receive_buffer inst.msg_already_received_bytes
          inst.skipping_msg).2.2.2 }
  unfold qdevice_net_socket_read
  simp only []
  split_ifs
  all_goals
    first
      | exact ⟨fun h => h, rfl⟩
      | exact ⟨hf.2.2.2.2.2.2, hf.2.1⟩

/-- The calls of `qdevice_net_socket_write`: a buffer write, then possibly the
write-finished hook and the start of TLS. -/
theorem socket_write_calls (env : io_env) (inst : qdevice_net_instance) (c : io_call)
    (h : c ∈ (qdevice_net_socket_write env inst).calls) :
    c = .msgio_write_send_buffer ∨ c = .msgio_write_echo_request_send_buffer ∨
    c = .qdevice_net_socket_write_finished ∨ c = .nss_sock_start_ssl_as_client := by
  unfold qdevice_net_socket_write at h
  simp only [socket_write_finished_calls] at h
  split_ifs at h <;> simp at h <;> tauto

/-- The calls of the timer expiry are heartbeat callbacks. -/
theorem timer_list_expire_entries_calls (codec : msg_codec) (due : List timer_list_entry)
    (inst : qdevice_net_instance) (c : io_call)
    (h : c ∈ (timer_list_expire_entries codec due inst).2) :
    c = .qdevice_net_timer_send_heartbeat := by
  induction due generalizing inst with
  | nil => simp [timer_list_expire_entries] at h
  | cons entry rest ih =>
    unfold timer_list_expire_entries at h
    simp only [List.mem_cons] at h
    rcases h with h | h
    · exact h
    · exact ih _ h

/-- A call of `qdevice_net_socket_write` by the loop body for the server socket:
writable was reported, and the instance handed to the writer has the echo sending
flag of the start of the body and a main sending flag set if it was set then. -/
theorem poll_socket_write_call (env : io_env) (out_flags : poll_flags)
    (inst i : qdevice_net_instance)
    (h : io_call.qdevice_net_socket_write i ∈ (qdevice_net_poll_socket env out_flags inst).calls) :
    out_flags.write = true ∧
    (inst.sending_msg ≠ 0 → i.sending_msg ≠ 0) ∧
    i.sending_echo_request_msg = inst.sending_echo_request_msg := by
  unfold qdevice_net_poll_socket at h
  rcases andThen_calls_mem _ _ _ h with h1 | ⟨_, h1⟩
  · exfalso
    unfold poll_socket_read at h1
    split_ifs at h1
    · have hr := socket_read_calls env inst (.qdevice_net_socket_write i)
      cases hc : (qdevice_net_socket_read env inst).control <;>
        simp only [hc, List.mem_cons] at h1 <;>
        rcases h1 with h1 | h1 <;>
        first
          | exact absurd h1 (by simp)
          | (rcases hr h1 with h2 | h2 <;> exact absurd h2 (by simp))
    · simp at h1
  · have hflags : (inst.sending_msg ≠ 0 →
          (poll_socket_read env out_flags inst).inst.sending_msg ≠ 0) ∧
        (poll_socket_read env out_flags inst).inst.sending_echo_request_msg =
          inst.sending_echo_request_msg := by
      have hr := socket_read_sending_flags env inst
      unfold poll_socket_read
      split_ifs
      · cases hc : (qdevice_net_socket_read env inst).control with
        | fallthrough =>
          simp only [hc]
          exact hr
        | returned v =>
          simp only [hc]
          split_ifs
          · exact hr
          · exact hr
        | exited =>
          simp only [hc]
          exact hr
      · exact ⟨fun h => h, rfl⟩
    rcases andThen_calls_mem _ _ _ h1 with h2 | ⟨_, h2⟩
    · unfold poll_socket_write at h2
      split_ifs at h2 with hcond
      · simp only [List.mem_cons] at h2
        rcases h2 with h2 | h2
        · have hi : i = (poll_socket_read env out_flags inst).inst := by
            injection h2
          rw [hi]
          exact ⟨hcond.2, hflags.1, hflags.2⟩
        · exfalso
          rcases socket_write_calls env _ _ h2 with h3 | h3 | h3 | h3 <;>
            exact absurd h3 (by simp)
      · simp at h2
    · exfalso
      unfold poll_socket_error at h2
      split_ifs at h2 <;> simp at h2

/-- The loop body for the votequorum descriptor calls nothing but the dispatch. -/
theorem poll_votequorum_calls (env : io_env) (out_flags : poll_flags)
    (inst : qdevice_net_instance) (c : io_call)
    (h : c ∈ (qdevice_net_poll_votequorum env out_flags inst).calls) :
    c = .votequorum_dispatch := by
  unfold qdevice_net_poll_votequorum at h
  rcases andThen_calls_mem _ _ _ h with h1 | ⟨_, h1⟩
  · unfold poll_votequorum_read at h1
    split_ifs at h1 <;> simp at h1 <;> exact h1
  · rcases andThen_calls_mem _ _ _ h1 with h2 | ⟨_, h2⟩
    · unfold poll_votequorum_unhandled at h2
      split_ifs at h2 <;> simp at h2
    · unfold poll_votequorum_unhandled at h2
      split_ifs at h2 <;> simp at h2

/-- The end of an iteration calls nothing but the timer expiry and the heartbeat
callbacks it runs. -/
theorem poll_expire_and_return_calls (env : io_env) (inst : qdevice_net_instance) (c : io_call)
    (h : c ∈ (poll_expire_and_return env inst).calls) :
    c = .timer_list_expire ∨ c = .qdevice_net_timer_send_heartbeat := by
  unfold poll_expire_and_return at h
  rcases andThen_calls_mem _ _ _ h with h1 | ⟨_, h1⟩
  · split_ifs at h1
    · simp only [List.mem_cons] at h1
      rcases h1 with h1 | h1
      · exact Or.inl h1
      · exact Or.inr (timer_list_expire_entries_calls _ _ _ _ h1)
    · simp at h1
  · split_ifs at h1 <;> simp at h1

/-- C19. The event loop does not write while both send channels are idle. Writable
interest on the server socket is requested exactly when `sending_msg` or
`sending_echo_request_msg` is set at the time the poll set is composed, and these
are the flags `PR_Poll` is called with. If the poller reports writable only when
it was requested, every call of `qdevice_net_socket_write` in the iteration is
made on an instance with at least one of the two sending flags set. -/
theorem poll_writes_only_when_sending (env : io_env) (inst : qdevice_net_instance) :
    ((poll_socket_in_flags inst).write = true ↔
      (inst.sending_msg ≠ 0 ∨ inst.sending_echo_request_msg ≠ 0)) ∧
    (qdevice_net_poll env inst).calls.head? = some (.PR_Poll (poll_socket_in_flags inst)) ∧
    (((env.PR_Poll (poll_socket_in_flags inst) poll_votequorum_in_flags).2.1.write = true →
        (poll_socket_in_flags inst).write = true) →
      ∀ i, io_call.qdevice_net_socket_write i ∈ (qdevice_net_poll env inst).calls →
        i.sending_msg ≠ 0 ∨ i.sending_echo_request_msg ≠ 0) := by
  have hflag : (poll_socket_in_flags inst).write = true ↔
      (inst.sending_msg ≠ 0 ∨ inst.sending_echo_request_msg ≠ 0) := by
    unfold poll_socket_in_flags
    simp
  refine ⟨hflag, ?_, ?_⟩
  · unfold qdevice_net_poll outcome.andThen
    simp
  · intro hpoller i hi
    unfold qdevice_net_poll at hi
    rcases andThen_calls_mem _ _ _ hi with h1 | ⟨_, h1⟩
    · simp at h1
    rcases andThen_calls_mem _ _ _ h1 with h2 | ⟨_, h2⟩
    swap
    · rcases poll_expire_and_return_calls env _ _ h2 with h3 | h3 <;> exact absurd h3 (by simp)
    unfold poll_descriptors at h2
    split_ifs at h2
    swap
    · simp at h2
    rcases andThen_calls_mem _ _ _ h2 with h3 | ⟨_, h3⟩
    swap
    · exact absurd (poll_votequorum_calls env _ _ _ h3) (by simp)
    obtain ⟨hw, hmain, hecho⟩ := poll_socket_write_call env _ _ i h3
    rcases hflag.1 (hpoller hw) with hm | he
    · exact Or.inl (hmain hm)
    · right
      rw [hecho]
      exact he

/-- Witness of C19: on the sample client sending STARTTLS the poller is asked for
writable and reports it; the one call of `qdevice_net_socket_write` of the
iteration is made with `sending_msg` set. -/
theorem poll_writes_only_when_sending_witness :
    (poll_socket_in_flags sample_instance_starttls).write = true ∧
    (qdevice_net_poll
      { sample_io_env with
        PR_Poll := fun socket_in _ =>
          (1, { read := false, write := socket_in.write, error := false },
            { read := false, write := false, error := false }) }
      sample_instance_starttls).calls =
      [.PR_Poll { read := true, write := true, error := false },
        .qdevice_net_socket_write sample_instance_starttls,
        .msgio_write_send_buffer, .qdevice_net_socket_write_finished,
        .nss_sock_start_ssl_as_client, .timer_list_expire] ∧
    (sample_instance_starttls.sending_msg ≠ 0 ∨
      sample_instance_starttls.sending_echo_request_msg ≠ 0) :=
  ⟨by decide, by decide,
    (poll_writes_only_when_sending
      { sample_io_env with
        PR_Poll := fun socket_in _ =>
          (1, { read := false, write := socket_in.write, error := false },
            { read := false, write := false, error := false }) }
      sample_instance_starttls).2.2 (fun h => h) sample_instance_starttls (by decide)⟩

/-- The main-channel scheduling leaves `main_timer_list` as it was. -/
theorem schedule_send_main_timer_list (inst : qdevice_net_instance) :
    (qdevice_net_schedule_send inst).2.main_timer_list = inst.main_timer_list := by
  unfold qdevice_net_schedule_send
  split_ifs <;> rfl

/-- The main-channel scheduling leaves `echo_request_timer` as it was. -/
theorem schedule_send_echo_request_timer (inst : qdevice_net_instance) :
    (qdevice_net_schedule_send inst).2.echo_request_timer = inst.echo_request_timer := by
  unfold qdevice_net_schedule_send
  split_ifs <;> rfl

/-- The main-channel scheduling leaves `echo_reply_received_msg_seq_num` as it was. -/
theorem schedule_send_echo_reply_received_msg_seq_num (inst : qdevice_net_instance) :
    (qdevice_net_schedule_send inst).2.echo_reply_received_msg_seq_num = inst.echo_reply_received_msg_seq_num := by
  unfold qdevice_net_schedule_send
  split_ifs <;> rfl

/-- The main-channel scheduling leaves `tls_supported` as it was. -/
theorem schedule_send_tls_supported (inst : qdevice_net_instance) :
    (qdevice_net_schedule_send inst).2.tls_supported = inst.tls_supported := by
  unfold qdevice_net_schedule_send
  split_ifs <;> rfl

/-- The main-channel scheduling leaves `node_id` as it was. -/
theorem schedule_send_node_id (inst : qdevice_net_instance) :
    (qdevice_net_schedule_send inst).2.node_id = inst.node_id := by
  unfold qdevice_net_schedule_send
  split_ifs <;> rfl

/-- The main-channel scheduling leaves `decision_algorithm` as it was. -/
theorem schedule_send_decision_algorithm (inst : qdevice_net_instance) :
    (qdevice_net_schedule_send inst).2.decision_algorithm = inst.decision_algorithm := by
  unfold qdevice_net_schedule_send
  split_ifs <;> rfl

/-- The main-channel scheduling leaves `heartbeat_interval` as it was. -/
theorem schedule_send_heartbeat_interval (inst : qdevice_net_instance) :
    (qdevice_net_schedule_send inst).2.heartbeat_interval = inst.heartbeat_interval := by
  unfold qdevice_net_schedule_send
  split_ifs <;> rfl

/-- The main frame of an instance with itself. -/
theorem main_frame_refl (a : qdevice_net_instance) : main_frame a a :=
  ⟨rfl, rfl, rfl, rfl, rfl, rfl, rfl, rfl⟩

/-- The main frame of `qdevice_net_send_init`. -/
theorem send_init_main_frame (codec : msg_codec) (inst : qdevice_net_instance) :
    main_frame inst (qdevice_net_send_init codec inst).2 := by
  unfold qdevice_net_send_init
  simp only []
  split_ifs
  all_goals
    first
      | exact ⟨rfl, rfl, rfl, rfl, rfl, rfl, rfl, rfl⟩
      | exact ⟨schedule_send_main_timer_list _, schedule_send_echo_request_timer _,
        schedule_send_echo_reply_received_msg_seq_num _,
        schedule_send_echo_request_expected_msg_seq_num _, schedule_send_tls_supported _,
        schedule_send_node_id _, schedule_send_decision_algorithm _,
        schedule_send_heartbeat_interval _⟩

/-- The main frame of the PREINIT_REPLY handler. -/
theorem preinit_reply_main_frame (env : handler_env) (inst : qdevice_net_instance)
    (msg : msg_decoded) :
    main_frame inst (qdevice_net_msg_received_preinit_reply env inst msg).2 := by
  unfold qdevice_net_msg_received_preinit_reply
  simp only []
  split_ifs
  all_goals
    first
      | exact ⟨rfl, rfl, rfl, rfl, rfl, rfl, rfl, rfl⟩
      | exact send_init_main_frame env.codec inst
      | exact ⟨schedule_send_main_timer_list _, schedule_send_echo_request_timer _,
        schedule_send_echo_reply_received_msg_seq_num _,
        schedule_send_echo_request_expected_msg_seq_num _, schedule_send_tls_supported _,
        schedule_send_node_id _, schedule_send_decision_algorithm _,
        schedule_send_heartbeat_interval _⟩

/-- The main frame of the INIT_REPLY handler. -/
theorem init_reply_main_frame (env : handler_env) (inst : qdevice_net_instance)
    (msg : msg_decoded) :
    main_frame inst (qdevice_net_msg_received_init_reply env inst msg).2 := by
  by_cases hrej : init_reply_early_reject inst msg
  · rw [init_reply_early_reject_unchanged env inst msg hrej]
    exact main_frame_refl inst
  have h := hrej
  unfold init_reply_early_reject at h
  push_neg at h
  obtain ⟨hs, h1, h2, h3, h4, h5, h6, h7, h8, h9⟩ := h
  have hc : qdevice_net_msg_check_seq_number inst msg = 0 :=
    (check_seq_number_eq_zero_iff inst msg).2 ⟨by simpa using h1, h2⟩
  have h3t : msg.server_maximum_request_size_set = true := by simpa using h3
  have h4t : msg.server_maximum_reply_size_set = true := by simpa using h4
  have h5t : msg.supported_messages.isNone = false := by
    cases hm : msg.supported_messages <;> simp_all
  have h6t : msg.supported_options.isNone = false := by
    cases hm : msg.supported_options <;> simp_all
  have h8t : ¬ msg.server_maximum_request_size < inst.min_send_size := by omega
  have h9t : ¬ msg.server_maximum_reply_size > inst.max_receive_size := by omega
  obtain ⟨algorithms, halgs⟩ := Option.ne_none_iff_exists'.1 h7
  unfold qdevice_net_msg_received_init_reply
  simp only [hs, hc, h3t, h4t, h5t, h6t, halgs, h8t, h9t, ne_eq, not_true_eq_false,
    Bool.not_true, Bool.or_self, Bool.false_eq_true, if_false]
  split_ifs
  all_goals
    first
      | exact ⟨rfl, rfl, rfl, rfl, rfl, rfl, rfl, rfl⟩
      | exact ⟨schedule_send_main_timer_list _, schedule_send_echo_request_timer _,
        schedule_send_echo_reply_received_msg_seq_num _,
        schedule_send_echo_request_expected_msg_seq_num _, schedule_send_tls_supported _,
        schedule_send_node_id _, schedule_send_decision_algorithm _,
        schedule_send_heartbeat_interval _⟩

/-- The main frame of the write-finished hook. -/
theorem socket_write_finished_main_frame (env : io_env) (inst : qdevice_net_instance) :
    main_frame inst (qdevice_net_socket_write_finished env inst).inst := by
  have hf := send_init_main_frame env.handlers.codec inst
  unfold qdevice_net_socket_write_finished
  split_ifs
  · cases env.nss_sock_start_ssl_as_client inst.socket with
    | none => exact main_frame_refl inst
    | some fd =>
      simp only []
      split_ifs
      · exact hf
      · exact hf
  · exact main_frame_refl inst

/-- The main frame of the writer. -/
theorem socket_write_main_frame (env : io_env) (inst : qdevice_net_instance) :
    main_frame inst (qdevice_net_socket_write env inst).inst := by
  have hf := fun x => socket_write_finished_main_frame env x
  unfold qdevice_net_socket_write
  simp only []
  split_ifs
  all_goals
    first
      | exact ⟨rfl, rfl, rfl, rfl, rfl, rfl, rfl, rfl⟩
      | exact hf _

/-- The two results of the ECHO_REPLY handler: rejected with the instance as it
was, or accepted, the sequence number being the expected one and stored as the
counter of the echo replies. -/
theorem echo_reply_result (inst : qdevice_net_instance) (msg : msg_decoded) :
    qdevice_net_msg_received_echo_reply inst msg = (-1, inst) ∨
    (msg.seq_number = inst.echo_request_expected_msg_seq_num ∧
      qdevice_net_msg_received_echo_reply inst msg =
        (0, { inst with echo_reply_received_msg_seq_num := msg.seq_number })) := by
  unfold qdevice_net_msg_received_echo_reply qdevice_net_msg_check_echo_reply_seq_number
  cases hs : msg.seq_number_set <;>
    by_cases he : msg.seq_number = inst.echo_request_expected_msg_seq_num <;>
    simp [he]

/-- The dispatcher on a decoded ECHO_REPLY is the ECHO_REPLY handler. -/
theorem msg_received_echo_reply (env : handler_env) (msg : msg_decoded)
    (inst : qdevice_net_instance) (htype : msg.type = .MSG_TYPE_ECHO_REPLY) :
    qdevice_net_msg_received env (0, msg) inst = qdevice_net_msg_received_echo_reply inst msg := by
  unfold qdevice_net_msg_received
  simp [htype]

/-- After the part of `main` that schedules PREINIT no echo request was scheduled
and the timer list is empty. -/
theorem main_schedule_preinit_no_echo_yet (codec : msg_codec) (tls_supported : tlv_tls_supported)
    (node_id decision_algorithm heartbeat_interval : Nat) (host_addr : String) (host_port : Nat)
    (cluster_name : String) (socket : Nat) (s0 : qdevice_net_instance)
    (h : main_schedule_preinit codec (main_instance tls_supported node_id decision_algorithm
      heartbeat_interval host_addr host_port cluster_name socket) = some s0) :
    no_echo_yet s0 := by
  unfold main_schedule_preinit at h
  simp only [] at h
  split_ifs at h
  injection h with h
  subst h
  refine ⟨(schedule_send_echo_request_expected_msg_seq_num _).trans rfl,
    (schedule_send_echo_reply_received_msg_seq_num _).trans rfl, ?_⟩
  show (qdevice_net_schedule_send _).2.main_timer_list.entries = []
  rw [schedule_send_main_timer_list]
  rfl

/-- A message other than a SET_OPTION_REPLY leaves `no_echo_yet` in place. -/
theorem msg_received_no_echo_yet (env : handler_env) (decoded : Int × msg_decoded)
    (inst : qdevice_net_instance) (htype : decoded.2.type ≠ .MSG_TYPE_SET_OPTION_REPLY)
    (h : no_echo_yet inst) :
    no_echo_yet (qdevice_net_msg_received env decoded inst).2 := by
  obtain ⟨h1, h2, h3⟩ := h
  unfold qdevice_net_msg_received
  by_cases hd : decoded.1 = 0
  swap
  · simp only [hd, ne_eq, not_false_eq_true, if_true]
    exact ⟨h1, h2, h3⟩
  simp only [hd, ne_eq, not_true_eq_false, if_false]
  cases ht : decoded.2.type
  case pos.MSG_TYPE_PREINIT_REPLY =>
    have hf := preinit_reply_main_frame env inst decoded.2
    exact ⟨hf.2.2.2.1.trans h1, hf.2.2.1.trans h2, by rw [hf.1]; exact h3⟩
  case pos.MSG_TYPE_INIT_REPLY =>
    have hf := init_reply_main_frame env inst decoded.2
    exact ⟨hf.2.2.2.1.trans h1, hf.2.2.1.trans h2, by rw [hf.1]; exact h3⟩
  case pos.MSG_TYPE_SET_OPTION_REPLY => exact absurd ht htype
  case pos.MSG_TYPE_ECHO_REPLY =>
    show no_echo_yet (qdevice_net_msg_received_echo_reply inst decoded.2).2
    rcases echo_reply_result inst decoded.2 with hr | ⟨hseq, hr⟩
    · rw [hr]
      exact ⟨h1, h2, h3⟩
    · rw [hr]
      exact ⟨h1, hseq.trans h1, h3⟩
  all_goals exact ⟨h1, h2, h3⟩

/-- An event other than the reception of a SET_OPTION_REPLY leaves `no_echo_yet`
in place; the heartbeat cannot fire. -/
theorem step_no_echo_yet (inst s : qdevice_net_instance) (e : event)
    (he : e.is_set_option_reply = false) (hstep : step inst e = some s)
    (h : no_echo_yet inst) : no_echo_yet s := by
  cases e with
  | received env decoded =>
    have htype : decoded.2.type ≠ .MSG_TYPE_SET_OPTION_REPLY := by
      simpa [event.is_set_option_reply] using he
    unfold step at hstep
    simp only [] at hstep
    split_ifs at hstep
    injection hstep with hstep
    rw [← hstep]
    exact msg_received_no_echo_yet env decoded inst htype h
  | heartbeat codec =>
    unfold step at hstep
    simp [h.2.2] at hstep
  | write env =>
    unfold step at hstep
    simp only [] at hstep
    split_ifs at hstep
    injection hstep with hstep
    rw [← hstep]
    have hf := socket_write_main_frame env inst
    exact ⟨hf.2.2.2.1.trans h.1, hf.2.2.1.trans h.2.1, by rw [hf.1]; exact h.2.2⟩

/-- A run without the reception of a SET_OPTION_REPLY leaves `no_echo_yet` in place. -/
theorem run_no_echo_yet (events : List event) (inst s : qdevice_net_instance)
    (hev : ∀ e ∈ events, e.is_set_option_reply = false) (hrun : run inst events = some s)
    (h : no_echo_yet inst) : no_echo_yet s := by
  induction events generalizing inst with
  | nil =>
    simp only [run, Option.some.injEq] at hrun
    rw [← hrun]
    exact h
  | cons e rest ih =>
    unfold run at hrun
    cases hs : step inst e with
    | none => simp [hs] at hrun
    | some s1 =>
      simp only [hs] at hrun
      exact ih s1 (fun x hx => hev x (List.mem_cons_of_mem _ hx)) hrun
        (step_no_echo_yet inst s1 e (hev e (List.mem_cons_self _ _)) hs h)

/-- C14, the counterexample. Right after `main` scheduled PREINIT, in the state
WAITING_PREINIT_REPLY, with no echo request ever sent, an ECHO_REPLY carrying
sequence number 0 makes `qdevice_net_msg_received` return `0`. -/
theorem echo_reply_zero_accepted_in_handshake :
    (main_schedule_preinit sample_codec sample_main_instance).map
      (fun s => (s.state, (qdevice_net_msg_received sample_env (0, sample_echo_reply 0) s).1)) =
      some (.QDEVICE_NET_STATE_WAITING_PREINIT_REPLY, 0) := by
  decide

/-- C14, amended. In every state the connection reaches from the start of `main`
before any SET_OPTION_REPLY is received (so that no echo request was ever
scheduled), an inbound ECHO_REPLY without a sequence number or with a sequence
number other than 0 makes `qdevice_net_msg_received` return `-1`; an ECHO_REPLY
with sequence number 0 makes it return `0`; in both cases the instance is as it
was. -/
theorem echo_reply_during_handshake (codec : msg_codec) (tls_supported : tlv_tls_supported)
    (node_id decision_algorithm heartbeat_interval : Nat) (host_addr : String) (host_port : Nat)
    (cluster_name : String) (socket : Nat) (s0 : qdevice_net_instance)
    (hmain : main_schedule_preinit codec (main_instance tls_supported node_id decision_algorithm
      heartbeat_interval host_addr host_port cluster_name socket) = some s0)
    (events : List event) (hev : ∀ e ∈ events, e.is_set_option_reply = false)
    (s : qdevice_net_instance) (hrun : run s0 events = some s)
    (env : handler_env) (msg : msg_decoded) (htype : msg.type = .MSG_TYPE_ECHO_REPLY) :
    ((msg.seq_number_set = false ∨ msg.seq_number ≠ 0) →
      qdevice_net_msg_received env (0, msg) s = (-1, s)) ∧
    ((msg.seq_number_set = true ∧ msg.seq_number = 0) →
      qdevice_net_msg_received env (0, msg) s = (0, s)) := by
  obtain ⟨h1, h2, _⟩ := run_no_echo_yet events s0 s hev hrun
    (main_schedule_preinit_no_echo_yet codec tls_supported node_id decision_algorithm
      heartbeat_interval host_addr host_port cluster_name socket s0 hmain)
  rw [msg_received_echo_reply env msg s htype]
  unfold qdevice_net_msg_received_echo_reply qdevice_net_msg_check_echo_reply_seq_number
  constructor
  · rintro (h | h)
    · simp [h]
    · cases hs : msg.seq_number_set <;> simp [h1, h]
  · rintro ⟨ha, hb⟩
    cases s
    simp only at h1 h2
    subst h1 h2
    simp [ha, hb]

/-- A run over two sequences of events is the run over the second from the end of
the first. -/
theorem run_append (l1 l2 : List event) (inst s : qdevice_net_instance)
    (h : run inst l1 = some s) : run inst (l1 ++ l2) = run s l2 := by
  induction l1 generalizing inst with
  | nil =>
    simp only [run, Option.some.injEq] at h
    rw [h]
    rfl
  | cons e rest ih =>
    simp only [List.cons_append, run] at h ⊢
    cases hs : step inst e with
    | none => simp [hs] at h
    | some s1 =>
      simp only [hs] at h ⊢
      exact ih s1 h

/-- The echo requests scheduled over two sequences of events are those of the
first followed by those of the second from the end of the first. -/
theorem echo_requests_scheduled_append (l1 l2 : List event) (inst s : qdevice_net_instance)
    (h : run inst l1 = some s) :
    echo_requests_scheduled inst (l1 ++ l2) =
      echo_requests_scheduled inst l1 ++ echo_requests_scheduled s l2 := by
  induction l1 generalizing inst with
  | nil =>
    simp only [run, Option.some.injEq] at h
    rw [h]
    rfl
  | cons e rest ih =>
    simp only [List.cons_append, run, echo_requests_scheduled] at h ⊢
    cases hs : step inst e with
    | none => simp [hs] at h
    | some s1 =>
      simp only [hs] at h ⊢
      cases e <;> simp [ih s1 h]

/-- One round of the echo channel from an idle state at counter `n`: the run goes
through, schedules the one echo request numbered `n + 1` modulo `2 ^ 32`, and ends
idle at that counter. -/
theorem echo_cycle_run (n : Nat) (inst : qdevice_net_instance) (h : echo_idle n inst) :
    ∃ s, run inst (echo_cycle n) = some s ∧ echo_idle ((n + 1) % 2 ^ 32) s ∧
      echo_requests_scheduled inst (echo_cycle n) = [(n + 1) % 2 ^ 32] := by
  obtain ⟨h1, h2, h3, h4, h5⟩ := h
  have hstep1 : step inst (.heartbeat sample_codec) =
      some { inst with
        echo_request_expected_msg_seq_num := (n + 1) % 2 ^ 32
        echo_request_send_buffer :=
          { data := [8, (n + 1) % 2 ^ 32]
            maximum_size := inst.echo_request_send_buffer.maximum_size }
        echo_request_msg_already_sent_bytes := 0
        sending_echo_request_msg := 1 } := by
    simp [step, h5, qdevice_net_timer_send_heartbeat, qdevice_net_schedule_echo_request_send,
      h2, h3, h4, sample_codec, SIZE_MAX, uint32_inc, dynar_store]
  have hstep2 : step { inst with
        echo_request_expected_msg_seq_num := (n + 1) % 2 ^ 32
        echo_request_send_buffer :=
          { data := [8, (n + 1) % 2 ^ 32]
            maximum_size := inst.echo_request_send_buffer.maximum_size }
        echo_request_msg_already_sent_bytes := 0
        sending_echo_request_msg := 1 } (.write sample_io_env) =
      some { inst with
        echo_request_expected_msg_seq_num := (n + 1) % 2 ^ 32
        echo_request_send_buffer :=
          { data := [8, (n + 1) % 2 ^ 32]
            maximum_size := inst.echo_request_send_buffer.maximum_size }
        echo_request_msg_already_sent_bytes := 2
        sending_echo_request_msg := 0 } := by
    simp [step, qdevice_net_socket_write, send_echo_request, h1, sample_io_env]
  have hstep3 : step { inst with
        echo_request_expected_msg_seq_num := (n + 1) % 2 ^ 32
        echo_request_send_buffer :=
          { data := [8, (n + 1) % 2 ^ 32]
            maximum_size := inst.echo_request_send_buffer.maximum_size }
        echo_request_msg_already_sent_bytes := 2
        sending_echo_request_msg := 0 }
        (.received sample_env (0, sample_echo_reply ((n + 1) % 2 ^ 32))) =
      some { inst with
        echo_request_expected_msg_seq_num := (n + 1) % 2 ^ 32
        echo_request_send_buffer :=
          { data := [8, (n + 1) % 2 ^ 32]
            maximum_size := inst.echo_request_send_buffer.maximum_size }
        echo_request_msg_already_sent_bytes := 2
        sending_echo_request_msg := 0
        echo_reply_received_msg_seq_num := (n + 1) % 2 ^ 32 } := by
    simp [step, qdevice_net_msg_received, sample_echo_reply, blank_msg,
      qdevice_net_msg_received_echo_reply, qdevice_net_msg_check_echo_reply_seq_number]
  refine ⟨{ inst with
      echo_request_expected_msg_seq_num := (n + 1) % 2 ^ 32
      echo_request_send_buffer :=
        { data := [8, (n + 1) % 2 ^ 32]
          maximum_size := inst.echo_request_send_buffer.maximum_size }
      echo_request_msg_already_sent_bytes := 2
      sending_echo_request_msg := 0
      echo_reply_received_msg_seq_num := (n + 1) % 2 ^ 32 }, ?_, ?_, ?_⟩
  · simp only [echo_cycle, run, hstep1, hstep2, hstep3]
  · exact ⟨h1, rfl, rfl, rfl, h5⟩
  · simp only [echo_cycle, echo_requests_scheduled, hstep1, hstep2, hstep3]

/-- The rounds of the echo channel from an idle state: the run goes through and
schedules one echo request per round. -/
theorem echo_cycles_run (k n : Nat) (inst : qdevice_net_instance) (h : echo_idle n inst) :
    (run inst (echo_cycles n k)).isSome = true ∧
    (echo_requests_scheduled inst (echo_cycles n k)).length = k := by
  induction k generalizing n inst with
  | zero => exact ⟨rfl, rfl⟩
  | succ k ih =>
    obtain ⟨s, hrun, hidle, hreq⟩ := echo_cycle_run n inst h
    obtain ⟨ih1, ih2⟩ := ih ((n + 1) % 2 ^ 32) s hidle
    unfold echo_cycles
    rw [run_append _ _ inst s hrun, echo_requests_scheduled_append _ _ inst s hrun, hreq]
    refine ⟨ih1, ?_⟩
    rw [List.length_append, ih2]
    simp [Nat.add_comm]

/-- The echo scheduling returns `0` or `-1`. -/
theorem schedule_echo_request_send_ret (codec : msg_codec) (inst : qdevice_net_instance) :
    (qdevice_net_schedule_echo_request_send codec inst).1 = 0 ∨
    (qdevice_net_schedule_echo_request_send codec inst).1 = -1 := by
  unfold qdevice_net_schedule_echo_request_send
  simp only []
  split_ifs <;> simp

/-- The heartbeat callback in terms of the echo scheduling. -/
theorem timer_send_heartbeat_eq (codec : msg_codec) (inst : qdevice_net_instance) :
    ((qdevice_net_schedule_echo_request_send codec inst).1 = 0 →
      qdevice_net_timer_send_heartbeat codec inst =
        (-1, (qdevice_net_schedule_echo_request_send codec inst).2)) ∧
    ((qdevice_net_schedule_echo_request_send codec inst).1 = -1 →
      qdevice_net_timer_send_heartbeat codec inst =
        (0, { (qdevice_net_schedule_echo_request_send codec inst).2 with
          schedule_disconnect := 1 })) := by
  unfold qdevice_net_timer_send_heartbeat
  constructor <;> intro h <;> simp [h]

/-- A heartbeat that lets the connection go on scheduled an echo request: the
request counter is the 32-bit successor of what it was. -/
theorem step_heartbeat_counter (codec : msg_codec) (inst s : qdevice_net_instance)
    (h : step inst (.heartbeat codec) = some s) :
    s.echo_request_expected_msg_seq_num =
      (inst.echo_request_expected_msg_seq_num + 1) % 2 ^ 32 := by
  unfold step at h
  simp only [] at h
  by_cases he : inst.main_timer_list.entries.isEmpty = true
  · simp [he] at h
  rcases schedule_echo_request_send_ret codec inst with h0 | h0
  · have hc := (schedule_echo_request_send_counters codec inst h0).1
    rw [(timer_send_heartbeat_eq codec inst).1 h0] at h
    simp [he] at h
    rw [← h]
    exact hc
  · rw [(timer_send_heartbeat_eq codec inst).2 h0] at h
    simp [he] at h

/-- A received message and a write leave the request counter of the echo channel
as it was. -/
theorem step_other_counter (inst s : qdevice_net_instance) (e : event)
    (he : ∀ codec, e ≠ .heartbeat codec) (h : step inst e = some s) :
    s.echo_request_expected_msg_seq_num = inst.echo_request_expected_msg_seq_num := by
  cases e with
  | received env decoded =>
    unfold step at h
    simp only [] at h
    split_ifs at h
    injection h with h
    rw [← h]
    exact (msg_received_frame env decoded inst).2.2.2.1
  | heartbeat codec => exact absurd rfl (he codec)
  | write env =>
    unfold step at h
    simp only [] at h
    split_ifs at h
    injection h with h
    rw [← h]
    exact (socket_write_main_frame env inst).2.2.2.1

/-- The echo requests scheduled along any sequence of events are numbered with the
successors, modulo `2 ^ 32`, of the request counter at its start. -/
theorem echo_requests_scheduled_eq (events : List event) (inst : qdevice_net_instance) :
    echo_requests_scheduled inst events =
      (List.range (echo_requests_scheduled inst events).length).map
        (fun j => (inst.echo_request_expected_msg_seq_num + (j + 1)) % 2 ^ 32) := by
  induction events generalizing inst with
  | nil => rfl
  | cons e rest ih =>
    unfold echo_requests_scheduled
    cases hs : step inst e with
    | none => rfl
    | some s =>
      cases e with
      | heartbeat codec =>
        simp only []
        have hc := step_heartbeat_counter codec inst s hs
        rw [List.length_cons, List.range_succ_eq_map, List.map_cons, List.map_map]
        congr 1
        conv_lhs => rw [ih s]
        apply List.map_congr_left
        intro j _
        simp only [Function.comp, Nat.succ_eq_add_one, hc]
        omega
      | received env decoded =>
        simp only []
        have hc := step_other_counter inst s _ (fun c => by simp) hs
        conv_lhs => rw [ih s]
        rw [hc]
      | write env =>
        simp only []
        have hc := step_other_counter inst s _ (fun c => by simp) hs
        conv_lhs => rw [ih s]
        rw [hc]

/-- Successors modulo `m` over at least `m` indices are not strictly increasing. -/
theorem not_pairwise_successors_mod (m k : Nat) (hm : 2 ≤ m) (hk : m ≤ k) :
    ¬ List.Pairwise (· < ·) ((List.range k).map (fun j => (j + 1) % m)) := by
  intro hp
  rw [List.pairwise_iff_getElem] at hp
  have h := hp 0 (m - 1) (by simp; omega) (by simp; omega) (by omega)
  simp only [List.getElem_map, List.getElem_range] at h
  have h1 : (0 + 1) % m = 1 := Nat.mod_eq_of_lt (by omega)
  have h2 : (m - 1 + 1) % m = 0 := by
    rw [Nat.sub_add_cancel (by omega)]
    exact Nat.mod_self m
  rw [h1, h2] at h
  omega

/-- Successors modulo `m` over fewer than `m` indices are strictly increasing. -/
theorem pairwise_successors_mod (m k : Nat) (hk : k < m) :
    List.Pairwise (· < ·) ((List.range k).map (fun j => (j + 1) % m)) := by
  rw [List.pairwise_map]
  refine List.Pairwise.imp_of_mem ?_ (List.pairwise_lt_range k)
  intro a b ha hb hab
  rw [List.mem_range] at ha hb
  rw [Nat.mod_eq_of_lt (by omega), Nat.mod_eq_of_lt (by omega)]
  omega

/-- The sample `main` schedules PREINIT and leaves `sample_main_scheduled`. -/
theorem sample_main_scheduled_eq :
    main_schedule_preinit sample_codec sample_main_instance = some sample_main_scheduled := by
  decide

/-- The sample handshake goes through, ends with the echo channel idle at counter
`0`, and schedules no echo request. -/
theorem sample_handshake_run :
    ∃ s, run sample_main_scheduled sample_handshake = some s ∧ echo_idle 0 s ∧
      echo_requests_scheduled sample_main_scheduled sample_handshake = [] :=
  ⟨(run sample_main_scheduled sample_handshake).getD sample_main_scheduled,
    by decide, by decide, by decide⟩

/-- C15, the counterexample. After the sample handshake, `2 ^ 32` rounds of the echo
channel (heartbeat, write, matching reply) go through without ending the
connection, and the sequence numbers of the echo requests scheduled are not
strictly increasing: the request of the last round is numbered `0`. -/
theorem echo_sequence_wraps :
    main_schedule_preinit sample_codec sample_main_instance = some sample_main_scheduled ∧
    (run sample_main_scheduled (sample_handshake ++ echo_cycles 0 (2 ^ 32))).isSome = true ∧
    (echo_requests_scheduled sample_main_scheduled
      (sample_handshake ++ echo_cycles 0 (2 ^ 32))).getLast? = some 0 ∧
    ¬ List.Pairwise (· < ·)
      (echo_requests_scheduled sample_main_scheduled
        (sample_handshake ++ echo_cycles 0 (2 ^ 32))) := by
  obtain ⟨s, hrun, hidle, hreq⟩ := sample_handshake_run
  obtain ⟨hsome, hlen⟩ := echo_cycles_run (2 ^ 32) 0 s hidle
  have hlist := echo_requests_scheduled_eq (echo_cycles 0 (2 ^ 32)) s
  rw [hlen, hidle.2.2.1] at hlist
  have hmap : (fun j => (0 + (j + 1)) % 2 ^ 32) = (fun j => (j + 1) % 2 ^ 32) := by
    funext j
    rw [Nat.zero_add]
  rw [hmap] at hlist
  refine ⟨sample_main_scheduled_eq, ?_, ?_, ?_⟩
  · rw [run_append _ _ _ s hrun]
    exact hsome
  · rw [echo_requests_scheduled_append _ _ _ s hrun, hreq, List.nil_append, hlist]
    have hsplit : (2 : Nat) ^ 32 = (2 ^ 32 - 1) + 1 := by norm_num
    rw [hsplit, List.range_succ, List.map_append, List.map_singleton,
      List.getLast?_append_of_ne_nil _ (by simp)]
    simp
  · rw [echo_requests_scheduled_append _ _ _ s hrun, hreq, List.nil_append, hlist]
    exact not_pairwise_successors_mod (2 ^ 32) (2 ^ 32) (by norm_num) (Nat.le_refl _)

/-- C15, amended. From the start of `main`, along every sequence of events, the
echo requests scheduled are numbered 1, 2, 3, ... modulo `2 ^ 32`: the first is
numbered 1, each next one with the 32-bit successor of the one before, and the
numbers are strictly increasing as long as fewer than `2 ^ 32` echo requests were
scheduled. -/
theorem echo_sequence_numbers (codec : msg_codec) (tls_supported : tlv_tls_supported)
    (node_id decision_algorithm heartbeat_interval : Nat) (host_addr : String) (host_port : Nat)
    (cluster_name : String) (socket : Nat) (s0 : qdevice_net_instance)
    (hmain : main_schedule_preinit codec (main_instance tls_supported node_id decision_algorithm
      heartbeat_interval host_addr host_port cluster_name socket) = some s0)
    (events : List event) :
    echo_requests_scheduled s0 events =
      (List.range (echo_requests_scheduled s0 events).length).map (fun j => (j + 1) % 2 ^ 32) ∧
    (∀ n, (echo_requests_scheduled s0 events).head? = some n → n = 1) ∧
    ((echo_requests_scheduled s0 events).length < 2 ^ 32 →
      List.Pairwise (· < ·) (echo_requests_scheduled s0 events)) := by
  have h0 := (main_schedule_preinit_no_echo_yet codec tls_supported node_id decision_algorithm
    heartbeat_interval host_addr host_port cluster_name socket s0 hmain).1
  have hlist := echo_requests_scheduled_eq events s0
  rw [h0] at hlist
  have hmap : (fun j => (0 + (j + 1)) % 2 ^ 32) = (fun j => (j + 1) % 2 ^ 32) := by
    funext j
    rw [Nat.zero_add]
  rw [hmap] at hlist
  refine ⟨hlist, ?_, ?_⟩
  · intro n hn
    rw [hlist, List.head?_map, List.head?_range] at hn
    split_ifs at hn
    · simp at hn
    · simp at hn
      exact hn.symm
  · intro hlt
    rw [hlist]
    exact pairwise_successors_mod (2 ^ 32) _ hlt

/-- Witness of C15 amended: after the sample handshake, two rounds of the echo
channel schedule the echo requests numbered 1 and 2. -/
theorem echo_sequence_numbers_witness :
    echo_requests_scheduled sample_main_scheduled (sample_handshake ++ echo_cycles 0 2) =
      [1, 2] ∧
    List.Pairwise (· < ·)
      (echo_requests_scheduled sample_main_scheduled (sample_handshake ++ echo_cycles 0 2)) :=
  ⟨by decide,
    (echo_sequence_numbers sample_codec .TLV_TLS_UNSUPPORTED 7 0 8000 "qnetd.example" 5403
      "cluster" 4 sample_main_scheduled sample_main_scheduled_eq
      (sample_handshake ++ echo_cycles 0 2)).2.2 (by decide)⟩

/-- Witness of C14 amended: after PREINIT was written and the PREINIT_REPLY
accepted, an ECHO_REPLY numbered 5 is rejected and one numbered 0 is accepted,
the instance staying as it was. -/
theorem echo_reply_during_handshake_witness :
    qdevice_net_msg_received sample_env (0, sample_echo_reply 5) sample_after_preinit_reply =
      (-1, sample_after_preinit_reply) ∧
    qdevice_net_msg_received sample_env (0, sample_echo_reply 0) sample_after_preinit_reply =
      (0, sample_after_preinit_reply) :=
  have h := echo_reply_during_handshake sample_codec .TLV_TLS_UNSUPPORTED 7 0 8000
    "qnetd.example" 5403 "cluster" 4 sample_main_scheduled sample_main_scheduled_eq
    (sample_handshake.take 2) (by decide) sample_after_preinit_reply (by decide) sample_env
  ⟨(h (sample_echo_reply 5) rfl).1 (Or.inr (by decide)),
   (h (sample_echo_reply 0) rfl).2 ⟨rfl, rfl⟩⟩

/-- The write-finished hook outside the state WAITING_STARTTLS_BEING_SENT. -/
theorem socket_write_finished_other_state (env : io_env) (inst : qdevice_net_instance)
    (h : inst.state ≠ .QDEVICE_NET_STATE_WAITING_STARTTLS_BEING_SENT) :
    qdevice_net_socket_write_finished env inst =
      { control := .returned 0, inst := inst, calls := [] } := by
  simp [qdevice_net_socket_write_finished, h]

/-- The write-finished hook in the state WAITING_STARTTLS_BEING_SENT: it returns
`-1`, or INIT is scheduled with the 32-bit successor of the sequence number and
the state is WAITING_INIT_REPLY. -/
theorem socket_write_finished_starttls (env : io_env) (inst : qdevice_net_instance)
    (h : inst.state = .QDEVICE_NET_STATE_WAITING_STARTTLS_BEING_SENT) :
    (qdevice_net_socket_write_finished env inst).control = .returned (-1) ∨
    ((qdevice_net_socket_write_finished env inst).inst.state =
        .QDEVICE_NET_STATE_WAITING_INIT_REPLY ∧
      (qdevice_net_socket_write_finished env inst).inst.expected_msg_seq_num =
        (inst.expected_msg_seq_num + 1) % 2 ^ 32 ∧
      (qdevice_net_socket_write_finished env inst).inst.sending_msg = 1 ∧
      (qdevice_net_socket_write_finished env inst).inst.send_buffer.data =
        (env.handlers.codec.msg_create_init inst.send_buffer true
          ((inst.expected_msg_seq_num + 1) % 2 ^ 32)
          env.handlers.codec.msg_get_supported_messages
          env.handlers.codec.tlv_get_supported_options inst.node_id).1) := by
  unfold qdevice_net_socket_write_finished
  simp only [h, if_true]
  cases env.nss_sock_start_ssl_as_client inst.socket with
  | none => left; rfl
  | some fd =>
    simp only []
    unfold qdevice_net_send_init qdevice_net_schedule_send
    simp only []
    split_ifs <;> simp_all [uint32_inc, dynar_store]

/-- What a write does to the main channel: it returns `-1`; or it leaves the state,
the sequence number and the send buffer as they were; or, in the state
WAITING_STARTTLS_BEING_SENT, it schedules INIT with the 32-bit successor of the
sequence number and moves to WAITING_INIT_REPLY. -/
theorem socket_write_main (env : io_env) (inst : qdevice_net_instance) :
    (qdevice_net_socket_write env inst).control = .returned (-1) ∨
    ((qdevice_net_socket_write env inst).inst.state = inst.state ∧
      (qdevice_net_socket_write env inst).inst.expected_msg_seq_num =
        inst.expected_msg_seq_num ∧
      (qdevice_net_socket_write env inst).inst.send_buffer = inst.send_buffer) ∨
    (inst.state = .QDEVICE_NET_STATE_WAITING_STARTTLS_BEING_SENT ∧
      (qdevice_net_socket_write env inst).inst.state = .QDEVICE_NET_STATE_WAITING_INIT_REPLY ∧
      (qdevice_net_socket_write env inst).inst.expected_msg_seq_num =
        (inst.expected_msg_seq_num + 1) % 2 ^ 32 ∧
      (qdevice_net_socket_write env inst).inst.sending_msg = 1 ∧
      (qdevice_net_socket_write env inst).inst.send_buffer.data =
        (env.handlers.codec.msg_create_init inst.send_buffer true
          ((inst.expected_msg_seq_num + 1) % 2 ^ 32)
          env.handlers.codec.msg_get_supported_messages
          env.handlers.codec.tlv_get_supported_options inst.node_id).1) := by
  by_cases hs : inst.state = .QDEVICE_NET_STATE_WAITING_STARTTLS_BEING_SENT
  · have hf := socket_write_finished_starttls env
      { inst with
        msg_already_sent_bytes :=
          (env.msgio_write inst.socket inst.send_buffer inst.msg_already_sent_bytes).2
        sending_msg := 0 } hs
    unfold qdevice_net_socket_write
    simp only []
    split_ifs
    all_goals
      first
        | exact Or.inl rfl
        | exact Or.inr (Or.inl ⟨rfl, rfl, rfl⟩)
        | skip
    rcases hf with hf | hf
    · contradiction
    · exact Or.inr (Or.inr ⟨hs, hf⟩)
  · have hf := socket_write_finished_other_state env
      { inst with
        msg_already_sent_bytes :=
          (env.msgio_write inst.socket inst.send_buffer inst.msg_already_sent_bytes).2
        sending_msg := 0 } hs
    unfold qdevice_net_socket_write
    simp only []
    split_ifs
    all_goals
      first
        | exact Or.inl rfl
        | exact Or.inr (Or.inl ⟨rfl, rfl, rfl⟩)
        | skip
    right
    left
    rw [hf]
    exact ⟨rfl, rfl, rfl⟩

/-- Writes outside the state WAITING_STARTTLS_BEING_SENT leave the state, the
sequence number, the send buffer and the main frame as they were. -/
theorem run_writes_keep (codec : msg_codec) (ws : List event) (inst s : qdevice_net_instance)
    (hw : writes_with codec ws) (hrun : run inst ws = some s)
    (hs : inst.state ≠ .QDEVICE_NET_STATE_WAITING_STARTTLS_BEING_SENT) :
    s.state = inst.state ∧ s.expected_msg_seq_num = inst.expected_msg_seq_num ∧
    s.send_buffer = inst.send_buffer ∧ main_frame inst s := by
  induction ws generalizing inst with
  | nil =>
    simp only [run, Option.some.injEq] at hrun
    rw [← hrun]
    exact ⟨rfl, rfl, rfl, main_frame_refl inst⟩
  | cons e rest ih =>
    obtain ⟨w, he, _⟩ := hw e (List.mem_cons_self _ _)
    subst he
    unfold run at hrun
    cases hstep : step inst (.write w) with
    | none => simp [hstep] at hrun
    | some s1 =>
      simp only [hstep] at hrun
      unfold step at hstep
      simp only [] at hstep
      split_ifs at hstep with hc
      injection hstep with hstep
      have hm := socket_write_main w inst
      have hfr := socket_write_main_frame w inst
      rw [hstep] at hm hfr
      rcases hm with hm | hm | hm
      · exact absurd hm hc
      · obtain ⟨k1, k2, k3⟩ := hm
        have hs1 : s1.state ≠ .QDEVICE_NET_STATE_WAITING_STARTTLS_BEING_SENT := by
          rw [k1]
          exact hs
        obtain ⟨j1, j2, j3, j4⟩ :=
          ih s1 (fun x hx => hw x (List.mem_cons_of_mem _ hx)) hrun hs1
        refine ⟨j1.trans k1, j2.trans k2, j3.trans k3, ?_⟩
        obtain ⟨f1, f2, f3, f4, f5, f6, f7, f8⟩ := hfr
        obtain ⟨g1, g2, g3, g4, g5, g6, g7, g8⟩ := j4
        exact ⟨g1.trans f1, g2.trans f2, g3.trans f3, g4.trans f4, g5.trans f5, g6.trans f6,
          g7.trans f7, g8.trans f8⟩
      · exact absurd hm.1 hs

/-- Writes from the state WAITING_STARTTLS_BEING_SENT: either nothing of the main
channel changed, or INIT was scheduled with the 32-bit successor of the sequence
number and the state is WAITING_INIT_REPLY; the main frame is as it was. -/
theorem run_writes_starttls (codec : msg_codec) (ws : List event) (inst s : qdevice_net_instance)
    (hw : writes_with codec ws) (hrun : run inst ws = some s)
    (hs : inst.state = .QDEVICE_NET_STATE_WAITING_STARTTLS_BEING_SENT) :
    ((s.state = inst.state ∧ s.expected_msg_seq_num = inst.expected_msg_seq_num ∧
        s.send_buffer = inst.send_buffer) ∨
      (s.state = .QDEVICE_NET_STATE_WAITING_INIT_REPLY ∧
        s.expected_msg_seq_num = (inst.expected_msg_seq_num + 1) % 2 ^ 32 ∧
        s.send_buffer.data =
          (codec.msg_create_init inst.send_buffer true
            ((inst.expected_msg_seq_num + 1) % 2 ^ 32) codec.msg_get_supported_messages
            codec.tlv_get_supported_options inst.node_id).1)) ∧
    main_frame inst s := by
  induction ws generalizing inst with
  | nil =>
    simp only [run, Option.some.injEq] at hrun
    rw [← hrun]
    exact ⟨Or.inl ⟨rfl, rfl, rfl⟩, main_frame_refl inst⟩
  | cons e rest ih =>
    obtain ⟨w, he, hcodec⟩ := hw e (List.mem_cons_self _ _)
    subst he
    unfold run at hrun
    cases hstep : step inst (.write w) with
    | none => simp [hstep] at hrun
    | some s1 =>
      simp only [hstep] at hrun
      unfold step at hstep
      simp only [] at hstep
      split_ifs at hstep with hc
      injection hstep with hstep
      have hm := socket_write_main w inst
      have hfr := socket_write_main_frame w inst
      rw [hstep] at hm hfr
      obtain ⟨f1, f2, f3, f4, f5, f6, f7, f8⟩ := hfr
      rcases hm with hm | hm | hm
      · exact absurd hm hc
      · obtain ⟨k1, k2, k3⟩ := hm
        obtain ⟨j, g1, g2, g3, g4, g5, g6, g7, g8⟩ :=
          ih s1 (fun x hx => hw x (List.mem_cons_of_mem _ hx)) hrun (k1.trans hs)
        refine ⟨?_, g1.trans f1, g2.trans f2, g3.trans f3, g4.trans f4, g5.trans f5,
          g6.trans f6, g7.trans f7, g8.trans f8⟩
        rcases j with ⟨j1, j2, j3⟩ | ⟨j1, j2, j3⟩
        · exact Or.inl ⟨j1.trans k1, j2.trans k2, j3.trans k3⟩
        · right
          rw [k2, k3, f6] at j3
          rw [k2] at j2
          exact ⟨j1, j2, j3⟩
      · obtain ⟨_, k1, k2, _, k4⟩ := hm
        have hs1 : s1.state ≠ .QDEVICE_NET_STATE_WAITING_STARTTLS_BEING_SENT := by
          rw [k1]
          decide
        obtain ⟨j1, j2, j3, g1, g2, g3, g4, g5, g6, g7, g8⟩ :=
          run_writes_keep codec rest s1 s (fun x hx => hw x (List.mem_cons_of_mem _ hx)) hrun hs1
        refine ⟨Or.inr ⟨j1.trans k1, j2.trans k2, ?_⟩, g1.trans f1, g2.trans f2, g3.trans f3,
          g4.trans f4, g5.trans f5, g6.trans f6, g7.trans f7, g8.trans f8⟩
        rw [j3, k4, hcodec]

/-- The three values of the TLS compatibility check. -/
theorem check_tls_compatibility_values (server_tls client_tls : tlv_tls_supported) :
    qdevice_net_check_tls_compatibility server_tls client_tls = -1 ∨
    qdevice_net_check_tls_compatibility server_tls client_tls = 0 ∨
    qdevice_net_check_tls_compatibility server_tls client_tls = 1 := by
  cases server_tls <;> cases client_tls <;> simp [qdevice_net_check_tls_compatibility]

/-- A PREINIT_REPLY that is not rejected: the state was WAITING_PREINIT_REPLY, the
message carried the expected sequence number, and either INIT (no TLS) or STARTTLS
(TLS) was scheduled with the 32-bit successor of that number. -/
theorem preinit_reply_accepted_effect (env : handler_env) (a : qdevice_net_instance)
    (m : msg_decoded) (h : (qdevice_net_msg_received_preinit_reply env a m).1 ≠ -1) :
    a.state = .QDEVICE_NET_STATE_WAITING_PREINIT_REPLY ∧
    m.seq_number = a.expected_msg_seq_num ∧
    a.sending_msg = 0 ∧
    (qdevice_net_msg_received_preinit_reply env a m).2.expected_msg_seq_num =
      (a.expected_msg_seq_num + 1) % 2 ^ 32 ∧
    (qdevice_net_msg_received_preinit_reply env a m).2.sending_msg = 1 ∧
    (qdevice_net_msg_received_preinit_reply env a m).2.msg_already_sent_bytes = 0 ∧
    ((qdevice_net_check_tls_compatibility m.tls_supported a.tls_supported = 0 ∧
        (qdevice_net_msg_received_preinit_reply env a m).2.state =
          .QDEVICE_NET_STATE_WAITING_INIT_REPLY ∧
        (qdevice_net_msg_received_preinit_reply env a m).2.send_buffer.data =
          (env.codec.msg_create_init a.send_buffer true ((a.expected_msg_seq_num + 1) % 2 ^ 32)
            env.codec.msg_get_supported_messages env.codec.tlv_get_supported_options
            a.node_id).1) ∨
      (qdevice_net_check_tls_compatibility m.tls_supported a.tls_supported = 1 ∧
        (qdevice_net_msg_received_preinit_reply env a m).2.state =
          .QDEVICE_NET_STATE_WAITING_STARTTLS_BEING_SENT ∧
        (qdevice_net_msg_received_preinit_reply env a m).2.send_buffer.data =
          (env.codec.msg_create_starttls a.send_buffer true
            ((a.expected_msg_seq_num + 1) % 2 ^ 32)).1)) := by
  by_cases hs : a.state = .QDEVICE_NET_STATE_WAITING_PREINIT_REPLY
  swap
  · simp [qdevice_net_msg_received_preinit_reply, hs] at h
  by_cases hc : qdevice_net_msg_check_seq_number a m = 0
  swap
  · simp [qdevice_net_msg_received_preinit_reply, hs, hc] at h
  have hseq := (check_seq_number_eq_zero_iff a m).1 hc
  cases h1 : m.tls_supported_set
  · simp [qdevice_net_msg_received_preinit_reply, hs, hc, h1] at h
  cases h2 : m.tls_client_cert_required_set
  · simp [qdevice_net_msg_received_preinit_reply, hs, hc, h1, h2] at h
  by_cases hidle : a.sending_msg = 0
  swap
  · exfalso
    rcases check_tls_compatibility_values m.tls_supported a.tls_supported with c | c | c
    · simp [qdevice_net_msg_received_preinit_reply, hs, hc, h1, h2, c] at h
    · by_cases henc : (env.codec.msg_create_init a.send_buffer true
          ((a.expected_msg_seq_num + 1) % 4294967296) env.codec.msg_get_supported_messages
          env.codec.tlv_get_supported_options a.node_id).2 = 0 <;>
        simp [qdevice_net_msg_received_preinit_reply, hs, hc, h1, h2, c, qdevice_net_send_init,
          qdevice_net_schedule_send, hidle, henc, uint32_inc] at h
    · by_cases henc : (env.codec.msg_create_starttls a.send_buffer true
          ((a.expected_msg_seq_num + 1) % 4294967296)).2 = 0 <;>
        simp [qdevice_net_msg_received_preinit_reply, hs, hc, h1, h2, c,
          qdevice_net_schedule_send, hidle, henc, uint32_inc] at h
  refine ⟨hs, hseq.2, hidle, ?_⟩
  rcases check_tls_compatibility_values m.tls_supported a.tls_supported with c | c | c
  · simp [qdevice_net_msg_received_preinit_reply, hs, hc, h1, h2, c] at h
  · by_cases henc : (env.codec.msg_create_init a.send_buffer true
        ((a.expected_msg_seq_num + 1) % 4294967296) env.codec.msg_get_supported_messages
        env.codec.tlv_get_supported_options a.node_id).2 = 0
    · simp [qdevice_net_msg_received_preinit_reply, hs, hc, h1, h2, c, qdevice_net_send_init,
        qdevice_net_schedule_send, hidle, henc, uint32_inc] at h
    · simp [qdevice_net_msg_received_preinit_reply, hs, hc, h1, h2, c, qdevice_net_send_init,
        qdevice_net_schedule_send, hidle, henc, uint32_inc, dynar_store]
  · by_cases henc : (env.codec.msg_create_starttls a.send_buffer true
        ((a.expected_msg_seq_num + 1) % 4294967296)).2 = 0
    · simp [qdevice_net_msg_received_preinit_reply, hs, hc, h1, h2, c,
        qdevice_net_schedule_send, hidle, henc, uint32_inc] at h
    · simp [qdevice_net_msg_received_preinit_reply, hs, hc, h1, h2, c,
        qdevice_net_schedule_send, hidle, henc, uint32_inc, dynar_store]

/-- A SET_OPTION_REPLY that is not rejected carried the expected sequence number,
and the handler left the sequence number and the state as they were. -/
theorem set_option_reply_accepted_effect (env : handler_env) (a : qdevice_net_instance)
    (m : msg_decoded) (h : (qdevice_net_msg_received_set_option_reply env a m).1 ≠ -1) :
    m.seq_number = a.expected_msg_seq_num ∧
    (qdevice_net_msg_received_set_option_reply env a m).2.expected_msg_seq_num =
      a.expected_msg_seq_num ∧
    (qdevice_net_msg_received_set_option_reply env a m).2.state = a.state := by
  by_cases hc : qdevice_net_msg_check_seq_number a m = 0
  swap
  · simp [qdevice_net_msg_received_set_option_reply, hc] at h
  have hseq := (check_seq_number_eq_zero_iff a m).1 hc
  refine ⟨hseq.2, ?_, ?_⟩
  · unfold qdevice_net_msg_received_set_option_reply
    simp only []
    split_ifs <;> rfl
  · unfold qdevice_net_msg_received_set_option_reply
    simp only []
    split_ifs <;> rfl

/-- An INIT_REPLY that passes the early checks and lists the decision algorithm of
the client is rejected when SET_OPTION cannot be encoded or a main message is
still in flight. -/
theorem init_reply_not_scheduled (env : handler_env) (inst : qdevice_net_instance)
    (msg : msg_decoded) (algorithms : List Nat)
    (h : ¬ init_reply_early_reject inst msg)
    (halgs : msg.supported_decision_algorithms = some algorithms)
    (hmem : inst.decision_algorithm ∈ algorithms)
    (hfail : (env.codec.msg_create_set_option
        (dynar_set_max_size inst.send_buffer msg.server_maximum_request_size) true
        ((inst.expected_msg_seq_num + 1) % 2 ^ 32) true inst.decision_algorithm true
        inst.heartbeat_interval).2 = 0 ∨ inst.sending_msg ≠ 0) :
    (qdevice_net_msg_received_init_reply env inst msg).1 = -1 := by
  unfold init_reply_early_reject at h
  push_neg at h
  obtain ⟨hs, h1, h2, h3, h4, h5, h6, _, h8, h9⟩ := h
  have hc : qdevice_net_msg_check_seq_number inst msg = 0 :=
    (check_seq_number_eq_zero_iff inst msg).2 ⟨by simpa using h1, h2⟩
  have h3t : msg.server_maximum_request_size_set = true := by simpa using h3
  have h4t : msg.server_maximum_reply_size_set = true := by simpa using h4
  have h5t : msg.supported_messages.isNone = false := by
    cases hm : msg.supported_messages <;> simp_all
  have h6t : msg.supported_options.isNone = false := by
    cases hm : msg.supported_options <;> simp_all
  have h8t : ¬ msg.server_maximum_request_size < inst.min_send_size := by omega
  have h9t : ¬ msg.server_maximum_reply_size > inst.max_receive_size := by omega
  unfold dynar_set_max_size at hfail
  norm_num at hfail
  unfold qdevice_net_msg_received_init_reply
  by_cases henc : (env.codec.msg_create_set_option
      { data := inst.send_buffer.data, maximum_size := msg.server_maximum_request_size } true
      ((inst.expected_msg_seq_num + 1) % 4294967296) true inst.decision_algorithm true
      inst.heartbeat_interval).2 = 0
  · simp [hs, hc, h3t, h4t, h5t, h6t, halgs, h8t, h9t, decision_algorithm_loop_zero, hmem,
      uint32_inc, dynar_store, dynar_set_max_size, henc]
  · have hbusy : inst.sending_msg ≠ 0 := by
      rcases hfail with hf | hf
      · exact absurd hf henc
      · exact hf
    simp [hs, hc, h3t, h4t, h5t, h6t, halgs, h8t, h9t, decision_algorithm_loop_zero, hmem,
      qdevice_net_schedule_send, hbusy, uint32_inc, dynar_store, dynar_set_max_size, henc]

/-- An INIT_REPLY that is not rejected: the state was WAITING_INIT_REPLY, the
message carried the expected sequence number, and SET_OPTION was scheduled with
the 32-bit successor of that number. -/
theorem init_reply_accepted_effect (env : handler_env) (a : qdevice_net_instance)
    (m : msg_decoded) (h : (qdevice_net_msg_received_init_reply env a m).1 ≠ -1) :
    a.state = .QDEVICE_NET_STATE_WAITING_INIT_REPLY ∧
    m.seq_number = a.expected_msg_seq_num ∧
    a.sending_msg = 0 ∧
    (qdevice_net_msg_received_init_reply env a m).2.expected_msg_seq_num =
      (a.expected_msg_seq_num + 1) % 2 ^ 32 ∧
    (qdevice_net_msg_received_init_reply env a m).2.sending_msg = 1 ∧
    (qdevice_net_msg_received_init_reply env a m).2.msg_already_sent_bytes = 0 ∧
    (qdevice_net_msg_received_init_reply env a m).2.state =
      .QDEVICE_NET_STATE_WAITING_SET_OPTION_REPLY ∧
    (qdevice_net_msg_received_init_reply env a m).2.send_buffer.data =
      (env.codec.msg_create_set_option
        (dynar_set_max_size a.send_buffer m.server_maximum_request_size) true
        ((a.expected_msg_seq_num + 1) % 2 ^ 32) true a.decision_algorithm true
        a.heartbeat_interval).1 := by
  by_cases hrej : init_reply_early_reject a m
  · rw [init_reply_early_reject_unchanged env a m hrej] at h
    simp at h
  have hpass := hrej
  unfold init_reply_early_reject at hpass
  push_neg at hpass
  obtain ⟨hs, _, hseq, _, _, _, _, h7, _, _⟩ := hpass
  obtain ⟨algorithms, halgs⟩ := Option.ne_none_iff_exists'.1 h7
  by_cases hmem : a.decision_algorithm ∈ algorithms
  swap
  · rw [init_reply_algorithm_missing env a m algorithms hrej halgs hmem] at h
    simp at h
  by_cases hidle : a.sending_msg = 0
  swap
  · exact absurd (init_reply_not_scheduled env a m algorithms hrej halgs hmem (Or.inr hidle)) h
  by_cases henc : (env.codec.msg_create_set_option
      (dynar_set_max_size a.send_buffer m.server_maximum_request_size) true
      ((a.expected_msg_seq_num + 1) % 2 ^ 32) true a.decision_algorithm true
      a.heartbeat_interval).2 = 0
  · exact absurd (init_reply_not_scheduled env a m algorithms hrej halgs hmem (Or.inl henc)) h
  rw [init_reply_algorithm_present env a m algorithms hrej halgs hmem hidle henc]
  exact ⟨hs, hseq, hidle, rfl, rfl, rfl, rfl, rfl⟩

/-- What an accepted message does to the sequence number of the main channel: it
leaves it as it was, or it schedules a message (none being in flight) with its
32-bit successor. -/
theorem msg_received_seq_effect (env : handler_env) (decoded : Int × msg_decoded)
    (a : qdevice_net_instance) (h : (qdevice_net_msg_received env decoded a).1 ≠ -1) :
    (qdevice_net_msg_received env decoded a).2.expected_msg_seq_num = a.expected_msg_seq_num ∨
    (a.sending_msg = 0 ∧
      (qdevice_net_msg_received env decoded a).2.expected_msg_seq_num =
        (a.expected_msg_seq_num + 1) % 2 ^ 32 ∧
      (qdevice_net_msg_received env decoded a).2.sending_msg = 1 ∧
      (qdevice_net_msg_received env decoded a).2.msg_already_sent_bytes = 0) := by
  unfold qdevice_net_msg_received at h ⊢
  by_cases hd : decoded.1 = 0
  swap
  · simp [hd] at h
  simp only [hd, ne_eq, not_true_eq_false, if_false] at h ⊢
  cases ht : decoded.2.type
  case pos.MSG_TYPE_PREINIT_REPLY =>
    simp only [ht] at h
    obtain ⟨_, _, k3, k4, k5, k6, _⟩ := preinit_reply_accepted_effect env a decoded.2 h
    exact Or.inr ⟨k3, k4, k5, k6⟩
  case pos.MSG_TYPE_INIT_REPLY =>
    simp only [ht] at h
    obtain ⟨_, _, k3, k4, k5, k6, _⟩ := init_reply_accepted_effect env a decoded.2 h
    exact Or.inr ⟨k3, k4, k5, k6⟩
  case pos.MSG_TYPE_SET_OPTION_REPLY =>
    simp only [ht] at h
    exact Or.inl (set_option_reply_accepted_effect env a decoded.2 h).2.1
  case pos.MSG_TYPE_ECHO_REPLY =>
    left
    show (qdevice_net_msg_received_echo_reply a decoded.2).2.expected_msg_seq_num = _
    rcases echo_reply_result a decoded.2 with hr | ⟨_, hr⟩ <;> rw [hr]
  all_goals exact Or.inl rfl

/-- What the start of `main` leaves: sequence number 1, PREINIT encoded with it in
the send buffer and scheduled, the state WAITING_PREINIT_REPLY, and the
configuration as it was. -/
theorem main_schedule_preinit_effect (codec : msg_codec) (inst s0 : qdevice_net_instance)
    (h : main_schedule_preinit codec inst = some s0) :
    s0.expected_msg_seq_num = 1 ∧
    s0.send_buffer.data = (codec.msg_create_preinit inst.send_buffer inst.cluster_name true 1).1 ∧
    s0.state = .QDEVICE_NET_STATE_WAITING_PREINIT_REPLY ∧
    s0.sending_msg = 1 ∧
    s0.tls_supported = inst.tls_supported ∧
    s0.node_id = inst.node_id ∧
    s0.decision_algorithm = inst.decision_algorithm ∧
    s0.heartbeat_interval = inst.heartbeat_interval := by
  unfold main_schedule_preinit at h
  simp only [] at h
  split_ifs at h with h1 h2
  simp only [Option.some.injEq] at h
  subst h
  unfold qdevice_net_schedule_send at h2 ⊢
  simp only [] at h2 ⊢
  split_ifs at h2 ⊢ with h3
  · simp at h2
  · simp [dynar_store]

/-- A received message that the run goes on after was not rejected, and the run
goes on with the instance the dispatcher left. -/
theorem step_received (env : handler_env) (decoded : Int × msg_decoded)
    (a b : qdevice_net_instance) (h : step a (.received env decoded) = some b) :
    (qdevice_net_msg_received env decoded a).1 ≠ -1 ∧
    b = (qdevice_net_msg_received env decoded a).2 := by
  unfold step at h
  simp only [] at h
  split_ifs at h with h1
  simp only [Option.some.injEq] at h
  exact ⟨h1, h.symm⟩

/-- The heartbeat callback leaves the sequence number of the main channel as it
was. -/
theorem timer_send_heartbeat_main_seq (codec : msg_codec) (inst : qdevice_net_instance) :
    (qdevice_net_timer_send_heartbeat codec inst).2.expected_msg_seq_num =
      inst.expected_msg_seq_num := by
  unfold qdevice_net_timer_send_heartbeat qdevice_net_schedule_echo_request_send
  simp only []
  split_ifs <;> rfl

/-- Writes of the sample environment are writes with the sample encoder. -/
theorem writes_with_sample (n : Nat) :
    writes_with sample_env.codec (List.replicate n (.write sample_io_env)) := by
  intro e he
  exact ⟨sample_io_env, (List.mem_replicate.1 he).2, rfl⟩

/-- The sample client with TLS as `main` leaves it. -/
theorem sample_main_scheduled_tls_eq :
    main_schedule_preinit sample_codec sample_main_instance_tls =
      some sample_main_scheduled_tls := by
  decide

/-- The test of line 203 compares the result of the ECHO_REQUEST encoder with `-1`:
when the encoder reports `0`, the value the call sites of the other encoders
treat as the failure, the echo request is scheduled all the same and the function
returns `0`. -/
theorem schedule_echo_request_send_encoder_zero (codec : msg_codec)
    (inst : qdevice_net_instance) (h1 : inst.sending_echo_request_msg = 0)
    (h2 : inst.echo_reply_received_msg_seq_num = inst.echo_request_expected_msg_seq_num)
    (h3 : (codec.msg_create_echo_request inst.echo_request_send_buffer true
      ((inst.echo_request_expected_msg_seq_num + 1) % 2 ^ 32)).2 = 0) :
    (qdevice_net_schedule_echo_request_send codec inst).1 = 0 ∧
    (qdevice_net_schedule_echo_request_send codec inst).2.sending_echo_request_msg = 1 ∧
    (qdevice_net_schedule_echo_request_send codec inst).2.echo_request_expected_msg_seq_num =
      (inst.echo_request_expected_msg_seq_num + 1) % 2 ^ 32 := by
  rw [schedule_echo_request_send_success codec inst h1 h2 (by rw [h3]; decide)]
  exact ⟨rfl, rfl, rfl⟩

/-- Witness of the above on the sample client after its handshake. -/
theorem schedule_echo_request_send_encoder_zero_witness :
    (qdevice_net_schedule_echo_request_send sample_codec_echo_zero sample_instance_steady).1 = 0 ∧
    (qdevice_net_schedule_echo_request_send sample_codec_echo_zero
      sample_instance_steady).2.sending_echo_request_msg = 1 ∧
    (qdevice_net_schedule_echo_request_send sample_codec_echo_zero
      sample_instance_steady).2.echo_request_expected_msg_seq_num = 1 :=
  schedule_echo_request_send_encoder_zero sample_codec_echo_zero sample_instance_steady
    (by decide) (by decide) (by decide)

/-- The main-channel scheduling fails when a main message is in flight and leaves
the instance as it was. -/
theorem schedule_send_busy (inst : qdevice_net_instance) (h : inst.sending_msg ≠ 0) :
    qdevice_net_schedule_send inst = (-1, inst) := by
  simp [qdevice_net_schedule_send, h]

/-- With a main message in flight `qdevice_net_send_init` returns `-1` and leaves
the state, the main sending flag and the main progress as they were. -/
theorem send_init_busy (codec : msg_codec) (inst : qdevice_net_instance)
    (h : inst.sending_msg ≠ 0) :
    (qdevice_net_send_init codec inst).1 = -1 ∧
    (qdevice_net_send_init codec inst).2.state = inst.state ∧
    (qdevice_net_send_init codec inst).2.sending_msg = inst.sending_msg ∧
    (qdevice_net_send_init codec inst).2.msg_already_sent_bytes = inst.msg_already_sent_bytes := by
  unfold qdevice_net_send_init
  simp only []
  split_ifs with h1 h2
  · exact ⟨rfl, rfl, rfl, rfl⟩
  · rw [schedule_send_busy _ (by exact h)]
    exact ⟨rfl, rfl, rfl, rfl⟩
  · rw [schedule_send_busy _ (by exact h)] at h2
    simp at h2

/-- With a main message in flight the PREINIT_REPLY handler returns `-1` and
leaves the state, the main sending flag and the main progress as they were. -/
theorem preinit_reply_busy (env : handler_env) (inst : qdevice_net_instance) (msg : msg_decoded)
    (h : inst.sending_msg ≠ 0) :
    (qdevice_net_msg_received_preinit_reply env inst msg).1 = -1 ∧
    (qdevice_net_msg_received_preinit_reply env inst msg).2.state = inst.state ∧
    (qdevice_net_msg_received_preinit_reply env inst msg).2.sending_msg = inst.sending_msg ∧
    (qdevice_net_msg_received_preinit_reply env inst msg).2.msg_already_sent_bytes =
      inst.msg_already_sent_bytes := by
  obtain ⟨i1, i2, i3, i4⟩ := send_init_busy env.codec inst h
  unfold qdevice_net_msg_received_preinit_reply
  simp only []
  have hb := schedule_send_busy
    { inst with
      expected_msg_seq_num := uint32_inc inst.expected_msg_seq_num
      send_buffer := dynar_store inst.send_buffer
        (env.codec.msg_create_starttls inst.send_buffer true
          (uint32_inc inst.expected_msg_seq_num)).1 } h
  have hc := check_tls_compatibility_values msg.tls_supported inst.tls_supported
  split_ifs
  all_goals first
    | exact ⟨rfl, rfl, rfl, rfl⟩
    | exact ⟨rfl, i2, i3, i4⟩
    | (rw [hb]; exact ⟨rfl, rfl, rfl, rfl⟩)
    | (exfalso; simp_all)

/-- With a main message in flight the INIT_REPLY handler returns `-1` and leaves
the state, the main sending flag and the main progress as they were. -/
theorem init_reply_busy (env : handler_env) (inst : qdevice_net_instance) (msg : msg_decoded)
    (h : inst.sending_msg ≠ 0) :
    (qdevice_net_msg_received_init_reply env inst msg).1 = -1 ∧
    (qdevice_net_msg_received_init_reply env inst msg).2.state = inst.state ∧
    (qdevice_net_msg_received_init_reply env inst msg).2.sending_msg = inst.sending_msg ∧
    (qdevice_net_msg_received_init_reply env inst msg).2.msg_already_sent_bytes =
      inst.msg_already_sent_bytes := by
  by_cases hrej : init_reply_early_reject inst msg
  · rw [init_reply_early_reject_unchanged env inst msg hrej]
    exact ⟨rfl, rfl, rfl, rfl⟩
  have hpass := hrej
  unfold init_reply_early_reject at hpass
  push_neg at hpass
  obtain ⟨hs, h1, h2, h3, h4, h5, h6, h7, h8, h9⟩ := hpass
  obtain ⟨algorithms, halgs⟩ := Option.ne_none_iff_exists'.1 h7
  by_cases hmem : inst.decision_algorithm ∈ algorithms
  swap
  · rw [init_reply_algorithm_missing env inst msg algorithms hrej halgs hmem]
    exact ⟨rfl, rfl, rfl, rfl⟩
  have hc : qdevice_net_msg_check_seq_number inst msg = 0 :=
    (check_seq_number_eq_zero_iff inst msg).2 ⟨by simpa using h1, h2⟩
  have h3t : msg.server_maximum_request_size_set = true := by simpa using h3
  have h4t : msg.server_maximum_reply_size_set = true := by simpa using h4
  have h5t : msg.supported_messages.isNone = false := by
    cases hm : msg.supported_messages <;> simp_all
  have h6t : msg.supported_options.isNone = false := by
    cases hm : msg.supported_options <;> simp_all
  have h8t : ¬ msg.server_maximum_request_size < inst.min_send_size := by omega
  have h9t : ¬ msg.server_maximum_reply_size > inst.max_receive_size := by omega
  unfold qdevice_net_msg_received_init_reply
  by_cases henc : (env.codec.msg_create_set_option
      { data := inst.send_buffer.data, maximum_size := msg.server_maximum_request_size } true
      ((inst.expected_msg_seq_num + 1) % 4294967296) true inst.decision_algorithm true
      inst.heartbeat_interval).2 = 0
  · simp [hs, hc, h3t, h4t, h5t, h6t, halgs, h8t, h9t, decision_algorithm_loop_zero, hmem,
      uint32_inc, dynar_store, dynar_set_max_size, henc]
  · simp [hs, hc, h3t, h4t, h5t, h6t, halgs, h8t, h9t, decision_algorithm_loop_zero, hmem,
      qdevice_net_schedule_send, h, uint32_inc, dynar_store, dynar_set_max_size, henc]

/-- C21. At most one main-channel message is in flight. With `sending_msg` set,
`qdevice_net_schedule_send` returns `-1` and the instance is as it was; otherwise
it returns `0` with the main progress `0` and `sending_msg` `1` and nothing else
changed. Hence with `sending_msg` set each code path that enqueues a main message
(the PREINIT_REPLY handler for STARTTLS or INIT, `qdevice_net_send_init`, the
INIT_REPLY handler for SET_OPTION) returns `-1` whatever the message, and leaves
the state, `sending_msg` and the main progress as they were. -/
theorem schedule_send_one_in_flight (env : handler_env) (inst : qdevice_net_instance)
    (msg : msg_decoded) :
    (inst.sending_msg ≠ 0 → qdevice_net_schedule_send inst = (-1, inst)) ∧
    (inst.sending_msg = 0 →
      qdevice_net_schedule_send inst =
        (0, { inst with msg_already_sent_bytes := 0, sending_msg := 1 })) ∧
    (inst.sending_msg ≠ 0 →
      ((qdevice_net_msg_received_preinit_reply env inst msg).1 = -1 ∧
        (qdevice_net_msg_received_preinit_reply env inst msg).2.state = inst.state ∧
        (qdevice_net_msg_received_preinit_reply env inst msg).2.sending_msg = inst.sending_msg ∧
        (qdevice_net_msg_received_preinit_reply env inst msg).2.msg_already_sent_bytes =
          inst.msg_already_sent_bytes) ∧
      ((qdevice_net_send_init env.codec inst).1 = -1 ∧
        (qdevice_net_send_init env.codec inst).2.state = inst.state ∧
        (qdevice_net_send_init env.codec inst).2.sending_msg = inst.sending_msg ∧
        (qdevice_net_send_init env.codec inst).2.msg_already_sent_bytes =
          inst.msg_already_sent_bytes) ∧
      ((qdevice_net_msg_received_init_reply env inst msg).1 = -1 ∧
        (qdevice_net_msg_received_init_reply env inst msg).2.state = inst.state ∧
        (qdevice_net_msg_received_init_reply env inst msg).2.sending_msg = inst.sending_msg ∧
        (qdevice_net_msg_received_init_reply env inst msg).2.msg_already_sent_bytes =
          inst.msg_already_sent_bytes)) :=
  ⟨schedule_send_busy inst, schedule_send_idle inst,
    fun h => ⟨preinit_reply_busy env inst msg h, send_init_busy env.codec inst h,
      init_reply_busy env inst msg h⟩⟩

/-- Witness of C21: the sample client with PREINIT still unsent cannot schedule
another message and rejects a PREINIT_REPLY that is otherwise acceptable; with
INIT still unsent it rejects an INIT_REPLY that is otherwise acceptable; once the
message is written the scheduling succeeds. -/
theorem schedule_send_one_in_flight_witness :
    qdevice_net_schedule_send sample_main_scheduled = (-1, sample_main_scheduled) ∧
    (qdevice_net_schedule_send sample_instance).1 = 0 ∧
    (qdevice_net_msg_received_preinit_reply sample_env sample_main_scheduled
      (sample_preinit_reply 1 .TLV_TLS_UNSUPPORTED)).1 = -1 ∧
    (qdevice_net_msg_received_init_reply sample_env (sample_handshake_state 2)
      (sample_init_reply 2 [0])).1 = -1 ∧
    (qdevice_net_msg_received_init_reply sample_env (sample_handshake_state 2)
      (sample_init_reply 2 [0])).2.state = .QDEVICE_NET_STATE_WAITING_INIT_REPLY :=
  ⟨(schedule_send_one_in_flight sample_env sample_main_scheduled
      (sample_preinit_reply 1 .TLV_TLS_UNSUPPORTED)).1 (by decide),
    by rw [(schedule_send_one_in_flight sample_env sample_instance
      (sample_preinit_reply 1 .TLV_TLS_UNSUPPORTED)).2.1 (by decide)],
    ((schedule_send_one_in_flight sample_env sample_main_scheduled
      (sample_preinit_reply 1 .TLV_TLS_UNSUPPORTED)).2.2 (by decide)).1.1,
    ((schedule_send_one_in_flight sample_env (sample_handshake_state 2)
      (sample_init_reply 2 [0])).2.2 (by decide)).2.2.1,
    ((schedule_send_one_in_flight sample_env (sample_handshake_state 2)
      (sample_init_reply 2 [0])).2.2 (by decide)).2.2.2.1⟩

/-- The PREINIT_REPLY handler returns `0` or `-1`. -/
theorem preinit_reply_ret (env : handler_env) (inst : qdevice_net_instance) (msg : msg_decoded) :
    (qdevice_net_msg_received_preinit_reply env inst msg).1 = 0 ∨
    (qdevice_net_msg_received_preinit_reply env inst msg).1 = -1 := by
  unfold qdevice_net_msg_received_preinit_reply
  simp only []
  split_ifs <;> simp

/-- The INIT_REPLY handler returns `0` or `-1`. -/
theorem init_reply_ret (env : handler_env) (inst : qdevice_net_instance) (msg : msg_decoded) :
    (qdevice_net_msg_received_init_reply env inst msg).1 = 0 ∨
    (qdevice_net_msg_received_init_reply env inst msg).1 = -1 := by
  by_cases hrej : init_reply_early_reject inst msg
  · rw [init_reply_early_reject_unchanged env inst msg hrej]
    exact Or.inr rfl
  have hpass := hrej
  unfold init_reply_early_reject at hpass
  push_neg at hpass
  obtain ⟨algorithms, halgs⟩ := Option.ne_none_iff_exists'.1 hpass.2.2.2.2.2.2.2.1
  by_cases hmem : inst.decision_algorithm ∈ algorithms
  swap
  · rw [init_reply_algorithm_missing env inst msg algorithms hrej halgs hmem]
    exact Or.inr rfl
  by_cases hidle : inst.sending_msg = 0
  swap
  · exact Or.inr (init_reply_not_scheduled env inst msg algorithms hrej halgs hmem (Or.inr hidle))
  by_cases henc : (env.codec.msg_create_set_option
      (dynar_set_max_size inst.send_buffer msg.server_maximum_request_size) true
      ((inst.expected_msg_seq_num + 1) % 2 ^ 32) true inst.decision_algorithm true
      inst.heartbeat_interval).2 = 0
  · exact Or.inr (init_reply_not_scheduled env inst msg algorithms hrej halgs hmem (Or.inl henc))
  · rw [init_reply_algorithm_present env inst msg algorithms hrej halgs hmem hidle henc]
    exact Or.inl rfl

/-- The SET_OPTION_REPLY handler returns `0` or `-1`. -/
theorem set_option_reply_ret (env : handler_env) (inst : qdevice_net_instance)
    (msg : msg_decoded) :
    (qdevice_net_msg_received_set_option_reply env inst msg).1 = 0 ∨
    (qdevice_net_msg_received_set_option_reply env inst msg).1 = -1 := by
  unfold qdevice_net_msg_received_set_option_reply
  simp only []
  split_ifs <;> simp

/-- The dispatcher returns `0` or `-1`. -/
theorem msg_received_ret (env : handler_env) (decoded : Int × msg_decoded)
    (inst : qdevice_net_instance) :
    (qdevice_net_msg_received env decoded inst).1 = 0 ∨
    (qdevice_net_msg_received env decoded inst).1 = -1 := by
  unfold qdevice_net_msg_received
  by_cases hd : decoded.1 = 0
  swap
  · simp [hd]
  simp only [hd, ne_eq, not_true_eq_false, if_false]
  cases ht : decoded.2.type
  case pos.MSG_TYPE_PREINIT_REPLY => exact preinit_reply_ret env inst decoded.2
  case pos.MSG_TYPE_INIT_REPLY => exact init_reply_ret env inst decoded.2
  case pos.MSG_TYPE_SET_OPTION_REPLY => exact set_option_reply_ret env inst decoded.2
  case pos.MSG_TYPE_ECHO_REPLY =>
    show (qdevice_net_msg_received_echo_reply inst decoded.2).1 = 0 ∨ _
    rcases echo_reply_result inst decoded.2 with hr | ⟨_, hr⟩ <;> rw [hr] <;> simp
  all_goals exact Or.inr rfl

/-- `qdevice_net_socket_read` in terms of the result of the reader, the instance
the reader left and the dispatcher's result on it. -/
theorem socket_read_eq (env : io_env) (inst : qdevice_net_instance) :
    qdevice_net_socket_read env inst =
      if msgio_read_res env inst = 0 then
        { control := .returned 0, inst := after_msgio_read env inst, calls := [.msgio_read] }
      else if msgio_read_res env inst = -1 ∨ msgio_read_res env inst = -2 ∨
          msgio_read_res env inst = -3 ∨ msgio_read_res env inst = -4 ∨
          msgio_read_res env inst = -5 ∨ msgio_read_res env inst = -6 then
        { control := .returned (-1), inst := after_msgio_read env inst, calls := [.msgio_read] }
      else if msgio_read_res env inst = 1 then
        if (after_msgio_read env inst).skipping_msg = 0 then
          { control := .returned (if (socket_read_dispatch env inst).1 = -1 then -1 else 0)
            inst := { (socket_read_dispatch env inst).2 with
              skipping_msg := 0
              msg_already_received_bytes := 0
              receive_buffer := dynar_clean (socket_read_dispatch env inst).2.receive_buffer }
            calls := [.msgio_read, .qdevice_net_msg_received] }
        else
          { control := .exited, inst := after_msgio_read env inst, calls := [.msgio_read] }
      else
        { control := .exited, inst := after_msgio_read env inst, calls := [.msgio_read] } :=
  rfl

/-- C24. `qdevice_net_socket_read` as a function of the result of the frame
reader. For partial (`0`) it returns `0` and the instance is the one the reader
left. For full (`1`) with the skipping flag clear it hands the frame to the
dispatcher and returns the dispatcher's result, which is `0` or `-1`; in both
cases the instance afterwards is the one the dispatcher left with the skipping
flag `0`, the received-bytes progress `0` and the receive buffer empty. For each
of `-1` to `-6` it returns `-1`, the instance is the one the reader left and the
dispatcher is not called. -/
theorem socket_read_outcome (env : io_env) (inst : qdevice_net_instance) :
    (msgio_read_res env inst = 0 →
      qdevice_net_socket_read env inst =
        { control := .returned 0, inst := after_msgio_read env inst, calls := [.msgio_read] }) ∧
    (msgio_read_res env inst = 1 → (after_msgio_read env inst).skipping_msg = 0 →
      ((socket_read_dispatch env inst).1 = 0 ∨ (socket_read_dispatch env inst).1 = -1) ∧
      qdevice_net_socket_read env inst =
        { control := .returned (socket_read_dispatch env inst).1
          inst := { (socket_read_dispatch env inst).2 with
            skipping_msg := 0
            msg_already_received_bytes := 0
            receive_buffer :=
              { data := [],
                maximum_size := (socket_read_dispatch env inst).2.receive_buffer.maximum_size } }
          calls := [.msgio_read, .qdevice_net_msg_received] }) ∧
    (msgio_read_res env inst = -1 ∨ msgio_read_res env inst = -2 ∨
        msgio_read_res env inst = -3 ∨ msgio_read_res env inst = -4 ∨
        msgio_read_res env inst = -5 ∨ msgio_read_res env inst = -6 →
      qdevice_net_socket_read env inst =
        { control := .returned (-1), inst := after_msgio_read env inst,
          calls := [.msgio_read] }) := by
  rw [socket_read_eq]
  refine ⟨?_, ?_, ?_⟩
  · intro h
    simp [h]
  · intro h hskip
    have hret : (socket_read_dispatch env inst).1 = 0 ∨ (socket_read_dispatch env inst).1 = -1 :=
      msg_received_ret env.handlers _ _
    refine ⟨hret, ?_⟩
    rcases hret with h0 | h1
    · simp [h, hskip, h0, dynar_clean]
    · simp [h, hskip, h1, dynar_clean]
  · intro h
    have hne : msgio_read_res env inst ≠ 0 := by omega
    simp [hne, h]

/-- Witness of C24 on the sample client after its handshake: a partial read keeps
the bytes read so far, a complete ECHO_REPLY with the expected number is accepted
and a complete SERVER_ERROR is fatal, both leaving the receive buffer empty, and
an unsupported message type is fatal. -/
theorem socket_read_outcome_witness :
    ((qdevice_net_socket_read (sample_io_env_reading 0 (0, sample_echo_reply 0))
        sample_instance_steady).control = .returned 0 ∧
      (qdevice_net_socket_read (sample_io_env_reading 0 (0, sample_echo_reply 0))
        sample_instance_steady).inst.receive_buffer.data = [9, 1, 0]) ∧
    ((qdevice_net_socket_read (sample_io_env_reading 1 (0, sample_echo_reply 0))
        sample_instance_steady).control = .returned 0 ∧
      (qdevice_net_socket_read (sample_io_env_reading 1 (0, sample_echo_reply 0))
        sample_instance_steady).inst.receive_buffer.data = []) ∧
    ((qdevice_net_socket_read (sample_io_env_reading 1 (0, sample_server_error))
        sample_instance_steady).control = .returned (-1) ∧
      (qdevice_net_socket_read (sample_io_env_reading 1 (0, sample_server_error))
        sample_instance_steady).inst.receive_buffer.data = []) ∧
    (qdevice_net_socket_read (sample_io_env_reading (-5) (0, sample_echo_reply 0))
      sample_instance_steady).control = .returned (-1) := by
  refine ⟨?_, ?_, ?_, ?_⟩
  · rw [(socket_read_outcome (sample_io_env_reading 0 (0, sample_echo_reply 0))
      sample_instance_steady).1 (by decide)]
    exact ⟨rfl, by decide⟩
  · rw [((socket_read_outcome (sample_io_env_reading 1 (0, sample_echo_reply 0))
      sample_instance_steady).2.1 (by decide) (by decide)).2]
    exact ⟨by decide, rfl⟩
  · rw [((socket_read_outcome (sample_io_env_reading 1 (0, sample_server_error))
      sample_instance_steady).2.1 (by decide) (by decide)).2]
    exact ⟨by decide, rfl⟩
  · rw [(socket_read_outcome (sample_io_env_reading (-5) (0, sample_echo_reply 0))
      sample_instance_steady).2.2 (by decide)]

/-- A message that is not an accepted ECHO_REPLY leaves the counter of the echo
replies as it was. -/
theorem msg_received_reply_counter (env : handler_env) (decoded : Int × msg_decoded)
    (inst : qdevice_net_instance)
    (h : ¬ (decoded.1 = 0 ∧ decoded.2.type = .MSG_TYPE_ECHO_REPLY)) :
    (qdevice_net_msg_received env decoded inst).2.echo_reply_received_msg_seq_num =
      inst.echo_reply_received_msg_seq_num := by
  unfold qdevice_net_msg_received
  by_cases hd : decoded.1 = 0
  swap
  · simp [hd]
  simp only [hd, ne_eq, not_true_eq_false, if_false]
  cases ht : decoded.2.type
  case pos.MSG_TYPE_PREINIT_REPLY => exact (preinit_reply_main_frame env inst decoded.2).2.2.1
  case pos.MSG_TYPE_INIT_REPLY => exact (init_reply_main_frame env inst decoded.2).2.2.1
  case pos.MSG_TYPE_SET_OPTION_REPLY =>
    show (qdevice_net_msg_received_set_option_reply env inst decoded.2).2.echo_reply_received_msg_seq_num
      = _
    unfold qdevice_net_msg_received_set_option_reply
    simp only []
    split_ifs <;> rfl
  case pos.MSG_TYPE_ECHO_REPLY => exact absurd ⟨hd, ht⟩ h
  all_goals rfl

/-- One event that lets the connection go on keeps the relation of the echo
counters, with the pending flag updated by the event. -/
theorem step_echo_counters (pending : Bool) (inst s : qdevice_net_instance) (e : event)
    (h : step inst e = some s) (hi : echo_counters pending inst) :
    echo_counters (e.echo_unacknowledged pending) s := by
  obtain ⟨hr, he⟩ := hi
  have hebound : inst.echo_request_expected_msg_seq_num < 2 ^ 32 := by
    rw [he]
    split_ifs
    · exact Nat.mod_lt _ (by norm_num)
    · exact hr
  cases e with
  | received env decoded =>
    have hexp := step_other_counter inst s (.received env decoded) (fun c => by simp) h
    obtain ⟨_, hs⟩ := step_received env decoded inst s h
    by_cases hecho : decoded.1 = 0 ∧ decoded.2.type = .MSG_TYPE_ECHO_REPLY
    · have hm : qdevice_net_msg_received env decoded inst =
          qdevice_net_msg_received_echo_reply inst decoded.2 := by
        have hd : decoded = (0, decoded.2) := Prod.ext hecho.1 rfl
        rw [hd]
        exact msg_received_echo_reply env decoded.2 inst hecho.2
      have hacc := (step_received env decoded inst s h).1
      rw [hm] at hs hacc
      rcases echo_reply_result inst decoded.2 with hres | ⟨hseq, hres⟩
      · rw [hres] at hacc
        exact absurd rfl hacc
      · rw [hres] at hs
        have hsr : s.echo_reply_received_msg_seq_num = decoded.2.seq_number := by rw [hs]
        unfold event.echo_unacknowledged
        simp only [hecho, and_self, if_true]
        refine ⟨?_, ?_⟩
        · rw [hsr, hseq]
          exact hebound
        · rw [hexp, hsr, hseq]
          simp
    · have hrep := msg_received_reply_counter env decoded inst hecho
      rw [← hs] at hrep
      unfold event.echo_unacknowledged
      simp only [hecho, if_false]
      exact ⟨by rw [hrep]; exact hr, by rw [hexp, hrep]; exact he⟩
  | heartbeat codec =>
    unfold step at h
    simp only [] at h
    split_ifs at h with h1 h2
    simp only [Option.some.injEq] at h
    have hret : (qdevice_net_schedule_echo_request_send codec inst).1 = 0 := by
      rcases schedule_echo_request_send_ret codec inst with h0 | hm
      · exact h0
      · rw [((timer_send_heartbeat_eq codec inst).2 hm)] at h2
        simp at h2
    rw [(timer_send_heartbeat_eq codec inst).1 hret] at h
    obtain ⟨c1, c2⟩ := schedule_echo_request_send_counters codec inst hret
    rw [← h]
    unfold event.echo_unacknowledged
    refine ⟨?_, ?_⟩
    · show (qdevice_net_schedule_echo_request_send codec inst).2.echo_reply_received_msg_seq_num
        < 2 ^ 32
      rw [c2]
      exact hebound
    · show (qdevice_net_schedule_echo_request_send codec inst).2.echo_request_expected_msg_seq_num
        = _
      simp only [if_true]
      rw [c1]
      show _ = ((qdevice_net_schedule_echo_request_send codec
        inst).2.echo_reply_received_msg_seq_num + 1) % 2 ^ 32
      rw [c2]
  | write env =>
    have hexp := step_other_counter inst s (.write env) (fun c => by simp) h
    unfold step at h
    simp only [] at h
    split_ifs at h
    simp only [Option.some.injEq] at h
    have hrep := (socket_write_main_frame env inst).2.2.1
    rw [h] at hrep
    exact ⟨by rw [hrep]; exact hr, by rw [hexp, hrep]; exact he⟩

/-- A sequence of events that lets the connection go on keeps the relation of the
echo counters, with the pending flag updated along it. -/
theorem run_echo_counters (events : List event) (pending : Bool) (inst s : qdevice_net_instance)
    (h : run inst events = some s) (hi : echo_counters pending inst) :
    echo_counters (echo_unacknowledged inst pending events) s := by
  induction events generalizing inst pending with
  | nil =>
    simp only [run, Option.some.injEq] at h
    rw [← h]
    exact hi
  | cons e rest ih =>
    unfold run at h
    unfold echo_unacknowledged
    cases hs : step inst e with
    | none => simp [hs] at h
    | some m =>
      simp only [hs] at h ⊢
      exact ih _ m h (step_echo_counters pending inst m e hs hi)

/-- The echo scheduling fails while the two echo counters differ. -/
theorem schedule_echo_request_send_unacknowledged (codec : msg_codec)
    (inst : qdevice_net_instance)
    (h : inst.echo_reply_received_msg_seq_num ≠ inst.echo_request_expected_msg_seq_num) :
    (qdevice_net_schedule_echo_request_send codec inst).1 = -1 := by
  unfold qdevice_net_schedule_echo_request_send
  by_cases h1 : inst.sending_echo_request_msg = 0
  · simp [h1, h]
  · simp [h1]

/-- Accepting an ECHO_REPLY a second time changes nothing. -/
theorem echo_reply_accepted_twice (inst : qdevice_net_instance) (msg : msg_decoded)
    (h : (qdevice_net_msg_received_echo_reply inst msg).1 = 0) :
    qdevice_net_msg_received_echo_reply (qdevice_net_msg_received_echo_reply inst msg).2 msg =
      (0, (qdevice_net_msg_received_echo_reply inst msg).2) := by
  rcases echo_reply_result inst msg with hres | ⟨hseq, hres⟩
  · rw [hres] at h
    simp at h
  · rw [hres]
    have hset : msg.seq_number_set = true := by
      by_contra hn
      simp [qdevice_net_msg_received_echo_reply, qdevice_net_msg_check_echo_reply_seq_number,
        hn] at h
    simp [qdevice_net_msg_received_echo_reply, qdevice_net_msg_check_echo_reply_seq_number,
      hset, hseq]

/-- C26. The echo-counter invariant. In every state reached from a freshly
initialised instance, or from the instance as `main` starts the connection with,
through any sequence of received messages, heartbeat firings and writes, the
difference of `echo_request_expected_msg_seq_num` and
`echo_reply_received_msg_seq_num` modulo `2 ^ 32` is `1` when an echo request was
scheduled and no ECHO_REPLY was accepted since, and `0` otherwise. While it is `1`
a heartbeat firing schedules no further echo request (it ends the connection), so
at most one echo request is unacknowledged; and an ECHO_REPLY that is accepted is
accepted again with the instance as after the first acceptance. -/
theorem echo_counter_invariant (codec : msg_codec) (initial_receive_size initial_send_size
    min_send_size max_receive_size : Nat) (tls_supported : tlv_tls_supported) (node_id
    decision_algorithm heartbeat_interval : Nat) (host_addr : String) (host_port : Nat)
    (cluster_name : String) (socket : Nat) (s0 : qdevice_net_instance)
    (h0 : s0 = qdevice_net_instance_init initial_receive_size initial_send_size min_send_size
        max_receive_size tls_supported node_id decision_algorithm heartbeat_interval host_addr
        host_port cluster_name ∨
      main_schedule_preinit codec (main_instance tls_supported node_id decision_algorithm
        heartbeat_interval host_addr host_port cluster_name socket) = some s0)
    (events : List event) (s : qdevice_net_instance) (hrun : run s0 events = some s) :
    (s.echo_request_expected_msg_seq_num + 2 ^ 32 - s.echo_reply_received_msg_seq_num) % 2 ^ 32 =
      (if echo_unacknowledged s0 false events then 1 else 0) ∧
    (echo_unacknowledged s0 false events = true →
      ∀ codec : msg_codec, step s (.heartbeat codec) = none) ∧
    (∀ (env : handler_env) (msg : msg_decoded), msg.type = .MSG_TYPE_ECHO_REPLY →
      (qdevice_net_msg_received env (0, msg) s).1 = 0 →
      qdevice_net_msg_received env (0, msg) (qdevice_net_msg_received env (0, msg) s).2 =
        (0, (qdevice_net_msg_received env (0, msg) s).2)) := by
  have hstart : echo_counters false s0 := by
    rcases h0 with h0 | h0
    · rw [h0]
      exact ⟨by show (0 : Nat) < 2 ^ 32; norm_num, rfl⟩
    · obtain ⟨k1, k2, _⟩ := main_schedule_preinit_no_echo_yet codec tls_supported node_id
        decision_algorithm heartbeat_interval host_addr host_port cluster_name socket s0 h0
      exact ⟨by rw [k2]; norm_num, by rw [k1, k2]; rfl⟩
  have hinv := run_echo_counters events false s0 s hrun hstart
  obtain ⟨hr, he⟩ := hinv
  norm_num at hr
  refine ⟨?_, ?_, ?_⟩
  · rw [he]
    split_ifs
    · norm_num
      omega
    · norm_num
  · intro hp codec
    rw [hp] at he
    simp only [if_true] at he
    have hne : s.echo_reply_received_msg_seq_num ≠ s.echo_request_expected_msg_seq_num := by
      rw [he]
      norm_num
      omega
    have hm := schedule_echo_request_send_unacknowledged codec s hne
    unfold step
    simp only []
    split_ifs with h1 h2
    · rfl
    · rw [(timer_send_heartbeat_eq codec s).2 hm] at h2
      simp at h2
    · rfl
  · intro env msg ht h
    rw [msg_received_echo_reply env msg s ht] at h ⊢
    rw [msg_received_echo_reply env msg _ ht]
    exact echo_reply_accepted_twice s msg h

/-- Witness of C26 on the sample client: after its handshake and the first
heartbeat the counters differ by one and a second heartbeat ends the connection;
after the matching ECHO_REPLY they are equal again. -/
theorem echo_counter_invariant_witness :
    ((sample_handshake_state 6).echo_request_expected_msg_seq_num + 2 ^ 32 -
      (sample_handshake_state 6).echo_reply_received_msg_seq_num) % 2 ^ 32 = 0 ∧
    (((run sample_main_scheduled sample_first_heartbeat).getD
        sample_main_scheduled).echo_request_expected_msg_seq_num + 2 ^ 32 -
      ((run sample_main_scheduled sample_first_heartbeat).getD
        sample_main_scheduled).echo_reply_received_msg_seq_num) % 2 ^ 32 = 1 ∧
    step ((run sample_main_scheduled sample_first_heartbeat).getD sample_main_scheduled)
      (.heartbeat sample_codec) = none ∧
    (((run sample_main_scheduled sample_first_round).getD
        sample_main_scheduled).echo_request_expected_msg_seq_num + 2 ^ 32 -
      ((run sample_main_scheduled sample_first_round).getD
        sample_main_scheduled).echo_reply_received_msg_seq_num) % 2 ^ 32 = 0 := by
  have a := echo_counter_invariant sample_codec 0 0 0 0 .TLV_TLS_UNSUPPORTED 7 0 8000
    "qnetd.example" 5403 "cluster" 4 sample_main_scheduled (Or.inr sample_main_scheduled_eq)
    sample_handshake (sample_handshake_state 6) (by decide)
  have b := echo_counter_invariant sample_codec 0 0 0 0 .TLV_TLS_UNSUPPORTED 7 0 8000
    "qnetd.example" 5403 "cluster" 4 sample_main_scheduled (Or.inr sample_main_scheduled_eq)
    sample_first_heartbeat
    ((run sample_main_scheduled sample_first_heartbeat).getD sample_main_scheduled) (by decide)
  have c := echo_counter_invariant sample_codec 0 0 0 0 .TLV_TLS_UNSUPPORTED 7 0 8000
    "qnetd.example" 5403 "cluster" 4 sample_main_scheduled (Or.inr sample_main_scheduled_eq)
    sample_first_round
    ((run sample_main_scheduled sample_first_round).getD sample_main_scheduled) (by decide)
  have ha : echo_unacknowledged sample_main_scheduled false sample_handshake = false := by decide
  have hb : echo_unacknowledged sample_main_scheduled false sample_first_heartbeat = true := by
    decide
  have hc : echo_unacknowledged sample_main_scheduled false sample_first_round = false := by
    decide
  refine ⟨?_, ?_, b.2.1 hb sample_codec, ?_⟩
  · rw [a.1, ha]
    rfl
  · rw [b.1, hb]
    rfl
  · rw [c.1, hc]
    rfl

/-- C27, the failing run. The sample client receives a SET_OPTION_REPLY before the
PREINIT_REPLY; the heartbeat fires and the echo request is written completely;
then the PREINIT_REPLY schedules INIT. In the state reached the main sending flag
is set, the echo sending flag is clear and the echo progress is still `2`, and
`qdevice_net_socket_write` writes the echo-request buffer, not the main buffer. -/
theorem socket_write_stale_echo_progress :
    main_schedule_preinit sample_codec sample_main_instance = some sample_main_scheduled ∧
    run sample_main_scheduled sample_early_set_option_reply = some sample_instance_stale_echo ∧
    sample_instance_stale_echo.sending_msg = 1 ∧
    sample_instance_stale_echo.sending_echo_request_msg = 0 ∧
    sample_instance_stale_echo.echo_request_msg_already_sent_bytes = 2 ∧
    (qdevice_net_socket_write sample_io_env sample_instance_stale_echo).calls =
      [.msgio_write_echo_request_send_buffer] ∧
    (qdevice_net_socket_write sample_io_env sample_instance_stale_echo).inst.sending_msg = 1 := by
  decide

/-- C28, the failing run. After the sample handshake, whose last event is the
accepted SET_OPTION_REPLY, the same SET_OPTION_REPLY is accepted a second time:
the handler returns `0`, the timer list holds two heartbeat timers and
`echo_request_timer` is assigned a second time. -/
theorem set_option_reply_accepted_twice :
    main_schedule_preinit sample_codec sample_main_instance = some sample_main_scheduled ∧
    run sample_main_scheduled sample_handshake = some (sample_handshake_state 6) ∧
    (sample_handshake_state 6).main_timer_list.entries.length = 1 ∧
    (sample_handshake_state 6).echo_request_timer =
      some { id := 0, interval := 8000, func := .qdevice_net_timer_send_heartbeat } ∧
    (qdevice_net_msg_received_set_option_reply sample_env (sample_handshake_state 6)
      (sample_set_option_reply 3)).1 = 0 ∧
    (run sample_main_scheduled sample_duplicate_set_option_reply).map
      (fun s => (s.main_timer_list.entries.length, s.echo_request_timer)) =
      some (2, some { id := 1, interval := 8000, func := .qdevice_net_timer_send_heartbeat }) := by
  decide

/-- A sequence whose first part reached its end. -/
theorem andThen_fallthrough (o : outcome) (f : qdevice_net_instance → outcome)
    (h : o.control = .fallthrough) :
    o.andThen f = { f o.inst with calls := o.calls ++ (f o.inst).calls } := by
  unfold outcome.andThen
  simp [h]

/-- A sequence whose first part returned or ended the process. -/
theorem andThen_stop (o : outcome) (f : qdevice_net_instance → outcome)
    (h : o.control ≠ .fallthrough) : o.andThen f = o := by
  unfold outcome.andThen
  cases hc : o.control with
  | fallthrough => exact absurd hc h
  | returned v => rfl
  | exited => rfl

/-- Reading leaves the disconnect flag as it was. -/
theorem socket_read_schedule_disconnect (env : io_env) (inst : qdevice_net_instance) :
    (qdevice_net_socket_read env inst).inst.schedule_disconnect = inst.schedule_disconnect := by
  have hf : (socket_read_dispatch env inst).2.schedule_disconnect =
      (after_msgio_read env inst).schedule_disconnect :=
    (msg_received_frame env.handlers _ _).2.2.2.2.2.1
  rw [socket_read_eq]
  split_ifs
  all_goals first
    | rfl
    | exact hf

/-- The write-finished hook leaves the disconnect flag as it was. -/
theorem socket_write_finished_schedule_disconnect (env : io_env)
    (inst : qdevice_net_instance) :
    (qdevice_net_socket_write_finished env inst).inst.schedule_disconnect =
      inst.schedule_disconnect := by
  have hf := (send_init_frame env.handlers.codec inst).2.2.2.2.2.1
  unfold qdevice_net_socket_write_finished
  split_ifs
  · cases env.nss_sock_start_ssl_as_client inst.socket with
    | none => rfl
    | some fd =>
      simp only []
      split_ifs
      · exact hf
      · exact hf
  · rfl

/-- Writing leaves the disconnect flag as it was. -/
theorem socket_write_schedule_disconnect (env : io_env) (inst : qdevice_net_instance) :
    (qdevice_net_socket_write env inst).inst.schedule_disconnect = inst.schedule_disconnect := by
  have hf := fun x => socket_write_finished_schedule_disconnect env x
  unfold qdevice_net_socket_write
  simp only []
  split_ifs
  all_goals first
    | rfl
    | exact hf _

/-- The read branch of the loop body for the server socket, entered with the
disconnect flag clear: it reaches its end or ends the process, it marks the
disconnect exactly when readable was reported and the read returned `-1`, and it
calls neither the writer nor the timer expiry. -/
theorem poll_socket_read_summary (env : io_env) (flags : poll_flags)
    (inst : qdevice_net_instance) (h0 : inst.schedule_disconnect = 0) :
    ((poll_socket_read env flags inst).control = .fallthrough ∨
      (poll_socket_read env flags inst).control = .exited) ∧
    ((poll_socket_read env flags inst).control = .fallthrough →
      ((poll_socket_read env flags inst).inst.schedule_disconnect ≠ 0 ↔
        flags.read = true ∧ (qdevice_net_socket_read env inst).control = .returned (-1))) ∧
    (∀ i, io_call.qdevice_net_socket_write i ∉ (poll_socket_read env flags inst).calls) ∧
    io_call.timer_list_expire ∉ (poll_socket_read env flags inst).calls := by
  have hsd := socket_read_schedule_disconnect env inst
  rw [h0] at hsd
  have hcalls : ∀ c, c ∈ (qdevice_net_socket_read env inst).calls →
      c = .msgio_read ∨ c = .qdevice_net_msg_received := socket_read_calls env inst
  have hw : ∀ i, io_call.qdevice_net_socket_write i ∉ (qdevice_net_socket_read env inst).calls := by
    intro i hi
    rcases hcalls _ hi with h | h <;> exact absurd h (by simp)
  have ht : io_call.timer_list_expire ∉ (qdevice_net_socket_read env inst).calls := by
    intro hi
    rcases hcalls _ hi with h | h <;> exact absurd h (by simp)
  unfold poll_socket_read
  by_cases hr : flags.read = true
  · simp only [hr, if_true]
    cases hc : (qdevice_net_socket_read env inst).control with
    | fallthrough => simp [hsd, hw, ht]
    | returned v =>
      by_cases hv : v = -1
      · simp [hv, hw, ht]
      · simp [hv, hsd, hw, ht]
    | exited => simp [hw, ht]
  · simp [hr, h0]

/-- The write branch of the loop body for the server socket: it reaches its end,
and afterwards the disconnect is marked exactly when it was before or writable was
reported and the write returned `-1`; it does not call the timer expiry. -/
theorem poll_socket_write_summary (env : io_env) (flags : poll_flags)
    (inst : qdevice_net_instance) :
    (poll_socket_write env flags inst).control = .fallthrough ∧
    ((poll_socket_write env flags inst).inst.schedule_disconnect ≠ 0 ↔
      inst.schedule_disconnect ≠ 0 ∨
      (flags.write = true ∧ (qdevice_net_socket_write env inst).control = .returned (-1))) ∧
    (inst.schedule_disconnect ≠ 0 →
      ∀ i, io_call.qdevice_net_socket_write i ∉ (poll_socket_write env flags inst).calls) ∧
    io_call.timer_list_expire ∉ (poll_socket_write env flags inst).calls := by
  have hsd := socket_write_schedule_disconnect env inst
  have ht : io_call.timer_list_expire ∉ (qdevice_net_socket_write env inst).calls := by
    intro hi
    rcases socket_write_calls env inst _ hi with h | h | h | h <;> exact absurd h (by simp)
  unfold poll_socket_write
  by_cases h0 : inst.schedule_disconnect = 0
  · by_cases hwf : flags.write = true
    · rw [h0] at hsd
      by_cases hc : (qdevice_net_socket_write env inst).control = .returned (-1)
      · simp [h0, hwf, hc, ht]
      · simp [h0, hwf, hc, hsd, ht]
    · simp [h0, hwf]
  · simp [h0]

/-- The loop body for the server socket, entered with the disconnect flag clear.
It reaches its end, returns `-1` or ends the process. It returns `-1` only when an
error event was reported. When it reaches its end, the disconnect is marked
exactly when the read or the write failed, and it is marked when an error event
was reported. After a failed read the writer is not called. -/
theorem poll_socket_summary (env : io_env) (flags : poll_flags) (inst : qdevice_net_instance)
    (h0 : inst.schedule_disconnect = 0) :
    ((qdevice_net_poll_socket env flags inst).control = .fallthrough ∨
      (qdevice_net_poll_socket env flags inst).control = .returned (-1) ∨
      (qdevice_net_poll_socket env flags inst).control = .exited) ∧
    ((qdevice_net_poll_socket env flags inst).control = .returned (-1) → flags.error = true) ∧
    ((qdevice_net_poll_socket env flags inst).control = .fallthrough →
      ((qdevice_net_poll_socket env flags inst).inst.schedule_disconnect ≠ 0 ↔
        (flags.read = true ∧ (qdevice_net_socket_read env inst).control = .returned (-1)) ∨
        (flags.write = true ∧
          (poll_socket_read env flags inst).control = .fallthrough ∧
          (poll_socket_read env flags inst).inst.schedule_disconnect = 0 ∧
          (qdevice_net_socket_write env (poll_socket_read env flags inst).inst).control =
            .returned (-1)))) ∧
    (flags.error = true → (qdevice_net_poll_socket env flags inst).control = .fallthrough →
      (qdevice_net_poll_socket env flags inst).inst.schedule_disconnect ≠ 0) ∧
    (flags.read = true ∧ (qdevice_net_socket_read env inst).control = .returned (-1) →
      ∀ i, io_call.qdevice_net_socket_write i ∉ (qdevice_net_poll_socket env flags inst).calls) ∧
    io_call.timer_list_expire ∉ (qdevice_net_poll_socket env flags inst).calls := by
  obtain ⟨r1, r2, r3, r4⟩ := poll_socket_read_summary env flags inst h0
  obtain ⟨w1, w2, w3, w4⟩ := poll_socket_write_summary env flags (poll_socket_read env flags inst).inst
  unfold qdevice_net_poll_socket
  rcases r1 with hr | hr
  swap
  · rw [andThen_stop _ _ (by rw [hr]; simp)]
    refine ⟨Or.inr (Or.inr hr), ?_, ?_, ?_, ?_, r4⟩
    · intro h
      rw [hr] at h
      simp at h
    · intro h
      rw [hr] at h
      simp at h
    · intro _ h
      rw [hr] at h
      simp at h
    · intro _ i
      exact r3 i
  have r2 := r2 hr
  rw [andThen_fallthrough _ _ hr, andThen_fallthrough _ _ w1]
  unfold poll_socket_error
  by_cases hsd : (poll_socket_write env flags (poll_socket_read env flags inst).inst).inst.schedule_disconnect = 0
  · have hnr : ¬ (flags.read = true ∧
        (qdevice_net_socket_read env inst).control = .returned (-1)) := by
      intro hc
      have := r2.2 hc
      have h3 := w2.2 (Or.inl this)
      exact h3 hsd
    have hrsd : (poll_socket_read env flags inst).inst.schedule_disconnect = 0 := by
      by_contra hc
      exact (w2.2 (Or.inl hc)) hsd
    have hnw : ¬ (flags.write = true ∧
        (qdevice_net_socket_write env (poll_socket_read env flags inst).inst).control =
          .returned (-1)) := by
      intro hc
      exact (w2.2 (Or.inr hc)) hsd
    by_cases he : flags.error = true
    · have hE : (if (poll_socket_write env flags
            (poll_socket_read env flags inst).inst).inst.schedule_disconnect = 0 ∧
            flags.error = true then
          ({ control := .returned (-1),
             inst := (poll_socket_write env flags (poll_socket_read env flags inst).inst).inst,
             calls := [] } : outcome)
          else
            { control := .fallthrough,
              inst := (poll_socket_write env flags (poll_socket_read env flags inst).inst).inst,
              calls := [] }) =
          { control := .returned (-1),
            inst := (poll_socket_write env flags (poll_socket_read env flags inst).inst).inst,
            calls := [] } := if_pos ⟨hsd, he⟩
      rw [hE]
      refine ⟨Or.inr (Or.inl rfl), fun _ => he, ?_, ?_, ?_, ?_⟩
      · intro h
        simp at h
      · intro _ h
        simp at h
      · intro hc
        exact absurd hc hnr
      · simp [r4, w4]
    · have hE : (if (poll_socket_write env flags
            (poll_socket_read env flags inst).inst).inst.schedule_disconnect = 0 ∧
            flags.error = true then
          ({ control := .returned (-1),
             inst := (poll_socket_write env flags (poll_socket_read env flags inst).inst).inst,
             calls := [] } : outcome)
          else
            { control := .fallthrough,
              inst := (poll_socket_write env flags (poll_socket_read env flags inst).inst).inst,
              calls := [] }) =
          { control := .fallthrough,
            inst := (poll_socket_write env flags (poll_socket_read env flags inst).inst).inst,
            calls := [] } := if_neg (fun hc => he hc.2)
      rw [hE]
      refine ⟨Or.inl rfl, ?_, ?_, ?_, ?_, ?_⟩
      · intro h
        simp at h
      · intro _
        constructor
        · intro h
          exact absurd hsd h
        · intro h
          rcases h with h | ⟨h1, _, _, h2⟩
          · exact absurd h hnr
          · exact absurd ⟨h1, h2⟩ hnw
      · intro h
        exact absurd h he
      · intro hc
        exact absurd hc hnr
      · simp [r4, w4]
  · have hE : (if (poll_socket_write env flags
          (poll_socket_read env flags inst).inst).inst.schedule_disconnect = 0 ∧
          flags.error = true then
        ({ control := .returned (-1),
           inst := (poll_socket_write env flags (poll_socket_read env flags inst).inst).inst,
           calls := [] } : outcome)
        else
          { control := .fallthrough,
            inst := (poll_socket_write env flags (poll_socket_read env flags inst).inst).inst,
            calls := [] }) =
        { control := .fallthrough,
          inst := (poll_socket_write env flags (poll_socket_read env flags inst).inst).inst,
          calls := [] } := if_neg (fun hc => hsd hc.1)
    rw [hE]
    refine ⟨Or.inl rfl, ?_, ?_, ?_, ?_, ?_⟩
    · intro h
      simp at h
    · intro _
      constructor
      · intro _
        rcases w2.1 hsd with h | h
        · exact Or.inl (r2.1 h)
        · by_cases hrsd : (poll_socket_read env flags inst).inst.schedule_disconnect = 0
          · exact Or.inr ⟨h.1, hr, hrsd, h.2⟩
          · exact Or.inl (r2.1 hrsd)
      · intro _
        exact hsd
    · intro _ _
      exact hsd
    · intro hc i hi
      simp only [List.append_nil, List.mem_append] at hi
      rcases hi with hi | hi
      · exact r3 i hi
      · exact w3 (r2.2 hc) i hi
    · simp [r4, w4]

/-- The loop body for the votequorum descriptor: it leaves the instance as it was,
reaches its end or ends the process, and calls neither the writer nor the timer
expiry. -/
theorem poll_votequorum_summary (env : io_env) (flags : poll_flags)
    (inst : qdevice_net_instance) :
    (qdevice_net_poll_votequorum env flags inst).inst = inst ∧
    ((qdevice_net_poll_votequorum env flags inst).control = .fallthrough ∨
      (qdevice_net_poll_votequorum env flags inst).control = .exited) ∧
    (∀ i, io_call.qdevice_net_socket_write i ∉ (qdevice_net_poll_votequorum env flags inst).calls) ∧
    io_call.timer_list_expire ∉ (qdevice_net_poll_votequorum env flags inst).calls := by
  refine ⟨?_, ?_, ?_, ?_⟩
  · unfold qdevice_net_poll_votequorum poll_votequorum_read poll_votequorum_unhandled
      outcome.andThen
    split_ifs <;> simp <;> split_ifs <;> simp
  · unfold qdevice_net_poll_votequorum poll_votequorum_read poll_votequorum_unhandled
      outcome.andThen
    split_ifs <;> simp <;> split_ifs <;> simp
  · intro i hi
    exact absurd (poll_votequorum_calls env flags inst _ hi) (by simp)
  · intro hi
    exact absurd (poll_votequorum_calls env flags inst _ hi) (by simp)

/-- The handling of the two descriptors in one iteration. It reaches its end,
returns `-1` or ends the process. It returns `-1` only on an error event of the
server socket. When it reaches its end the disconnect is marked exactly when the
read or the write failed, and it is marked when an error event was reported.
After a failed read the writer is not called, and the timers are not expired in
this part. -/
theorem poll_handled_summary (env : io_env) (inst : qdevice_net_instance) :
    ((poll_handled env inst).control = .fallthrough ∨
      (poll_handled env inst).control = .returned (-1) ∨
      (poll_handled env inst).control = .exited) ∧
    ((poll_handled env inst).control = .returned (-1) → poll_socket_error_event env inst) ∧
    ((poll_handled env inst).control = .fallthrough →
      ((poll_handled env inst).inst.schedule_disconnect ≠ 0 ↔
        poll_read_failed env inst ∨ poll_write_failed env inst)) ∧
    (poll_socket_error_event env inst → (poll_handled env inst).control = .fallthrough →
      (poll_handled env inst).inst.schedule_disconnect ≠ 0) ∧
    (poll_read_failed env inst →
      ∀ i, io_call.qdevice_net_socket_write i ∉ (poll_handled env inst).calls) ∧
    io_call.timer_list_expire ∉ (poll_handled env inst).calls := by
  unfold poll_handled poll_descriptors poll_socket_error_event poll_read_failed poll_write_failed
  by_cases hp : (poll_reported env inst).1 > 0
  swap
  · simp [hp, poll_cleared]
  simp only [hp, if_true, true_and]
  obtain ⟨s1, s2, s3, s4, s5, s6⟩ := poll_socket_summary env (poll_reported env inst).2.1
    (poll_cleared inst) rfl
  obtain ⟨v1, v2, v3, v4⟩ := poll_votequorum_summary env (poll_reported env inst).2.2
    (qdevice_net_poll_socket env (poll_reported env inst).2.1 (poll_cleared inst)).inst
  by_cases hs : (qdevice_net_poll_socket env (poll_reported env inst).2.1
      (poll_cleared inst)).control = .fallthrough
  · rw [andThen_fallthrough _ _ hs]
    have s3 := s3 hs
    have s4 := fun h => s4 h hs
    refine ⟨?_, ?_, ?_, ?_, ?_, ?_⟩
    · rcases v2 with h | h
      · exact Or.inl h
      · exact Or.inr (Or.inr h)
    · intro h
      rcases v2 with h2 | h2
      · exact absurd (h2.symm.trans h) (by simp)
      · exact absurd (h2.symm.trans h) (by simp)
    · intro _
      show (qdevice_net_poll_votequorum env _ _).inst.schedule_disconnect ≠ 0 ↔ _
      rw [v1]
      exact s3
    · intro h _
      show (qdevice_net_poll_votequorum env _ _).inst.schedule_disconnect ≠ 0
      rw [v1]
      exact s4 h
    · intro h i hi
      simp only [List.mem_append] at hi
      rcases hi with hi | hi
      · exact s5 h i hi
      · exact v3 i hi
    · intro hi
      simp only [List.mem_append] at hi
      rcases hi with hi | hi
      · exact s6 hi
      · exact v4 hi
  · rw [andThen_stop _ _ hs]
    refine ⟨s1, s2, ?_, ?_, s5, s6⟩
    · intro h
      exact absurd h hs
    · intro _ h
      exact absurd h hs

/-- The end of an iteration: it returns `-1` or `0`; the timers are expired
exactly when no disconnect is marked; it returns `-1` exactly when a disconnect is
marked before or after the expiry; it never calls the writer. -/
theorem poll_expire_and_return_summary (env : io_env) (inst : qdevice_net_instance) :
    ((poll_expire_and_return env inst).control = .returned (-1) ∨
      (poll_expire_and_return env inst).control = .returned 0) ∧
    (io_call.timer_list_expire ∈ (poll_expire_and_return env inst).calls ↔
      inst.schedule_disconnect = 0) ∧
    ((poll_expire_and_return env inst).control = .returned (-1) ↔
      inst.schedule_disconnect ≠ 0 ∨
      (inst.schedule_disconnect = 0 ∧ (timer_list_expire env inst).1.schedule_disconnect ≠ 0)) ∧
    ((poll_expire_and_return env inst).control = .returned 0 →
      (poll_expire_and_return env inst).inst.schedule_disconnect = 0) ∧
    (∀ i, io_call.qdevice_net_socket_write i ∉ (poll_expire_and_return env inst).calls) := by
  have hw : ∀ i, io_call.qdevice_net_socket_write i ∉ (poll_expire_and_return env inst).calls := by
    intro i hi
    rcases poll_expire_and_return_calls env inst _ hi with h | h <;> exact absurd h (by simp)
  refine ⟨?_, ?_, ?_, ?_, hw⟩
  all_goals
    unfold poll_expire_and_return outcome.andThen
    by_cases h0 : inst.schedule_disconnect = 0
    · by_cases h1 : (timer_list_expire env inst).1.schedule_disconnect = 0
      · simp [h0, h1]
      · simp [h0, h1]
    · simp [h0]

/-- One iteration of the event loop as the poll call followed by the handling of
the descriptors and the end of the iteration. -/
theorem poll_eq (env : io_env) (inst : qdevice_net_instance) :
    qdevice_net_poll env inst =
      { (poll_handled env inst).andThen (poll_expire_and_return env) with
        calls := .PR_Poll (poll_socket_in_flags inst) ::
          ((poll_handled env inst).andThen (poll_expire_and_return env)).calls } :=
  rfl

/-- One iteration of `qdevice_net_poll` apart from the ending of the process: the
clearing of the disconnect flag, the writer after a failed read, the socket error
event, the expiry of the timers and the return value. -/
theorem poll_iteration_returning (env : io_env) (inst : qdevice_net_instance) :
    qdevice_net_poll env inst = qdevice_net_poll env (poll_cleared inst) ∧
    (poll_read_failed env inst →
      ∀ i, io_call.qdevice_net_socket_write i ∉ (qdevice_net_poll env inst).calls) ∧
    (poll_socket_error_event env inst →
      (qdevice_net_poll env inst).control = .returned (-1) ∨
      (qdevice_net_poll env inst).control = .exited) ∧
    (io_call.timer_list_expire ∈ (qdevice_net_poll env inst).calls ↔
      (poll_handled env inst).control = .fallthrough ∧ ¬ poll_read_failed env inst ∧
      ¬ poll_write_failed env inst) ∧
    ((qdevice_net_poll env inst).control = .returned (-1) ∨
      (qdevice_net_poll env inst).control = .returned 0 ∨
      (qdevice_net_poll env inst).control = .exited) ∧
    ((qdevice_net_poll env inst).control = .returned (-1) ↔
      (qdevice_net_poll env inst).control ≠ .exited ∧
      (poll_read_failed env inst ∨ poll_write_failed env inst ∨
        poll_socket_error_event env inst ∨
        (io_call.timer_list_expire ∈ (qdevice_net_poll env inst).calls ∧
          poll_timer_marked env inst))) := by
  refine ⟨rfl, ?_⟩
  obtain ⟨a1, a2, a3, a4, a5, a6⟩ := poll_handled_summary env inst
  obtain ⟨e1, e2, e3, e4, e5⟩ := poll_expire_and_return_summary env (poll_handled env inst).inst
  rw [poll_eq]
  unfold poll_timer_marked
  by_cases hh : (poll_handled env inst).control = .fallthrough
  · rw [andThen_fallthrough _ _ hh]
    have a3 := a3 hh
    have a4 := fun h => a4 h hh
    simp only [List.mem_cons, List.mem_append]
    have hsdiff : (poll_handled env inst).inst.schedule_disconnect = 0 ↔
        ¬ poll_read_failed env inst ∧ ¬ poll_write_failed env inst := by
      rw [← not_or, ← a3]
      simp
    refine ⟨?_, ?_, ?_, ?_, ?_⟩
    · intro h i hi
      rcases hi with hi | hi | hi
      · exact absurd hi (by simp)
      · exact a5 h i hi
      · exact e5 i hi
    · intro h
      exact Or.inl (e3.2 (Or.inl (a4 h)))
    · constructor
      · intro h
        rcases h with h | h | h
        · exact absurd h (by simp)
        · exact absurd h a6
        · exact ⟨hh, hsdiff.1 (e2.1 h)⟩
      · intro h
        exact Or.inr (Or.inr (e2.2 (hsdiff.2 h.2)))
    · rcases e1 with h | h
      · exact Or.inl h
      · exact Or.inr (Or.inl h)
    · constructor
      · intro h
        refine ⟨?_, ?_⟩
        · intro hc
          exact absurd (h.symm.trans hc) (by simp)
        · rcases e3.1 h with h1 | ⟨h1, h2⟩
          · rcases a3.1 h1 with h3 | h3
            · exact Or.inl h3
            · exact Or.inr (Or.inl h3)
          · exact Or.inr (Or.inr (Or.inr ⟨Or.inr (Or.inr (e2.2 h1)), h2⟩))
      · intro h
        rcases h.2 with h1 | h1 | h1 | ⟨_, h1⟩
        · exact e3.2 (Or.inl (a3.2 (Or.inl h1)))
        · exact e3.2 (Or.inl (a3.2 (Or.inr h1)))
        · exact e3.2 (Or.inl (a4 h1))
        · by_cases h0 : (poll_handled env inst).inst.schedule_disconnect = 0
          · exact e3.2 (Or.inr ⟨h0, h1⟩)
          · exact e3.2 (Or.inl h0)
  · rw [andThen_stop _ _ hh]
    simp only [List.mem_cons]
    have hctl : (poll_handled env inst).control = .returned (-1) ∨
        (poll_handled env inst).control = .exited := by
      rcases a1 with h | h | h
      · exact absurd h hh
      · exact Or.inl h
      · exact Or.inr h
    refine ⟨?_, ?_, ?_, ?_, ?_⟩
    · intro h i hi
      rcases hi with hi | hi
      · exact absurd hi (by simp)
      · exact a5 h i hi
    · intro _
      exact hctl
    · constructor
      · intro h
        rcases h with h | h
        · exact absurd h (by simp)
        · exact absurd h a6
      · intro h
        exact absurd h.1 hh
    · rcases hctl with h | h
      · exact Or.inl h
      · exact Or.inr (Or.inr h)
    · constructor
      · intro h
        refine ⟨?_, Or.inr (Or.inr (Or.inl (a2 h)))⟩
        intro hc
        exact absurd (h.symm.trans hc) (by simp)
      · intro h
        rcases hctl with h1 | h1
        · exact h1
        · exact absurd h1 h.1

/-- The loop body for the server socket ends the process exactly when readable
was reported and the read handler ends it. -/
theorem poll_socket_exited (env : io_env) (flags : poll_flags) (inst : qdevice_net_instance) :
    (qdevice_net_poll_socket env flags inst).control = .exited ↔
      flags.read = true ∧ (qdevice_net_socket_read env inst).control = .exited := by
  have hw := (poll_socket_write_summary env flags (poll_socket_read env flags inst).inst).1
  have hr : (poll_socket_read env flags inst).control = .exited ↔
      flags.read = true ∧ (qdevice_net_socket_read env inst).control = .exited := by
    unfold poll_socket_read
    by_cases hf : flags.read = true
    · simp only [hf, if_true, true_and]
      cases hc : (qdevice_net_socket_read env inst).control <;> simp
    · simp [hf]
  have hrc : (poll_socket_read env flags inst).control = .fallthrough ∨
      (poll_socket_read env flags inst).control = .exited := by
    unfold poll_socket_read
    by_cases hf : flags.read = true
    · simp only [hf, if_true]
      cases hc : (qdevice_net_socket_read env inst).control <;> simp
    · simp [hf]
  unfold qdevice_net_poll_socket
  rcases hrc with h | h
  · rw [andThen_fallthrough _ _ h, andThen_fallthrough _ _ hw]
    rw [← hr, h]
    unfold poll_socket_error
    split_ifs <;> simp
  · rw [andThen_stop _ _ (by rw [h]; simp)]
    exact hr

/-- The loop body for the votequorum descriptor ends the process exactly when the
dispatch fails or, no disconnect being marked, a write or an error event is
reported. -/
theorem poll_votequorum_exited (env : io_env) (flags : poll_flags)
    (inst : qdevice_net_instance) :
    (qdevice_net_poll_votequorum env flags inst).control = .exited ↔
      (flags.read = true ∧ env.votequorum_dispatch_ok = false) ∨
      (inst.schedule_disconnect = 0 ∧ (flags.write = true ∨ flags.error = true)) := by
  unfold qdevice_net_poll_votequorum poll_votequorum_read poll_votequorum_unhandled
    outcome.andThen
  cases hr : flags.read <;> cases hw : flags.write <;> cases he : flags.error <;>
    cases hd : env.votequorum_dispatch_ok <;>
    by_cases h0 : inst.schedule_disconnect = 0 <;> simp [h0]

/-- One iteration of the event loop ends the process exactly in the cases of
`poll_process_ended`. -/
theorem poll_exited_iff (env : io_env) (inst : qdevice_net_instance) :
    (qdevice_net_poll env inst).control = .exited ↔ poll_process_ended env inst := by
  obtain ⟨e1, _⟩ := poll_expire_and_return_summary env (poll_handled env inst).inst
  obtain ⟨v1, _⟩ := poll_votequorum_summary env (poll_reported env inst).2.2
    (qdevice_net_poll_socket env (poll_reported env inst).2.1 (poll_cleared inst)).inst
  have hs := poll_socket_exited env (poll_reported env inst).2.1 (poll_cleared inst)
  have hv := poll_votequorum_exited env (poll_reported env inst).2.2
    (qdevice_net_poll_socket env (poll_reported env inst).2.1 (poll_cleared inst)).inst
  have hhandled : (poll_handled env inst).control = .exited ↔ poll_process_ended env inst := by
    unfold poll_handled poll_descriptors poll_process_ended
    by_cases hp : (poll_reported env inst).1 > 0
    swap
    · simp [hp]
    simp only [hp, if_true, true_and]
    by_cases hf : (qdevice_net_poll_socket env (poll_reported env inst).2.1
        (poll_cleared inst)).control = .fallthrough
    · rw [andThen_fallthrough _ _ hf]
      have hne : ¬ ((poll_reported env inst).2.1.read = true ∧
          (qdevice_net_socket_read env (poll_cleared inst)).control = .exited) := by
        intro hc
        have := hs.2 hc
        rw [hf] at this
        exact absurd this (by simp)
      constructor
      · intro h
        exact Or.inr ⟨hf, hv.1 h⟩
      · intro h
        rcases h with h | ⟨_, h⟩
        · exact absurd h hne
        · exact hv.2 h
    · rw [andThen_stop _ _ hf]
      constructor
      · intro h
        exact Or.inl (hs.1 h)
      · intro h
        rcases h with h | ⟨h, _⟩
        · exact hs.2 h
        · exact absurd h hf
  rw [← hhandled, poll_eq]
  by_cases hh : (poll_handled env inst).control = .fallthrough
  · rw [andThen_fallthrough _ _ hh, hh]
    constructor
    · intro h
      rcases e1 with h1 | h1
      · exact absurd (h1.symm.trans h) (by simp)
      · exact absurd (h1.symm.trans h) (by simp)
    · intro h
      exact absurd h (by simp)
  · rw [andThen_stop _ _ hh]

/-- C22, the failing input. The check of the port reads the string after it was
freed. With the port string "5403" and a freed block that the allocator has
overwritten, the byte read through `ep` is not the terminator and `errx` ends the
process: the valid port is rejected and no instance is initialised. Where the
freed block still holds the string, "5403", "65535" and "1" are accepted as they
stand, "65536", "0", "-5", "80x" and the empty string are fatal, and
"4294967297" is accepted: `strtol` yields `2 ^ 32 + 1` and the `int host_port`
takes the value `1`. -/
theorem port_check_reads_freed_string :
    strtol (c_str "5403") = (5403, []) ∧
    init_from_cmap_host_port 5403 read_freed_overwritten (some "5403") = none ∧
    qdevice_net_instance_init_from_cmap sample_cmap_defaults
      (sample_cmap none (some "5403")) = none ∧
    init_from_cmap_host_port 5403 read_freed_overwritten (some "1") = none ∧
    init_from_cmap_host_port 5403 read_freed_overwritten none = some 5403 ∧
    init_from_cmap_host_port 5403 read_freed_intact (some "5403") = some 5403 ∧
    init_from_cmap_host_port 5403 read_freed_intact (some "65535") = some 65535 ∧
    init_from_cmap_host_port 5403 read_freed_intact (some "1") = some 1 ∧
    init_from_cmap_host_port 5403 read_freed_intact (some "65536") = none ∧
    init_from_cmap_host_port 5403 read_freed_intact (some "0") = none ∧
    init_from_cmap_host_port 5403 read_freed_intact (some "-5") = none ∧
    init_from_cmap_host_port 5403 read_freed_intact (some "80x") = none ∧
    init_from_cmap_host_port 5403 read_freed_intact (some "") = none ∧
    strtol (c_str "4294967297") = (4294967297, []) ∧
    init_from_cmap_host_port 5403 read_freed_intact (some "4294967297") = some 1 ∧
    (qdevice_net_instance_init_from_cmap sample_cmap_defaults_intact
      (sample_cmap none (some "4294967297"))).map (fun i => i.host_port) = some 1 := by
  decide

/-- `strcasecmp` yields `0` exactly when the two strings agree after `tolower`. -/
theorem strcasecmp_eq_zero_iff (a b : List Nat) :
    strcasecmp a b = 0 ↔ a.map tolower = b.map tolower := by
  induction a generalizing b with
  | nil => cases b <;> simp [strcasecmp]
  | cons x xs ih =>
    cases b with
    | nil => simp [strcasecmp]
    | cons y ys =>
      unfold strcasecmp
      split_ifs with h1 h2
      · simp [h1, ih]
      · simp [h1]
      · simp [h1]

/-- The bytes that `tolower` maps to a byte that is not an upper-case letter. -/
theorem tolower_eq_iff (c l : Nat) (hl : ¬ (65 ≤ l ∧ l ≤ 90)) :
    tolower c = l ↔ c = l ∨ ((97 ≤ l ∧ l ≤ 122) ∧ c = l - 32) := by
  unfold tolower
  split_ifs <;> omega

/-- The strings that `tolower` maps to a string without upper-case letters are its case
variants. -/
theorem map_tolower_eq_iff (t : List Nat) (ht : ∀ l ∈ t, ¬ (65 ≤ l ∧ l ≤ 90)) (s : List Nat) :
    s.map tolower = t ↔ s ∈ case_variants t := by
  induction t generalizing s with
  | nil => simp [case_variants]
  | cons l t ih =>
    have hl := ht l (List.mem_cons_self l t)
    have ih := ih (fun x hx => ht x (List.mem_cons_of_mem l hx))
    cases s with
    | nil =>
      unfold case_variants
      split_ifs <;> simp
    | cons x xs =>
      unfold case_variants
      rw [List.map_cons, List.cons.injEq, tolower_eq_iff x l hl, ih xs]
      split_ifs with h
      · simp only [List.mem_append, List.mem_map, List.cons.injEq]
        constructor
        · rintro ⟨h1 | ⟨_, h1⟩, h2⟩
          · exact Or.inl ⟨xs, h2, h1.symm, rfl⟩
          · exact Or.inr ⟨xs, h2, h1.symm, rfl⟩
        · rintro (⟨v, h1, h2, h3⟩ | ⟨v, h1, h2, h3⟩)
          · exact ⟨Or.inl h2.symm, h3 ▸ h1⟩
          · exact ⟨Or.inr ⟨h, h2.symm⟩, h3 ▸ h1⟩
      · simp only [List.append_nil, List.mem_map, List.cons.injEq]
        constructor
        · rintro ⟨h1 | ⟨h0, _⟩, h2⟩
          · exact ⟨xs, h2, h1.symm, rfl⟩
          · exact absurd h0 h
        · rintro ⟨v, h1, h2, h3⟩
          exact ⟨Or.inl h2.symm, h3 ▸ h1⟩

/-- The texts accepted as true are the case variants of "yes", "on" and "1". -/
theorem bool_str_true_variants : bool_str_true.map c_str =
    case_variants (c_str "yes") ++ case_variants (c_str "on") ++ case_variants (c_str "1") := by
  decide

/-- The texts accepted as false are the case variants of "no", "off" and "0". -/
theorem bool_str_false_variants : bool_str_false.map c_str =
    case_variants (c_str "no") ++ case_variants (c_str "off") ++ case_variants (c_str "0") := by
  decide

/-- The strings that `strcasecmp` finds equal to a word without upper-case letters are
the case variants of the word. -/
theorem strcasecmp_word (str : List Nat) (w : String)
    (hw : ∀ l ∈ c_str w, ¬ (65 ≤ l ∧ l ≤ 90)) :
    strcasecmp str (c_str w) = 0 ↔ str ∈ case_variants (c_str w) := by
  have hid : (c_str w).map tolower = c_str w := by
    conv_rhs => rw [← List.map_id (c_str w)]
    apply List.map_congr_left
    intro l hl
    unfold tolower
    rw [if_neg (hw l hl)]
    rfl
  rw [strcasecmp_eq_zero_iff, hid, map_tolower_eq_iff _ hw]

/-- `qdevice_net_parse_bool_str` returns `1` exactly on the texts accepted as true. -/
theorem parse_bool_str_true_iff (str : List Nat) :
    qdevice_net_parse_bool_str str = 1 ↔ str ∈ bool_str_true.map c_str := by
  rw [bool_str_true_variants]
  simp only [List.mem_append]
  rw [← strcasecmp_word str "yes" (by decide), ← strcasecmp_word str "on" (by decide),
    ← strcasecmp_word str "1" (by decide)]
  unfold qdevice_net_parse_bool_str
  split_ifs with h1 h2
  · simp only [true_iff]
    tauto
  · simp only [zero_ne_one, false_iff]
    tauto
  · constructor
    · intro h
      exact absurd h (by decide)
    · intro h
      exact absurd (by tauto) h1

/-- No text is accepted both as true and as false. -/
theorem bool_str_disjoint (str : List Nat) (h1 : str ∈ bool_str_true.map c_str)
    (h0 : str ∈ bool_str_false.map c_str) : False := by
  have hd : ∀ a ∈ bool_str_true.map c_str, a ∉ bool_str_false.map c_str := by decide
  exact hd str h1 h0

/-- `qdevice_net_parse_bool_str` returns `0` exactly on the texts accepted as false. -/
theorem parse_bool_str_false_iff (str : List Nat) :
    qdevice_net_parse_bool_str str = 0 ↔ str ∈ bool_str_false.map c_str := by
  have ht := parse_bool_str_true_iff str
  constructor
  · intro h
    rw [bool_str_false_variants]
    simp only [List.mem_append]
    rw [← strcasecmp_word str "no" (by decide), ← strcasecmp_word str "off" (by decide),
      ← strcasecmp_word str "0" (by decide)]
    unfold qdevice_net_parse_bool_str at h
    split_ifs at h with h1 h2
    all_goals first
      | exact absurd h (by decide)
      | tauto
  · intro h
    have hnt : qdevice_net_parse_bool_str str ≠ 1 := fun hc => bool_str_disjoint str (ht.1 hc) h
    rw [bool_str_false_variants] at h
    simp only [List.mem_append] at h
    rw [← strcasecmp_word str "no" (by decide), ← strcasecmp_word str "off" (by decide),
      ← strcasecmp_word str "0" (by decide)] at h
    unfold qdevice_net_parse_bool_str at hnt ⊢
    split_ifs at hnt ⊢ with h1 h2
    · exact absurd rfl hnt
    · rfl
    · exact absurd (by tauto) h2

/-- `qdevice_net_parse_bool_str` returns `1`, `0` or `-1`. -/
theorem parse_bool_str_ret (str : List Nat) :
    qdevice_net_parse_bool_str str = 1 ∨ qdevice_net_parse_bool_str str = 0 ∨
    qdevice_net_parse_bool_str str = -1 := by
  unfold qdevice_net_parse_bool_str
  split_ifs <;> simp

/-- The TLS mode read from a text of the configuration. -/
theorem init_from_cmap_tls_some (unassigned : tlv_tls_supported) (text : String) :
    (qdevice_net_parse_bool_str (c_str text) = 1 →
      init_from_cmap_tls unassigned (some text) = some .TLV_TLS_SUPPORTED) ∧
    (qdevice_net_parse_bool_str (c_str text) = 0 →
      init_from_cmap_tls unassigned (some text) = some .TLV_TLS_UNSUPPORTED) ∧
    (qdevice_net_parse_bool_str (c_str text) = -1 →
      init_from_cmap_tls unassigned (some text) = none) := by
  unfold init_from_cmap_tls
  refine ⟨?_, ?_, ?_⟩ <;> intro h <;> simp [h]

/-- The instance initialised from the configuration has the TLS mode read from it,
and there is none when no TLS mode can be read. -/
theorem init_from_cmap_tls_supported (defaults : cmap_defaults) (cm : cmap) :
    (init_from_cmap_tls defaults.tls_supported_unassigned cm.quorum_device_net_tls = none →
      qdevice_net_instance_init_from_cmap defaults cm = none) ∧
    (∀ inst, qdevice_net_instance_init_from_cmap defaults cm = some inst →
      init_from_cmap_tls defaults.tls_supported_unassigned cm.quorum_device_net_tls =
        some inst.tls_supported) := by
  unfold qdevice_net_instance_init_from_cmap
  cases cm.quorum_device_model with
  | none => simp
  | some model =>
    by_cases hm : model = "net"
    swap
    · simp [hm]
    cases cm.runtime_votequorum_this_node_id with
    | none => simp
    | some node_id =>
      cases init_from_cmap_tls defaults.tls_supported_unassigned cm.quorum_device_net_tls with
      | none => simp
      | some tls =>
        cases cm.quorum_device_net_host with
        | none => simp
        | some host =>
          cases init_from_cmap_host_port defaults.QNETD_DEFAULT_HOST_PORT defaults.read_freed
              cm.quorum_device_net_port with
          | none => simp
          | some port =>
            cases cm.totem_cluster_name with
            | none => simp
            | some name =>
              simp only [hm, ne_eq, not_true_eq_false, if_false, Option.some.injEq]
              refine ⟨fun h => absurd h (by simp), ?_⟩
              intro inst h
              rw [← h]
              rfl

/-- C23. `qdevice_net_parse_bool_str` returns `1` exactly for "yes", "on" (in any
mix of upper and lower case) and "1", `0` exactly for "no", "off" (in any mix of
upper and lower case) and "0", and `-1` for every other string. A
`quorum.device.net.tls` value for which it returns `1` gives the TLS mode
SUPPORTED, one for which it returns `0` gives UNSUPPORTED, and one for which it
returns `-1` ends the process: no instance is initialised. -/
theorem parse_bool_str_outcome (str : List Nat) (text : String) (defaults : cmap_defaults)
    (cm : cmap) :
    (qdevice_net_parse_bool_str str = 1 ↔ str ∈ bool_str_true.map c_str) ∧
    (qdevice_net_parse_bool_str str = 0 ↔ str ∈ bool_str_false.map c_str) ∧
    (qdevice_net_parse_bool_str str = -1 ↔
      str ∉ bool_str_true.map c_str ∧ str ∉ bool_str_false.map c_str) ∧
    (cm.quorum_device_net_tls = some text →
      (qdevice_net_parse_bool_str (c_str text) = -1 →
        qdevice_net_instance_init_from_cmap defaults cm = none) ∧
      (∀ inst, qdevice_net_instance_init_from_cmap defaults cm = some inst →
        (qdevice_net_parse_bool_str (c_str text) = 1 →
          inst.tls_supported = .TLV_TLS_SUPPORTED) ∧
        (qdevice_net_parse_bool_str (c_str text) = 0 →
          inst.tls_supported = .TLV_TLS_UNSUPPORTED))) := by
  have h1 := parse_bool_str_true_iff str
  have h0 := parse_bool_str_false_iff str
  refine ⟨h1, h0, ?_, ?_⟩
  · rw [← h1, ← h0]
    rcases parse_bool_str_ret str with h | h | h <;> rw [h] <;> decide
  · intro htext
    obtain ⟨t1, t0, tm⟩ := init_from_cmap_tls_some defaults.tls_supported_unassigned text
    obtain ⟨i1, i2⟩ := init_from_cmap_tls_supported defaults cm
    rw [htext] at i1 i2
    refine ⟨fun h => i1 (tm h), ?_⟩
    intro inst hinst
    have hi := i2 inst hinst
    refine ⟨?_, ?_⟩
    · intro h
      rw [t1 h] at hi
      injection hi with hi
      exact hi.symm
    · intro h
      rw [t0 h] at hi
      injection hi with hi
      exact hi.symm

/-- Witness of C23: "YeS" and "1" are true, "oFF" is false; the empty string,
" yes", "yes " and "true" are rejected. A configuration with the TLS value "On"
gives the mode SUPPORTED, with "no" UNSUPPORTED, and with "maybe" none. -/
theorem parse_bool_str_outcome_witness :
    qdevice_net_parse_bool_str (c_str "YeS") = 1 ∧
    qdevice_net_parse_bool_str (c_str "1") = 1 ∧
    qdevice_net_parse_bool_str (c_str "oFF") = 0 ∧
    qdevice_net_parse_bool_str (c_str "") = -1 ∧
    qdevice_net_parse_bool_str (c_str " yes") = -1 ∧
    qdevice_net_parse_bool_str (c_str "yes ") = -1 ∧
    qdevice_net_parse_bool_str (c_str "true") = -1 ∧
    (qdevice_net_instance_init_from_cmap sample_cmap_defaults
      (sample_cmap (some "On") none)).map (fun i => i.tls_supported) =
      some .TLV_TLS_SUPPORTED ∧
    (qdevice_net_instance_init_from_cmap sample_cmap_defaults
      (sample_cmap (some "no") none)).map (fun i => i.tls_supported) =
      some .TLV_TLS_UNSUPPORTED ∧
    qdevice_net_instance_init_from_cmap sample_cmap_defaults
      (sample_cmap (some "maybe") none) = none :=
  ⟨(parse_bool_str_outcome (c_str "YeS") "On" sample_cmap_defaults
      (sample_cmap (some "On") none)).1.2 (by decide),
    (parse_bool_str_outcome (c_str "1") "On" sample_cmap_defaults
      (sample_cmap (some "On") none)).1.2 (by decide),
    (parse_bool_str_outcome (c_str "oFF") "On" sample_cmap_defaults
      (sample_cmap (some "On") none)).2.1.2 (by decide),
    (parse_bool_str_outcome (c_str "") "On" sample_cmap_defaults
      (sample_cmap (some "On") none)).2.2.1.2 (by decide),
    (parse_bool_str_outcome (c_str " yes") "On" sample_cmap_defaults
      (sample_cmap (some "On") none)).2.2.1.2 (by decide),
    (parse_bool_str_outcome (c_str "yes ") "On" sample_cmap_defaults
      (sample_cmap (some "On") none)).2.2.1.2 (by decide),
    (parse_bool_str_outcome (c_str "true") "On" sample_cmap_defaults
      (sample_cmap (some "On") none)).2.2.1.2 (by decide),
    by decide, by decide,
    ((parse_bool_str_outcome (c_str "maybe") "maybe" sample_cmap_defaults
      (sample_cmap (some "maybe") none)).2.2.2 rfl).1 (by decide)⟩

/-- On a string of digits `strtol_digits` reads the whole string. -/
theorem strtol_digits_all (digits : List Nat) (acc : Nat)
    (h : ∀ c ∈ digits, isdigit c = true) :
    strtol_digits digits acc = (digits.foldl (fun a c => a * 10 + (c - 48)) acc, []) := by
  induction digits generalizing acc with
  | nil => rfl
  | cons c rest ih =>
    unfold strtol_digits
    rw [if_pos (h c (List.mem_cons_self c rest))]
    rw [ih _ (fun x hx => h x (List.mem_cons_of_mem c hx))]
    rfl

/-- On a non-empty string of digits `strtol` yields the number the string denotes,
clamped to `LONG_MAX`, and consumes the whole string. -/
theorem strtol_decimal (digits : List Nat) (hne : digits ≠ [])
    (h : ∀ c ∈ digits, isdigit c = true) :
    strtol digits = (min LONG_MAX (decimal_value digits : Int), []) := by
  cases digits with
  | nil => exact absurd rfl hne
  | cons c rest =>
    have hc := h c (List.mem_cons_self c rest)
    have hrange : 48 ≤ c ∧ c ≤ 57 := by
      unfold isdigit at hc
      simpa using hc
    have hsp : isspace c = false := by
      unfold isspace
      simp
      omega
    have h45 : c ≠ 45 := by omega
    have h43 : c ≠ 43 := by omega
    unfold strtol
    simp only [List.dropWhile, hsp, List.head?_cons, Option.some.injEq, h45, h43, or_self,
      if_false, hc, if_true]
    rw [strtol_digits_all _ _ h]
    simp only [decimal_value]
    congr 1
    have hmin : (-(2 ^ 63) : Int) ≤ min LONG_MAX
        ((List.foldl (fun a c => a * 10 + (c - 48)) 0 (c :: rest) : Nat) : Int) := by
      unfold LONG_MAX
      omega
    unfold LONG_MIN
    exact max_eq_right hmin

/-- The port check on a non-empty string of digits that denotes a number below
`2 ^ 31`: the string is accepted exactly when the number is in the range 1 to
65535 and the byte read behind the digits in the freed block is `0`, and then the
port is that number. -/
theorem host_port_decimal (default_host_port : Int) (read_freed : List Nat → Nat → Nat)
    (text : String) (hne : c_str text ≠ []) (hd : ∀ c ∈ c_str text, isdigit c = true)
    (hv : decimal_value (c_str text) < 2 ^ 31) :
    init_from_cmap_host_port default_host_port read_freed (some text) =
      if 1 ≤ decimal_value (c_str text) ∧ decimal_value (c_str text) ≤ 65535 ∧
          read_freed (c_str text) (c_str text).length = 0 then
        some (decimal_value (c_str text) : Int)
      else none := by
  unfold init_from_cmap_host_port
  simp only []
  rw [strtol_decimal _ hne hd]
  have hmin : min LONG_MAX (decimal_value (c_str text) : Int) = decimal_value (c_str text) := by
    unfold LONG_MAX
    omega
  simp only [hmin, List.length_nil, Nat.sub_zero]
  have hconv : int_of_long (decimal_value (c_str text) : Int) = decimal_value (c_str text) := by
    unfold int_of_long
    omega
  rw [hconv]
  split_ifs with h1 h2 h2
  · rcases h1 with h | h | h
    · omega
    · omega
    · exact absurd h2.2.2 h
  · rfl
  · rfl
  · exfalso
    apply h2
    refine ⟨by omega, by omega, ?_⟩
    by_contra hc
    exact h1 (Or.inr (Or.inr hc))

/-- Witness of the above: where the freed block is intact "5403" is accepted as
5403 and "70000" is fatal; where it is overwritten "5403" is fatal. -/
theorem host_port_decimal_witness :
    init_from_cmap_host_port 5403 read_freed_intact (some "5403") = some 5403 ∧
    init_from_cmap_host_port 5403 read_freed_intact (some "70000") = none ∧
    init_from_cmap_host_port 5403 read_freed_overwritten (some "5403") = none :=
  ⟨by rw [host_port_decimal 5403 read_freed_intact "5403" (by decide) (by decide) (by decide)]
      decide,
    by rw [host_port_decimal 5403 read_freed_intact "70000" (by decide) (by decide) (by decide)]
       decide,
    by rw [host_port_decimal 5403 read_freed_overwritten "5403" (by decide) (by decide)
        (by decide)]
       decide⟩

/-- The two handshake replies before SET_OPTION_REPLY are accepted once: after an
accepted PREINIT_REPLY every further PREINIT_REPLY is rejected, and after an
accepted INIT_REPLY every further INIT_REPLY is rejected, the state having moved
on; the instance is left as it was. -/
theorem handshake_replies_accepted_once (env other : handler_env) (inst : qdevice_net_instance)
    (msg again : msg_decoded) :
    ((qdevice_net_msg_received_preinit_reply env inst msg).1 ≠ -1 →
      qdevice_net_msg_received_preinit_reply other
        (qdevice_net_msg_received_preinit_reply env inst msg).2 again =
        (-1, (qdevice_net_msg_received_preinit_reply env inst msg).2)) ∧
    ((qdevice_net_msg_received_init_reply env inst msg).1 ≠ -1 →
      qdevice_net_msg_received_init_reply other
        (qdevice_net_msg_received_init_reply env inst msg).2 again =
        (-1, (qdevice_net_msg_received_init_reply env inst msg).2)) := by
  refine ⟨?_, ?_⟩
  · intro h
    obtain ⟨_, _, _, _, _, _, hst⟩ := preinit_reply_accepted_effect env inst msg h
    have hne : (qdevice_net_msg_received_preinit_reply env inst msg).2.state ≠
        .QDEVICE_NET_STATE_WAITING_PREINIT_REPLY := by
      rcases hst with ⟨_, h1, _⟩ | ⟨_, h1, _⟩ <;> rw [h1] <;> decide
    generalize (qdevice_net_msg_received_preinit_reply env inst msg).2 = a at hne
    unfold qdevice_net_msg_received_preinit_reply
    simp [hne]
  · intro h
    obtain ⟨_, _, _, _, _, _, hst, _⟩ := init_reply_accepted_effect env inst msg h
    apply init_reply_early_reject_unchanged
    left
    rw [hst]
    decide

/-- Witness of the above on the sample handshake: the PREINIT_REPLY and the
INIT_REPLY that were accepted are rejected when they arrive again. -/
theorem handshake_replies_accepted_once_witness :
    (qdevice_net_msg_received_preinit_reply sample_env (sample_handshake_state 2)
      (sample_preinit_reply 1 .TLV_TLS_UNSUPPORTED)).1 = -1 ∧
    (qdevice_net_msg_received_init_reply sample_env (sample_handshake_state 4)
      (sample_init_reply 2 [0])).1 = -1 := by
  have a := (handshake_replies_accepted_once sample_env sample_env (sample_handshake_state 1)
    (sample_preinit_reply 1 .TLV_TLS_UNSUPPORTED) (sample_preinit_reply 1 .TLV_TLS_UNSUPPORTED)).1
    (by decide)
  have b := (handshake_replies_accepted_once sample_env sample_env (sample_handshake_state 3)
    (sample_init_reply 2 [0]) (sample_init_reply 2 [0])).2 (by decide)
  have ea : (qdevice_net_msg_received_preinit_reply sample_env (sample_handshake_state 1)
      (sample_preinit_reply 1 .TLV_TLS_UNSUPPORTED)).2 = sample_handshake_state 2 := by decide
  have eb : (qdevice_net_msg_received_init_reply sample_env (sample_handshake_state 3)
      (sample_init_reply 2 [0])).2 = sample_handshake_state 4 := by decide
  rw [ea] at a
  rw [eb] at b
  exact ⟨by rw [a], by rw [b]⟩

/-- In the state WAITING_SET_OPTION_REPLY no message changes the main sending flag
or the state. -/
theorem msg_received_last_state (env : handler_env) (decoded : Int × msg_decoded)
    (inst : qdevice_net_instance)
    (h : inst.state = .QDEVICE_NET_STATE_WAITING_SET_OPTION_REPLY) :
    (qdevice_net_msg_received env decoded inst).2.sending_msg = inst.sending_msg ∧
    (qdevice_net_msg_received env decoded inst).2.state = inst.state := by
  unfold qdevice_net_msg_received
  by_cases hd : decoded.1 = 0
  swap
  · simp [hd]
  simp only [hd, ne_eq, not_true_eq_false, if_false]
  cases ht : decoded.2.type
  case pos.MSG_TYPE_PREINIT_REPLY =>
    show (qdevice_net_msg_received_preinit_reply env inst decoded.2).2.sending_msg = _ ∧ _
    unfold qdevice_net_msg_received_preinit_reply
    simp [h]
  case pos.MSG_TYPE_INIT_REPLY =>
    show (qdevice_net_msg_received_init_reply env inst decoded.2).2.sending_msg = _ ∧ _
    rw [init_reply_early_reject_unchanged env inst decoded.2 (Or.inl (by rw [h]; decide))]
    exact ⟨rfl, rfl⟩
  case pos.MSG_TYPE_SET_OPTION_REPLY =>
    show (qdevice_net_msg_received_set_option_reply env inst decoded.2).2.sending_msg = _ ∧ _
    unfold qdevice_net_msg_received_set_option_reply
    simp only []
    split_ifs <;> exact ⟨rfl, rfl⟩
  case pos.MSG_TYPE_ECHO_REPLY =>
    show (qdevice_net_msg_received_echo_reply inst decoded.2).2.sending_msg = _ ∧ _
    rcases echo_reply_result inst decoded.2 with hr | ⟨_, hr⟩ <;> rw [hr] <;> exact ⟨rfl, rfl⟩
  all_goals exact ⟨rfl, rfl⟩

/-- The timer list after a message: it is as it was unless the message is a
SET_OPTION_REPLY, and it is empty only if it was empty. -/
theorem msg_received_timer_list (env : handler_env) (decoded : Int × msg_decoded)
    (inst : qdevice_net_instance) :
    (¬ (decoded.1 = 0 ∧ decoded.2.type = .MSG_TYPE_SET_OPTION_REPLY) →
      (qdevice_net_msg_received env decoded inst).2.main_timer_list = inst.main_timer_list) ∧
    ((qdevice_net_msg_received env decoded inst).2.main_timer_list.entries = [] →
      inst.main_timer_list.entries = []) := by
  unfold qdevice_net_msg_received
  by_cases hd : decoded.1 = 0
  swap
  · simp [hd]
  simp only [hd, ne_eq, not_true_eq_false, if_false, true_and]
  cases ht : decoded.2.type
  case pos.MSG_TYPE_PREINIT_REPLY =>
    have hf := (preinit_reply_main_frame env inst decoded.2).1
    exact ⟨fun _ => hf, fun h => by rw [hf] at h; exact h⟩
  case pos.MSG_TYPE_INIT_REPLY =>
    have hf := (init_reply_main_frame env inst decoded.2).1
    exact ⟨fun _ => hf, fun h => by rw [hf] at h; exact h⟩
  case pos.MSG_TYPE_SET_OPTION_REPLY =>
    refine ⟨fun h => absurd rfl h, ?_⟩
    show (qdevice_net_msg_received_set_option_reply env inst decoded.2).2.main_timer_list.entries
      = [] → _
    unfold qdevice_net_msg_received_set_option_reply timer_list_add
    simp only []
    split_ifs <;> simp
  case pos.MSG_TYPE_ECHO_REPLY =>
    have hf : (qdevice_net_msg_received_echo_reply inst decoded.2).2.main_timer_list =
        inst.main_timer_list := by
      rcases echo_reply_result inst decoded.2 with hr | ⟨_, hr⟩ <;> rw [hr]
    exact ⟨fun _ => hf, fun h => by rw [hf] at h; exact h⟩
  all_goals exact ⟨fun _ => rfl, fun h => h⟩

/-- A successful echo scheduling leaves the main sending flag, the state and the
timer list as they were and sets the echo progress to `0`. -/
theorem schedule_echo_request_send_rest (codec : msg_codec) (inst : qdevice_net_instance)
    (h : (qdevice_net_schedule_echo_request_send codec inst).1 = 0) :
    (qdevice_net_schedule_echo_request_send codec inst).2.sending_msg = inst.sending_msg ∧
    (qdevice_net_schedule_echo_request_send codec inst).2.state = inst.state ∧
    (qdevice_net_schedule_echo_request_send codec inst).2.main_timer_list =
      inst.main_timer_list ∧
    (qdevice_net_schedule_echo_request_send codec inst).2.echo_request_msg_already_sent_bytes =
      0 := by
  unfold qdevice_net_schedule_echo_request_send at h ⊢
  simp only [] at h ⊢
  split_ifs at h ⊢
  all_goals first
    | exact ⟨rfl, rfl, rfl, rfl⟩
    | simp at h

/-- A write of the main buffer leaves the echo sending flag and the echo progress
as they were; a write of the echo-request buffer leaves the main sending flag and
the state as they were. -/
theorem socket_write_other_channel (env : io_env) (inst : qdevice_net_instance) :
    (send_echo_request inst = false →
      (qdevice_net_socket_write env inst).inst.sending_echo_request_msg =
        inst.sending_echo_request_msg ∧
      (qdevice_net_socket_write env inst).inst.echo_request_msg_already_sent_bytes =
        inst.echo_request_msg_already_sent_bytes) ∧
    (send_echo_request inst = true →
      (qdevice_net_socket_write env inst).inst.sending_msg = inst.sending_msg ∧
      (qdevice_net_socket_write env inst).inst.state = inst.state) := by
  have hf := fun x => socket_write_finished_echo env x
  refine ⟨?_, ?_⟩
  · intro h
    unfold qdevice_net_socket_write
    simp only [h, Bool.not_false, if_true]
    split_ifs
    all_goals first
      | exact ⟨rfl, rfl⟩
      | exact hf _
  · intro h
    unfold qdevice_net_socket_write
    simp only [h, Bool.not_true, Bool.false_eq_true, if_false]
    split_ifs <;> exact ⟨rfl, rfl⟩

/-- One event that happens in order keeps `echo_progress_fresh`. -/
theorem step_echo_progress_fresh (inst s : qdevice_net_instance) (e : event)
    (hstep : step inst e = some s) (ho : e.in_order inst) (hi : echo_progress_fresh inst) :
    echo_progress_fresh s := by
  obtain ⟨i1, i2, i3⟩ := hi
  cases e with
  | received env decoded =>
    obtain ⟨_, hs⟩ := step_received env decoded inst s hstep
    obtain ⟨_, f2, f3, _, _, _, _⟩ := msg_received_frame env decoded inst
    obtain ⟨t1, t2⟩ := msg_received_timer_list env decoded inst
    have hlast := msg_received_last_state env decoded inst
    rw [← hs] at f2 f3 t1 t2 hlast
    have hstate : s.main_timer_list.entries ≠ [] →
        inst.state = .QDEVICE_NET_STATE_WAITING_SET_OPTION_REPLY := by
      intro hne
      by_cases hb : inst.main_timer_list.entries = []
      · by_cases hsor : decoded.1 = 0 ∧ decoded.2.type = .MSG_TYPE_SET_OPTION_REPLY
        · exact ho hsor
        · rw [t1 hsor] at hne
          exact absurd hb hne
      · exact i2 hb
    refine ⟨?_, ?_, ?_⟩
    · intro he
      obtain ⟨a, b⟩ := i1 (t2 he)
      exact ⟨f2.trans a, f3.trans b⟩
    · intro hne
      have hst := hstate hne
      rw [(hlast hst).2]
      exact hst
    · intro hm
      rw [f3]
      by_cases hb : s.main_timer_list.entries = []
      · exact (i1 (t2 hb)).2
      · have hst := hstate hb
        rw [(hlast hst).1] at hm
        exact i3 hm
  | heartbeat codec =>
    unfold step at hstep
    simp only [] at hstep
    split_ifs at hstep with h1 h2
    simp only [Option.some.injEq] at hstep
    have hret : (qdevice_net_schedule_echo_request_send codec inst).1 = 0 := by
      rcases schedule_echo_request_send_ret codec inst with h0 | hm
      · exact h0
      · rw [((timer_send_heartbeat_eq codec inst).2 hm)] at h2
        simp at h2
    rw [(timer_send_heartbeat_eq codec inst).1 hret] at hstep
    obtain ⟨r1, r2, r3, r4⟩ := schedule_echo_request_send_rest codec inst hret
    rw [hstep] at r1 r2 r3 r4
    have hne : inst.main_timer_list.entries ≠ [] := by
      intro hc
      rw [hc] at h1
      exact h1 rfl
    refine ⟨?_, ?_, ?_⟩
    · intro he
      rw [r3] at he
      exact absurd he hne
    · intro _
      rw [r2]
      exact i2 hne
    · intro _
      exact r4
  | write env =>
    unfold step at hstep
    simp only [] at hstep
    split_ifs at hstep with h1
    simp only [Option.some.injEq] at hstep
    have htl := (socket_write_main_frame env inst).1
    obtain ⟨o1, o2⟩ := socket_write_other_channel env inst
    have hmain := socket_write_main env inst
    rw [hstep] at htl o1 o2 hmain
    by_cases hse : send_echo_request inst = true
    · obtain ⟨a, b⟩ := o2 hse
      have hidle : inst.sending_msg = 0 := by
        by_contra hc
        have hb := i3 hc
        unfold send_echo_request at hse
        simp [hc, hb] at hse
      have hecho : inst.sending_echo_request_msg ≠ 0 := by
        rcases ho with h | h
        · exact absurd hidle h
        · exact h
      have hne : inst.main_timer_list.entries ≠ [] := fun hc => hecho (i1 hc).1
      refine ⟨?_, ?_, ?_⟩
      · intro he
        rw [htl] at he
        exact absurd he hne
      · intro _
        rw [b]
        exact i2 hne
      · intro hm
        rw [a] at hm
        exact absurd hidle hm
    · have hse : send_echo_request inst = false := by simpa using hse
      obtain ⟨a, b⟩ := o1 hse
      have hb : inst.echo_request_msg_already_sent_bytes = 0 := by
        unfold send_echo_request at hse
        simp at hse
        exact hse.2
      refine ⟨?_, ?_, ?_⟩
      · intro he
        rw [htl] at he
        obtain ⟨c, d⟩ := i1 he
        exact ⟨a.trans c, b.trans d⟩
      · intro hne
        rw [htl] at hne
        have hst := i2 hne
        rcases hmain with h | ⟨h, _⟩ | ⟨h, _⟩
        · exact absurd h h1
        · rw [h]
          exact hst
        · rw [hst] at h
          exact absurd h (by decide)
      · intro _
        rw [b]
        exact hb

/-- A sequence of events that happen in order keeps `echo_progress_fresh`. -/
theorem run_echo_progress_fresh (events : List event) (inst s : qdevice_net_instance)
    (hrun : run inst events = some s) (ho : events_in_order inst events)
    (hi : echo_progress_fresh inst) : echo_progress_fresh s := by
  induction events generalizing inst with
  | nil =>
    simp only [run, Option.some.injEq] at hrun
    rw [← hrun]
    exact hi
  | cons e rest ih =>
    unfold run at hrun
    unfold events_in_order at ho
    cases hs : step inst e with
    | none => simp [hs] at hrun
    | some m =>
      simp only [hs] at hrun ho
      exact ih m hrun ho.2 (step_echo_progress_fresh inst m e hs ho.1 hi)

/-- The writer picks a channel with a message in flight in every orderly run. From
the start of `main`, along every sequence of events in which each SET_OPTION_REPLY
is received in the state WAITING_SET_OPTION_REPLY and each write is made while a
message is in flight: in the state reached, when one of the two sending flags is
set, `qdevice_net_socket_write` writes the echo-request buffer only if
`sending_echo_request_msg` is set and the main buffer only if `sending_msg` is
set. -/
theorem writer_picks_channel_in_flight (codec : msg_codec) (tls_supported : tlv_tls_supported)
    (node_id decision_algorithm heartbeat_interval : Nat) (host_addr : String) (host_port : Nat)
    (cluster_name : String) (socket : Nat) (s0 : qdevice_net_instance)
    (hmain : main_schedule_preinit codec (main_instance tls_supported node_id decision_algorithm
      heartbeat_interval host_addr host_port cluster_name socket) = some s0)
    (events : List event) (horder : events_in_order s0 events) (s : qdevice_net_instance)
    (hrun : run s0 events = some s)
    (hflag : s.sending_msg ≠ 0 ∨ s.sending_echo_request_msg ≠ 0) (env : io_env) :
    (io_call.msgio_write_echo_request_send_buffer ∈ (qdevice_net_socket_write env s).calls →
      s.sending_echo_request_msg ≠ 0) ∧
    (io_call.msgio_write_send_buffer ∈ (qdevice_net_socket_write env s).calls →
      s.sending_msg ≠ 0) := by
  have hstart : echo_progress_fresh s0 := by
    obtain ⟨_, _, k3⟩ := main_schedule_preinit_no_echo_yet codec tls_supported node_id
      decision_algorithm heartbeat_interval host_addr host_port cluster_name socket s0 hmain
    unfold main_schedule_preinit at hmain
    simp only [] at hmain
    split_ifs at hmain with h1 h2
    simp only [Option.some.injEq] at hmain
    have e1 : s0.sending_echo_request_msg = 0 := by
      rw [← hmain]
      show (qdevice_net_schedule_send _).2.sending_echo_request_msg = 0
      rw [schedule_send_sending_echo_request_msg]
      rfl
    have e2 : s0.echo_request_msg_already_sent_bytes = 0 := by
      rw [← hmain]
      show (qdevice_net_schedule_send _).2.echo_request_msg_already_sent_bytes = 0
      rw [schedule_send_echo_request_msg_already_sent_bytes]
      rfl
    exact ⟨fun _ => ⟨e1, e2⟩, fun h => absurd k3 h, fun _ => e2⟩
  obtain ⟨_, _, i3⟩ := run_echo_progress_fresh events s0 s hrun horder hstart
  by_cases hse : send_echo_request s = true
  · have hidle : s.sending_msg = 0 := by
      by_contra hc
      have hb := i3 hc
      unfold send_echo_request at hse
      simp [hc, hb] at hse
    have hecho : s.sending_echo_request_msg ≠ 0 := by
      rcases hflag with h | h
      · exact absurd hidle h
      · exact h
    refine ⟨fun _ => hecho, ?_⟩
    intro hc
    exfalso
    unfold qdevice_net_socket_write at hc
    simp only [hse, Bool.not_true, Bool.false_eq_true, if_false] at hc
    split_ifs at hc <;> simp at hc
  · have hse : send_echo_request s = false := by simpa using hse
    have hm : s.sending_msg ≠ 0 := by
      unfold send_echo_request at hse
      simp at hse
      exact hse.1
    refine ⟨?_, fun _ => hm⟩
    intro hc
    exfalso
    unfold qdevice_net_socket_write at hc
    simp only [hse, Bool.not_false, if_true, socket_write_finished_calls] at hc
    split_ifs at hc <;> simp at hc

/-- Witness of the above on the sample client: after its handshake and the first
heartbeat only the echo request is in flight and the writer writes the
echo-request buffer. -/
theorem writer_picks_channel_in_flight_witness :
    events_in_order sample_main_scheduled sample_first_heartbeat ∧
    (qdevice_net_socket_write sample_io_env
      ((run sample_main_scheduled sample_first_heartbeat).getD sample_main_scheduled)).calls =
      [.msgio_write_echo_request_send_buffer] ∧
    ((run sample_main_scheduled sample_first_heartbeat).getD
      sample_main_scheduled).sending_echo_request_msg ≠ 0 :=
  ⟨by decide, by decide,
    (writer_picks_channel_in_flight sample_codec .TLV_TLS_UNSUPPORTED 7 0 8000 "qnetd.example"
      5403 "cluster" 4 sample_main_scheduled sample_main_scheduled_eq sample_first_heartbeat
      (by decide) ((run sample_main_scheduled sample_first_heartbeat).getD sample_main_scheduled)
      (by decide) (by decide) sample_io_env).1 (by decide)⟩

/-- The two results of the main-channel scheduling. -/
theorem schedule_send_cases (inst : qdevice_net_instance) :
    qdevice_net_schedule_send inst = (-1, inst) ∨
    qdevice_net_schedule_send inst =
      (0, { inst with msg_already_sent_bytes := 0, sending_msg := 1 }) := by
  by_cases h : inst.sending_msg = 0
  · exact Or.inr (schedule_send_idle inst h)
  · exact Or.inl (by simp [qdevice_net_schedule_send, h])

/-- `qdevice_net_send_init` always increments the sequence number; when it fails
it leaves the main sending flag and the state as they were. -/
theorem send_init_any_effect (codec : msg_codec) (inst : qdevice_net_instance) :
    (qdevice_net_send_init codec inst).2.expected_msg_seq_num =
      (inst.expected_msg_seq_num + 1) % 2 ^ 32 ∧
    ((qdevice_net_send_init codec inst).1 ≠ 0 →
      (qdevice_net_send_init codec inst).2.sending_msg = inst.sending_msg ∧
      (qdevice_net_send_init codec inst).2.state = inst.state) := by
  unfold qdevice_net_send_init
  simp only []
  rcases schedule_send_cases
    { inst with
      expected_msg_seq_num := uint32_inc inst.expected_msg_seq_num
      send_buffer := dynar_store inst.send_buffer
        (codec.msg_create_init inst.send_buffer true (uint32_inc inst.expected_msg_seq_num)
          codec.msg_get_supported_messages codec.tlv_get_supported_options inst.node_id).1 }
    with hc | hc
  all_goals
    rw [hc]
    split_ifs
    all_goals first
      | exact ⟨rfl, fun _ => ⟨rfl, rfl⟩⟩
      | exact ⟨rfl, fun h => absurd rfl h⟩
      | (exfalso; simp_all)

/-- The PREINIT_REPLY handler on any message: the sequence number is as it was or
its 32-bit successor, and when the message is rejected the main sending flag and
the state are as they were. -/
theorem preinit_reply_any_effect (env : handler_env) (inst : qdevice_net_instance)
    (msg : msg_decoded) :
    ((qdevice_net_msg_received_preinit_reply env inst msg).2.expected_msg_seq_num =
        inst.expected_msg_seq_num ∨
      (qdevice_net_msg_received_preinit_reply env inst msg).2.expected_msg_seq_num =
        (inst.expected_msg_seq_num + 1) % 2 ^ 32) ∧
    ((qdevice_net_msg_received_preinit_reply env inst msg).1 = -1 →
      (qdevice_net_msg_received_preinit_reply env inst msg).2.sending_msg = inst.sending_msg ∧
      (qdevice_net_msg_received_preinit_reply env inst msg).2.state = inst.state) := by
  by_cases hs : inst.state = .QDEVICE_NET_STATE_WAITING_PREINIT_REPLY
  swap
  · simp [qdevice_net_msg_received_preinit_reply, hs]
  by_cases hc : qdevice_net_msg_check_seq_number inst msg = 0
  swap
  · simp [qdevice_net_msg_received_preinit_reply, hs, hc]
  cases h1 : msg.tls_supported_set
  · simp [qdevice_net_msg_received_preinit_reply, hs, hc, h1]
  cases h2 : msg.tls_client_cert_required_set
  · simp [qdevice_net_msg_received_preinit_reply, hs, hc, h1, h2]
  rcases check_tls_compatibility_values msg.tls_supported inst.tls_supported with c | c | c
  · simp [qdevice_net_msg_received_preinit_reply, hs, hc, h1, h2, c]
  · by_cases hidle : inst.sending_msg = 0 <;>
      by_cases henc : (env.codec.msg_create_init inst.send_buffer true
        ((inst.expected_msg_seq_num + 1) % 4294967296) env.codec.msg_get_supported_messages
        env.codec.tlv_get_supported_options inst.node_id).2 = 0 <;>
      simp [qdevice_net_msg_received_preinit_reply, hs, hc, h1, h2, c, qdevice_net_send_init,
        qdevice_net_schedule_send, hidle, henc, uint32_inc, dynar_store]
  · by_cases hidle : inst.sending_msg = 0 <;>
      by_cases henc : (env.codec.msg_create_starttls inst.send_buffer true
        ((inst.expected_msg_seq_num + 1) % 4294967296)).2 = 0 <;>
      simp [qdevice_net_msg_received_preinit_reply, hs, hc, h1, h2, c,
        qdevice_net_schedule_send, hidle, henc, uint32_inc, dynar_store]

/-- The INIT_REPLY handler on any message: the sequence number is as it was or its
32-bit successor, and when the message is rejected the main sending flag and the
state are as they were. -/
theorem init_reply_any_effect (env : handler_env) (inst : qdevice_net_instance)
    (msg : msg_decoded) :
    ((qdevice_net_msg_received_init_reply env inst msg).2.expected_msg_seq_num =
        inst.expected_msg_seq_num ∨
      (qdevice_net_msg_received_init_reply env inst msg).2.expected_msg_seq_num =
        (inst.expected_msg_seq_num + 1) % 2 ^ 32) ∧
    ((qdevice_net_msg_received_init_reply env inst msg).1 = -1 →
      (qdevice_net_msg_received_init_reply env inst msg).2.sending_msg = inst.sending_msg ∧
      (qdevice_net_msg_received_init_reply env inst msg).2.state = inst.state) := by
  by_cases hrej : init_reply_early_reject inst msg
  · rw [init_reply_early_reject_unchanged env inst msg hrej]
    exact ⟨Or.inl rfl, fun _ => ⟨rfl, rfl⟩⟩
  have hpass := hrej
  unfold init_reply_early_reject at hpass
  push_neg at hpass
  obtain ⟨hs, h1, h2, h3, h4, h5, h6, h7, h8, h9⟩ := hpass
  obtain ⟨algorithms, halgs⟩ := Option.ne_none_iff_exists'.1 h7
  by_cases hmem : inst.decision_algorithm ∈ algorithms
  swap
  · rw [init_reply_algorithm_missing env inst msg algorithms hrej halgs hmem]
    exact ⟨Or.inl rfl, fun _ => ⟨rfl, rfl⟩⟩
  by_cases henc0 : (env.codec.msg_create_set_option
      (dynar_set_max_size inst.send_buffer msg.server_maximum_request_size) true
      ((inst.expected_msg_seq_num + 1) % 2 ^ 32) true inst.decision_algorithm true
      inst.heartbeat_interval).2 = 0
  swap
  · by_cases hidle : inst.sending_msg = 0
    · rw [init_reply_algorithm_present env inst msg algorithms hrej halgs hmem hidle henc0]
      exact ⟨Or.inr rfl, fun h => by simp at h⟩
    · obtain ⟨b1, b2, b3, _⟩ := init_reply_busy env inst msg hidle
      refine ⟨?_, fun _ => ⟨b3, b2⟩⟩
      have hc : qdevice_net_msg_check_seq_number inst msg = 0 :=
        (check_seq_number_eq_zero_iff inst msg).2 ⟨by simpa using h1, h2⟩
      have h3t : msg.server_maximum_request_size_set = true := by simpa using h3
      have h4t : msg.server_maximum_reply_size_set = true := by simpa using h4
      have h5t : msg.supported_messages.isNone = false := by
        cases hm : msg.supported_messages <;> simp_all
      have h6t : msg.supported_options.isNone = false := by
        cases hm : msg.supported_options <;> simp_all
      have h8t : ¬ msg.server_maximum_request_size < inst.min_send_size := by omega
      have h9t : ¬ msg.server_maximum_reply_size > inst.max_receive_size := by omega
      unfold dynar_set_max_size at henc0
      norm_num at henc0
      right
      unfold qdevice_net_msg_received_init_reply
      simp [hs, hc, h3t, h4t, h5t, h6t, halgs, h8t, h9t, decision_algorithm_loop_zero, hmem,
        qdevice_net_schedule_send, hidle, uint32_inc, dynar_store, dynar_set_max_size, henc0]
  have hc : qdevice_net_msg_check_seq_number inst msg = 0 :=
    (check_seq_number_eq_zero_iff inst msg).2 ⟨by simpa using h1, h2⟩
  have h3t : msg.server_maximum_request_size_set = true := by simpa using h3
  have h4t : msg.server_maximum_reply_size_set = true := by simpa using h4
  have h5t : msg.supported_messages.isNone = false := by
    cases hm : msg.supported_messages <;> simp_all
  have h6t : msg.supported_options.isNone = false := by
    cases hm : msg.supported_options <;> simp_all
  have h8t : ¬ msg.server_maximum_request_size < inst.min_send_size := by omega
  have h9t : ¬ msg.server_maximum_reply_size > inst.max_receive_size := by omega
  unfold dynar_set_max_size at henc0
  norm_num at henc0
  unfold qdevice_net_msg_received_init_reply
  simp [hs, hc, h3t, h4t, h5t, h6t, halgs, h8t, h9t, decision_algorithm_loop_zero, hmem,
    uint32_inc, dynar_store, dynar_set_max_size, henc0]

/-- The dispatcher on any message: the sequence number of the main channel is as
it was or its 32-bit successor, and when the message is rejected the main sending
flag and the state are as they were. -/
theorem msg_received_any_effect (env : handler_env) (decoded : Int × msg_decoded)
    (inst : qdevice_net_instance) :
    ((qdevice_net_msg_received env decoded inst).2.expected_msg_seq_num =
        inst.expected_msg_seq_num ∨
      (qdevice_net_msg_received env decoded inst).2.expected_msg_seq_num =
        (inst.expected_msg_seq_num + 1) % 2 ^ 32) ∧
    ((qdevice_net_msg_received env decoded inst).1 = -1 →
      (qdevice_net_msg_received env decoded inst).2.sending_msg = inst.sending_msg ∧
      (qdevice_net_msg_received env decoded inst).2.state = inst.state) := by
  unfold qdevice_net_msg_received
  by_cases hd : decoded.1 = 0
  swap
  · simp [hd]
  simp only [hd, ne_eq, not_true_eq_false, if_false]
  cases ht : decoded.2.type
  case pos.MSG_TYPE_PREINIT_REPLY => exact preinit_reply_any_effect env inst decoded.2
  case pos.MSG_TYPE_INIT_REPLY => exact init_reply_any_effect env inst decoded.2
  case pos.MSG_TYPE_SET_OPTION_REPLY =>
    show ((qdevice_net_msg_received_set_option_reply env inst decoded.2).2.expected_msg_seq_num
      = _ ∨ _) ∧ _
    unfold qdevice_net_msg_received_set_option_reply
    simp only []
    split_ifs <;> exact ⟨Or.inl rfl, fun _ => ⟨rfl, rfl⟩⟩
  case pos.MSG_TYPE_ECHO_REPLY =>
    show ((qdevice_net_msg_received_echo_reply inst decoded.2).2.expected_msg_seq_num = _ ∨ _) ∧ _
    rcases echo_reply_result inst decoded.2 with hr | ⟨_, hr⟩ <;> rw [hr] <;>
      exact ⟨Or.inl rfl, fun _ => ⟨rfl, rfl⟩⟩
  all_goals exact ⟨Or.inl rfl, fun _ => ⟨rfl, rfl⟩⟩

/-- C16, the counterexample. Right after `main` scheduled PREINIT, while PREINIT is
still in flight, a PREINIT_REPLY with sequence number 1 is rejected: the
dispatcher returns `-1`, the main sending flag and the state are as they were and
no message is scheduled, but `expected_msg_seq_num` has moved from 1 to 2. -/
theorem rejected_preinit_reply_moves_sequence_number :
    main_schedule_preinit sample_codec sample_main_instance = some sample_main_scheduled ∧
    sample_main_scheduled.expected_msg_seq_num = 1 ∧
    sample_main_scheduled.sending_msg = 1 ∧
    (qdevice_net_msg_received sample_env (0, sample_preinit_reply 1 .TLV_TLS_UNSUPPORTED)
      sample_main_scheduled).1 = -1 ∧
    (qdevice_net_msg_received sample_env (0, sample_preinit_reply 1 .TLV_TLS_UNSUPPORTED)
      sample_main_scheduled).2.expected_msg_seq_num = 2 ∧
    (qdevice_net_msg_received sample_env (0, sample_preinit_reply 1 .TLV_TLS_UNSUPPORTED)
      sample_main_scheduled).2.sending_msg = 1 ∧
    (qdevice_net_msg_received sample_env (0, sample_preinit_reply 1 .TLV_TLS_UNSUPPORTED)
      sample_main_scheduled).2.msg_already_sent_bytes =
      sample_main_scheduled.msg_already_sent_bytes ∧
    (qdevice_net_msg_received sample_env (0, sample_preinit_reply 1 .TLV_TLS_UNSUPPORTED)
      sample_main_scheduled).2.state = .QDEVICE_NET_STATE_WAITING_PREINIT_REPLY := by
  decide

/-- C16, amended. Sequence numbers of the main channel over a successful handshake. From
the start of `main` the expected sequence number is 1 and PREINIT is encoded with
1. Along a handshake (writes, an accepted PREINIT_REPLY, writes, an accepted
INIT_REPLY, writes, an accepted SET_OPTION_REPLY) the accepted PREINIT_REPLY
carries 1, and: without TLS, INIT is encoded with 2, the accepted INIT_REPLY
carries 2, SET_OPTION is encoded with 3 and the accepted SET_OPTION_REPLY carries
3; with TLS, STARTTLS is encoded with 2, INIT is encoded with 3 by the write that
finishes STARTTLS, the accepted INIT_REPLY carries 3, SET_OPTION is encoded with
4 and the accepted SET_OPTION_REPLY carries 4. In general an accepted message
leaves the sequence number as it was or schedules one message with its successor,
a write leaves it as it was unless it schedules INIT with its successor in the
state WAITING_STARTTLS_BEING_SENT, and the heartbeat leaves it as it was. Every
inbound message, accepted or not, leaves the sequence number as it was or as its
32-bit successor, and a rejected one leaves the main sending flag and the state as
they were: a message rejected after the increment leaves the number incremented
with nothing scheduled. -/
theorem handshake_sequence_numbers (henv : handler_env) (tls_supported : tlv_tls_supported)
    (node_id decision_algorithm heartbeat_interval : Nat) (host_addr : String) (host_port : Nat)
    (cluster_name : String) (socket : Nat) (ws1 ws2 ws3 : List event) (m1 m2 m3 : msg_decoded)
    (s0 a1 a2 a3 a4 a5 a6 : qdevice_net_instance)
    (hmain : main_schedule_preinit henv.codec (main_instance tls_supported node_id
      decision_algorithm heartbeat_interval host_addr host_port cluster_name socket) = some s0)
    (hw1 : writes_with henv.codec ws1) (hw2 : writes_with henv.codec ws2)
    (hw3 : writes_with henv.codec ws3)
    (ht1 : m1.type = .MSG_TYPE_PREINIT_REPLY) (ht2 : m2.type = .MSG_TYPE_INIT_REPLY)
    (ht3 : m3.type = .MSG_TYPE_SET_OPTION_REPLY)
    (h1 : run s0 ws1 = some a1) (h2 : step a1 (.received henv (0, m1)) = some a2)
    (h3 : run a2 ws2 = some a3) (h4 : step a3 (.received henv (0, m2)) = some a4)
    (h5 : run a4 ws3 = some a5) (h6 : step a5 (.received henv (0, m3)) = some a6) :
    s0.expected_msg_seq_num = 1 ∧
    s0.send_buffer.data =
      (henv.codec.msg_create_preinit (main_instance tls_supported node_id decision_algorithm
        heartbeat_interval host_addr host_port cluster_name socket).send_buffer
        cluster_name true 1).1 ∧
    m1.seq_number = 1 ∧
    ((qdevice_net_check_tls_compatibility m1.tls_supported tls_supported = 0 ∧
        a2.expected_msg_seq_num = 2 ∧
        a2.send_buffer.data =
          (henv.codec.msg_create_init a1.send_buffer true 2
            henv.codec.msg_get_supported_messages henv.codec.tlv_get_supported_options
            node_id).1 ∧
        a3.expected_msg_seq_num = 2 ∧
        m2.seq_number = 2 ∧
        a4.expected_msg_seq_num = 3 ∧
        a4.send_buffer.data =
          (henv.codec.msg_create_set_option
            (dynar_set_max_size a3.send_buffer m2.server_maximum_request_size) true 3 true
            decision_algorithm true heartbeat_interval).1 ∧
        m3.seq_number = 3 ∧
        a6.expected_msg_seq_num = 3) ∨
      (qdevice_net_check_tls_compatibility m1.tls_supported tls_supported = 1 ∧
        a2.expected_msg_seq_num = 2 ∧
        a2.state = .QDEVICE_NET_STATE_WAITING_STARTTLS_BEING_SENT ∧
        a2.send_buffer.data = (henv.codec.msg_create_starttls a1.send_buffer true 2).1 ∧
        a3.expected_msg_seq_num = 3 ∧
        a3.send_buffer.data =
          (henv.codec.msg_create_init a2.send_buffer true 3
            henv.codec.msg_get_supported_messages henv.codec.tlv_get_supported_options
            node_id).1 ∧
        m2.seq_number = 3 ∧
        a4.expected_msg_seq_num = 4 ∧
        a4.send_buffer.data =
          (henv.codec.msg_create_set_option
            (dynar_set_max_size a3.send_buffer m2.server_maximum_request_size) true 4 true
            decision_algorithm true heartbeat_interval).1 ∧
        m3.seq_number = 4 ∧
        a6.expected_msg_seq_num = 4)) ∧
    (∀ (env : handler_env) (decoded : Int × msg_decoded) (a : qdevice_net_instance),
      (qdevice_net_msg_received env decoded a).1 ≠ -1 →
      (qdevice_net_msg_received env decoded a).2.expected_msg_seq_num = a.expected_msg_seq_num ∨
      (a.sending_msg = 0 ∧
        (qdevice_net_msg_received env decoded a).2.expected_msg_seq_num =
          (a.expected_msg_seq_num + 1) % 2 ^ 32 ∧
        (qdevice_net_msg_received env decoded a).2.sending_msg = 1 ∧
        (qdevice_net_msg_received env decoded a).2.msg_already_sent_bytes = 0)) ∧
    (∀ (w : io_env) (a : qdevice_net_instance),
      (qdevice_net_socket_write w a).control = .returned (-1) ∨
      (qdevice_net_socket_write w a).inst.expected_msg_seq_num = a.expected_msg_seq_num ∨
      (a.state = .QDEVICE_NET_STATE_WAITING_STARTTLS_BEING_SENT ∧
        (qdevice_net_socket_write w a).inst.expected_msg_seq_num =
          (a.expected_msg_seq_num + 1) % 2 ^ 32 ∧
        (qdevice_net_socket_write w a).inst.sending_msg = 1)) ∧
    (∀ (codec : msg_codec) (a : qdevice_net_instance),
      (qdevice_net_timer_send_heartbeat codec a).2.expected_msg_seq_num =
        a.expected_msg_seq_num) ∧
    (∀ (env : handler_env) (decoded : Int × msg_decoded) (a : qdevice_net_instance),
      ((qdevice_net_msg_received env decoded a).2.expected_msg_seq_num =
          a.expected_msg_seq_num ∨
        (qdevice_net_msg_received env decoded a).2.expected_msg_seq_num =
          (a.expected_msg_seq_num + 1) % 2 ^ 32) ∧
      ((qdevice_net_msg_received env decoded a).1 = -1 →
        (qdevice_net_msg_received env decoded a).2.sending_msg = a.sending_msg ∧
        (qdevice_net_msg_received env decoded a).2.state = a.state)) := by
  obtain ⟨e0, b0, st0, _, tls0, nid0, da0, hb0⟩ := main_schedule_preinit_effect henv.codec _ s0 hmain
  have tls0 : s0.tls_supported = tls_supported := tls0
  have nid0 : s0.node_id = node_id := nid0
  have da0 : s0.decision_algorithm = decision_algorithm := da0
  have hb0 : s0.heartbeat_interval = heartbeat_interval := hb0
  have b0 : s0.send_buffer.data =
      (henv.codec.msg_create_preinit (main_instance tls_supported node_id decision_algorithm
        heartbeat_interval host_addr host_port cluster_name socket).send_buffer
        cluster_name true 1).1 := b0
  -- the writes of PREINIT
  obtain ⟨_, e1, _, f1⟩ := run_writes_keep henv.codec ws1 s0 a1 hw1 h1 (by rw [st0]; decide)
  obtain ⟨_, _, _, _, tls1, nid1, da1, hb1⟩ := f1
  -- the PREINIT_REPLY
  obtain ⟨acc2, eq2⟩ := step_received henv (0, m1) a1 a2 h2
  have hd2 : qdevice_net_msg_received henv (0, m1) a1 =
      qdevice_net_msg_received_preinit_reply henv a1 m1 := by
    unfold qdevice_net_msg_received
    simp [ht1]
  rw [hd2] at acc2 eq2
  obtain ⟨_, q1, _, q2, _, _, q3⟩ := preinit_reply_accepted_effect henv a1 m1 acc2
  obtain ⟨_, _, _, _, tls2, nid2, da2, hb2⟩ := preinit_reply_main_frame henv a1 m1
  rw [← eq2] at q2 q3 tls2 nid2 da2 hb2
  rw [e1, e0] at q1 q2 q3
  rw [tls1, tls0] at q3
  rw [nid1, nid0] at q3
  norm_num at q2 q3
  -- the INIT_REPLY and the SET_OPTION_REPLY, from the state after the second writes
  obtain ⟨acc4, eq4⟩ := step_received henv (0, m2) a3 a4 h4
  have hd4 : qdevice_net_msg_received henv (0, m2) a3 =
      qdevice_net_msg_received_init_reply henv a3 m2 := by
    unfold qdevice_net_msg_received
    simp [ht2]
  rw [hd4] at acc4 eq4
  obtain ⟨st3, r1, _, r2, _, _, st4, r3⟩ := init_reply_accepted_effect henv a3 m2 acc4
  rw [← eq4] at r2 st4 r3
  obtain ⟨_, e5, _, _⟩ := run_writes_keep henv.codec ws3 a4 a5 hw3 h5 (by rw [st4]; decide)
  obtain ⟨acc6, eq6⟩ := step_received henv (0, m3) a5 a6 h6
  have hd6 : qdevice_net_msg_received henv (0, m3) a5 =
      qdevice_net_msg_received_set_option_reply henv a5 m3 := by
    unfold qdevice_net_msg_received
    simp [ht3]
  rw [hd6] at acc6 eq6
  obtain ⟨t1, t2, _⟩ := set_option_reply_accepted_effect henv a5 m3 acc6
  rw [← eq6] at t2
  rw [e5] at t1 t2
  refine ⟨e0, b0, q1, ?_, msg_received_seq_effect, ?_, timer_send_heartbeat_main_seq,
    msg_received_any_effect⟩
  · rcases q3 with ⟨c0, st2, buf2⟩ | ⟨c1, st2, buf2⟩
    · left
      obtain ⟨_, e3, b3, f3⟩ := run_writes_keep henv.codec ws2 a2 a3 hw2 h3 (by rw [st2]; decide)
      obtain ⟨_, _, _, _, _, _, da3, hb3⟩ := f3
      rw [e3, q2] at r1 r2 r3
      rw [da3, da2, da1, da0, hb3, hb2, hb1, hb0] at r3
      norm_num at r2 r3
      rw [r2] at t1 t2
      exact ⟨c0, q2, buf2, by rw [e3, q2], r1, r2, r3, t1, t2⟩
    · right
      obtain ⟨hd, f3⟩ := run_writes_starttls henv.codec ws2 a2 a3 hw2 h3 st2
      obtain ⟨_, _, _, _, _, _, da3, hb3⟩ := f3
      rcases hd with ⟨st3b, _, _⟩ | ⟨_, e3, b3⟩
      · rw [st3b, st2] at st3
        exact absurd st3 (by decide)
      · rw [q2] at e3 b3
        rw [nid2, nid1, nid0] at b3
        norm_num at e3 b3
        rw [e3] at r1 r2 r3
        rw [da3, da2, da1, da0, hb3, hb2, hb1, hb0] at r3
        norm_num at r2 r3
        rw [r2] at t1 t2
        exact ⟨c1, q2, st2, buf2, e3, b3, r1, r2, r3, t1, t2⟩
  · intro w a
    rcases socket_write_main w a with h | ⟨_, h, _⟩ | ⟨hs, _, h, hm, _⟩
    · exact Or.inl h
    · exact Or.inr (Or.inl h)
    · exact Or.inr (Or.inr ⟨hs, h, hm⟩)


/-- Witness of C16 amended: the plain handshake of the sample client goes through the
sequence numbers 1, 2, 3, and its handshake with TLS through 1, 2, 3, 4. -/
theorem handshake_sequence_numbers_witness :
    ((sample_handshake_state 0).expected_msg_seq_num = 1 ∧
      (sample_handshake_state 2).expected_msg_seq_num = 2 ∧
      (sample_handshake_state 4).expected_msg_seq_num = 3 ∧
      (sample_handshake_state 6).expected_msg_seq_num = 3) ∧
    ((sample_handshake_tls_state 0).expected_msg_seq_num = 1 ∧
      (sample_handshake_tls_state 2).expected_msg_seq_num = 2 ∧
      (sample_handshake_tls_state 4).expected_msg_seq_num = 3 ∧
      (sample_handshake_tls_state 5).expected_msg_seq_num = 4 ∧
      (sample_handshake_tls_state 7).expected_msg_seq_num = 4) := by
  have plain := handshake_sequence_numbers sample_env .TLV_TLS_UNSUPPORTED 7 0 8000
    "qnetd.example" 5403 "cluster" 4 [.write sample_io_env] [.write sample_io_env]
    [.write sample_io_env] (sample_preinit_reply 1 .TLV_TLS_UNSUPPORTED)
    (sample_init_reply 2 [0]) (sample_set_option_reply 3)
    (sample_handshake_state 0) (sample_handshake_state 1) (sample_handshake_state 2)
    (sample_handshake_state 3) (sample_handshake_state 4) (sample_handshake_state 5)
    (sample_handshake_state 6) sample_main_scheduled_eq (writes_with_sample 1)
    (writes_with_sample 1) (writes_with_sample 1) rfl rfl rfl (by decide) (by decide)
    (by decide) (by decide) (by decide) (by decide)
  have tls := handshake_sequence_numbers sample_env .TLV_TLS_SUPPORTED 7 0 8000
    "qnetd.example" 5403 "cluster" 4 [.write sample_io_env]
    [.write sample_io_env, .write sample_io_env]
    [.write sample_io_env] (sample_preinit_reply 1 .TLV_TLS_SUPPORTED)
    (sample_init_reply 3 [0]) (sample_set_option_reply 4)
    (sample_handshake_tls_state 0) (sample_handshake_tls_state 1)
    (sample_handshake_tls_state 2) (sample_handshake_tls_state 4)
    (sample_handshake_tls_state 5) (sample_handshake_tls_state 6)
    (sample_handshake_tls_state 7) sample_main_scheduled_tls_eq (writes_with_sample 1)
    (writes_with_sample 2) (writes_with_sample 1) rfl rfl rfl (by decide) (by decide)
    (by decide) (by decide) (by decide) (by decide)
  refine ⟨?_, ?_⟩
  · obtain ⟨k0, _, _, k, _⟩ := plain
    rcases k with ⟨_, k2, _, _, _, k4, _, _, k6⟩ | ⟨c, _⟩
    · exact ⟨k0, k2, k4, k6⟩
    · exact absurd c (by decide)
  · obtain ⟨k0, _, _, k, _⟩ := tls
    rcases k with ⟨c, _⟩ | ⟨_, k2, _, _, k3, _, _, k4, _, _, k6⟩
    · exact absurd c (by decide)
    · exact ⟨k0, k2, k3, k4, k6⟩

end QdeviceNet
